import Mathlib

/-!
# Adaptive input capture and replay engine (clickercasino)

A shallow embedding of the coordinate mapper, the capture handlers and the
coordinate store of `clicker_adaptativo.js` and `detector_firefox_integrado.js`.

Conventions of the embedding:

* JavaScript numbers are exact rationals (`ℚ`); integers produced by `parseInt`
  are cast into `ℚ`.  Division is only ever used with a non-zero divisor in the
  theorems below (window sizes are assumed positive there), so the value `x / 0`
  of Lean never stands for a JavaScript `NaN` or `Infinity`.
* Where the rounding of the machine's numbers decides the question (the replay
  target against the specified mapper, the bounds of the pause between clicks),
  every arithmetic operation is followed by `doble`, the rounding of the exact
  result to the nearest binary64 number, ties to even.
* `null` and `undefined` are `none`.
* Console output and the temporary script files are not part of the state.
-/

namespace Casino

/-! ## Coordinate mapper -/

/-- A point, absolute (pixels) or relative (fractions of the window). -/
structure Punto where
  x : ℚ
  y : ℚ
deriving DecidableEq, Repr

/-- Window geometry, the object held in `ventanaJuego` and `ventanaFirefox`. -/
structure Ventana where
  x : ℚ
  y : ℚ
  width : ℚ
  height : ℚ
deriving DecidableEq, Repr

end Casino

namespace Math

/-- JavaScript `Math.round`: the nearest integer, a tie going up. -/
def round (q : ℚ) : ℤ := ⌊q + 1 / 2⌋

end Math

namespace Casino

/-- Capture formula, the two `relativas` expressions of
`convertirCoordenadasAbsolutas` (clicker_adaptativo.js, lines 143-144). -/
def relativasDeClick (v : Ventana) (cx cy : ℚ) : Punto :=
  { x := (cx - v.x) / v.width
    y := (cy - v.y) / v.height }

/-- Replay target of `ejecutarClicksAdaptativos` (lines 421-423), the product and the
sum taken exactly; `objetivoEjecutarDoble` is the same expression with both rounded
to a double. -/
def objetivoEjecutar (v : Ventana) (rel : Punto) : ℤ × ℤ :=
  (Math.round (v.x + rel.x * v.width), Math.round (v.y + rel.y * v.height))

/-! ### Double-precision arithmetic -/

/-- Rounding to the nearest integer, a tie going to the even one. -/
def redondeoPar (x : ℚ) : ℤ :=
  if x - ⌊x⌋ < 1 / 2 then ⌊x⌋
  else if 1 / 2 < x - ⌊x⌋ then ⌊x⌋ + 1
  else if ⌊x⌋ % 2 = 0 then ⌊x⌋ else ⌊x⌋ + 1

/-- The binary exponent with which a double stores `q`: that of the leading bit of
`q`, and -1022 for the subnormal numbers. -/
def exponenteDoble (q : ℚ) : ℤ := max (Int.log 2 |q|) (-1022)

/-- The double nearest to `q` (IEEE 754 binary64: 53 significant bits, round to
nearest, ties to even), which is what a JavaScript arithmetic operation stores when
its exact result is `q`.  Overflow to `Infinity` (magnitudes from `2^1024` on) is not
represented. -/
def doble (q : ℚ) : ℚ :=
  redondeoPar (q / 2 ^ (exponenteDoble q - 52)) * 2 ^ (exponenteDoble q - 52)

/-- Replay target of `ejecutarClicksAdaptativos` (lines 421-423) as the machine
computes it: the product `rel * size` and its sum with the origin are each rounded
to a double before `Math.round`. -/
def objetivoEjecutarDoble (v : Ventana) (rel : Punto) : ℤ × ℤ :=
  (Math.round (doble (v.x + doble (rel.x * v.width))),
    Math.round (doble (v.y + doble (rel.y * v.height))))

/-- Point printed by `verificarCoordenadas` (lines 471-473) as the machine computes
it. -/
def objetivoVerificarDoble (v : Ventana) (rel : Punto) : ℤ × ℤ :=
  (Math.round (doble (v.x + doble (rel.x * v.width))),
    Math.round (doble (v.y + doble (rel.y * v.height))))

/-- Point exported by `exportarClicksFisicos` (lines 495-497) as the machine computes
it. -/
def objetivoExportarDoble (v : Ventana) (rel : Punto) : ℤ × ℤ :=
  (Math.round (doble (v.x + doble (rel.x * v.width))),
    Math.round (doble (v.y + doble (rel.y * v.height))))

/-- The mapper of the specification, section 4.2:
`toAbsolute(rel, geom) = (origin.x + round(rel.x * w), origin.y + round(rel.y * h))`,
for an integer origin. -/
def toAbsoluteSpec (ox oy : ℤ) (w h : ℚ) (rel : Punto) : ℤ × ℤ :=
  (ox + Math.round (rel.x * w), oy + Math.round (rel.y * h))

/-! ## Values, entries and `esNumero` -/

/-- The JavaScript value of a `valor` field: a number or a string. -/
inductive Valor where
  | num (n : ℤ)
  | str (s : String)
deriving DecidableEq, Repr

/-- JavaScript truthiness of a present value (`0` and the empty string are falsy). -/
def Valor.truthy : Valor → Bool
  | .num n => n != 0
  | .str s => s != ""

/-- JavaScript `a || b` on possibly absent values. -/
def oSi (a b : Option Valor) : Option Valor :=
  match a with
  | some v => if v.truthy then a else b
  | none => b

/-- JavaScript `a || b` on possibly absent strings with a string default. -/
def oTexto (a : Option String) (b : String) : String :=
  match a with
  | some s => if s != "" then s else b
  | none => b

/-- White space skipped by `parseInt` (StrWhiteSpaceChar of ECMAScript). -/
def esEspacioJs (c : Char) : Bool :=
  let n := c.toNat
  n == 9 || n == 10 || n == 11 || n == 12 || n == 13 || n == 32 || n == 160 ||
  n == 5760 || (8192 ≤ n && n ≤ 8202) || n == 8232 || n == 8233 || n == 8239 ||
  n == 8287 || n == 12288 || n == 65279

/-- Value of a digit in radix 16 (and so in radix 10 for `0`..`9`). -/
def valorDigito (c : Char) : Option ℕ :=
  if c.isDigit then some (c.toNat - 48)
  else if 97 ≤ c.toNat ∧ c.toNat ≤ 102 then some (c.toNat - 87)
  else if 65 ≤ c.toNat ∧ c.toNat ≤ 70 then some (c.toNat - 55)
  else none

/-- Longest run of digits valid in `radix` at the head of `cs`, as digit values. -/
def digitosValidos (radix : ℕ) : List Char → List ℕ
  | [] => []
  | c :: cs =>
    match valorDigito c with
    | some d => if d < radix then d :: digitosValidos radix cs else []
    | none => []

/-- JavaScript `parseInt(s)` with no radix argument; `none` is `NaN`. -/
def parseIntTexto (s : String) : Option ℤ :=
  let cs := s.toList.dropWhile esEspacioJs
  let signo : ℤ := match cs with
    | '-' :: _ => -1
    | _ => 1
  let cs := match cs with
    | '-' :: r => r
    | '+' :: r => r
    | _ => cs
  let radix : ℕ := match cs with
    | '0' :: 'x' :: _ => 16
    | '0' :: 'X' :: _ => 16
    | _ => 10
  let cs := match cs with
    | '0' :: 'x' :: r => r
    | '0' :: 'X' :: r => r
    | _ => cs
  match digitosValidos radix cs with
  | [] => none
  | ds => some (signo * ((ds.foldl (fun acc d => acc * radix + d) 0 : ℕ) : ℤ))

/-- JavaScript `parseInt(v)` for the values that reach `esNumero`:
`null`/`undefined` give `NaN`, an integer gives itself. -/
def parseInt : Option Valor → Option ℤ
  | none => none
  | some (.num n) => some n
  | some (.str s) => parseIntTexto s

/-- The method `esNumero` (detector_firefox_integrado.js, lines 2008-2011). -/
def esNumero (valor : Option Valor) : Bool :=
  match parseInt valor with
  | none => false
  | some num => decide (0 ≤ num) && decide (num ≤ 36)

/-- The sub-object `coordenadas` of an entry. -/
structure Coordenadas where
  relativas : Punto
  absolutas : Punto
deriving DecidableEq, Repr

/-- An entry of `numerosDetectados` / `coordenadasRelativas`.  Fields that only some
of the creating operations write are optional. -/
structure Elemento where
  valor : Option Valor
  tipo : String
  metodo : Option String
  selector : Option String
  coordenadas : Coordenadas
  numeroGrabacion : Option ℤ
  timestamp : Option ℤ
  procesoFirefox : Option String
  tituloVentana : Option String
deriving DecidableEq, Repr

/-- The object `dimensionesVentana` of the detector and `dimensiones` of its export. -/
structure Dimensiones where
  width : ℚ
  height : ℚ
deriving DecidableEq, Repr

/-- Default viewport set by the detector's constructor (line 20). -/
def dimensionesPorDefecto : Dimensiones := { width := 1280, height := 720 }

/-! ## `deteccionAutomatica` -/

/-- An object pushed on `numeros` inside `pagina.evaluate` (lines 411-418, 452-459). -/
structure Encontrado where
  valor : Valor
  x : ℚ
  y : ℚ
  width : ℚ
  height : ℚ
  selector : String
deriving DecidableEq, Repr

/-- The array `numerosRuleta` (lines 430-439). -/
def numerosRuleta : List ℤ :=
  [3, 6, 9, 12, 15, 18, 21, 24, 27, 30, 33, 36,
   2, 5, 8, 11, 14, 17, 20, 23, 26, 29, 32, 35,
   1, 4, 7, 10, 13, 16, 19, 22, 25, 28, 31, 34,
   0]

/-- The constant `startX` (line 442). -/
def startX : ℚ := 120

/-- The constant `startY` (line 443). -/
def startY : ℚ := 180

/-- The constant `cellWidth` (line 444). -/
def cellWidth : ℚ := 85

/-- The constant `cellHeight` (line 445). -/
def cellHeight : ℚ := 38

/-- Body of the inner loop of the main grid (lines 450-460) for one `col`, `row`;
the read `numerosRuleta[index]` is in range because of the guard `index < 36`. -/
def celdaGrid (col row : ℕ) : Option Encontrado :=
  let index := col * 3 + row
  if index < 36 then
    some { valor := .num (numerosRuleta.getD index 0)
           x := startX + col * cellWidth
           y := startY + row * cellHeight
           width := cellWidth - 5
           height := cellHeight - 5
           selector := "simulado" }
  else none

/-- The two nested loops of the main grid (lines 448-462), in push order. -/
def gridPrincipal : List Encontrado :=
  (List.range 12).flatMap fun col => (List.range 3).filterMap fun row => celdaGrid col row

/-- The zero cell (lines 465-472). -/
def celdaCero : Encontrado :=
  { valor := .num 0
    x := startX - 60
    y := startY + cellHeight
    width := 50
    height := cellHeight * 3 - 10
    selector := "simulado_cero" }

/-- The array `apuestasExteriores` (lines 475-483) as value and position. -/
def apuestasExteriores : List (String × ℚ × ℚ) :=
  [ ("RED", startX + 12 * cellWidth + 20, startY),
    ("BLACK", startX + 12 * cellWidth + 20, startY + cellHeight),
    ("EVEN", startX + 12 * cellWidth + 20, startY + 2 * cellHeight),
    ("ODD", startX + 12 * cellWidth + 100, startY),
    ("1st 12", startX + 4 * cellWidth - 40, startY + 3 * cellHeight + 10),
    ("2nd 12", startX + 8 * cellWidth - 40, startY + 3 * cellHeight + 10),
    ("3rd 12", startX + 12 * cellWidth - 40, startY + 3 * cellHeight + 10) ]

/-- Everything the fallback branch pushes (lines 426-495). -/
def gridSimulado : List Encontrado :=
  gridPrincipal ++ [celdaCero] ++
    apuestasExteriores.map fun a =>
      { valor := .str a.1, x := a.2.1, y := a.2.2, width := 80, height := 35,
        selector := "simulado_apuesta" }

/-- Result of `pagina.evaluate` (lines 355-498): `dom` is what the selector loops
pushed, so `elementosEncontrados` is its length. -/
def numerosEncontrados (dom : List Encontrado) : List Encontrado :=
  if dom.length < 10 then dom ++ gridSimulado else dom

/-- The callback of the `map` at lines 501-515. -/
def entradaDetectada (dims : Dimensiones) (num : Encontrado) : Elemento :=
  let relX := num.x / dims.width
  let relY := num.y / dims.height
  { valor := some num.valor
    tipo := if esNumero (some num.valor) then "numero" else "apuesta"
    metodo := some "firefox_integrado"
    selector := some num.selector
    coordenadas := { relativas := { x := relX, y := relY }
                     absolutas := { x := num.x, y := num.y } }
    numeroGrabacion := none
    timestamp := none
    procesoFirefox := none
    tituloVentana := none }

/-- The method `deteccionAutomatica` (lines 336-539) on `numerosDetectados`: `dom` is
what the selector loops of `pagina.evaluate` pushed, `none` when the screenshot or
the evaluation throws (caught at line 536).  The assignment at line 501 replaces the
previous content. -/
def deteccionAutomatica (estaConectado : Bool) (dims : Dimensiones)
    (dom : Option (List Encontrado)) (numerosDetectados : List Elemento) : List Elemento :=
  if !estaConectado then numerosDetectados
  else match dom with
    | none => numerosDetectados
    | some dom => (numerosEncontrados dom).map (entradaDetectada dims)

/-- The value probe `detectarValorEnPosicion` (lines 1939-1980).  `pagina x y` is
what `pagina.evaluate` returns for the viewport point; `none` stands for `null`,
for a thrown error and for a timeout, which the `catch` turns into `null`. -/
def detectarValorEnPosicion (dims : Dimensiones) (pagina : ℚ → ℚ → Option String)
    (relX relY : ℚ) : Option String :=
  let x := relX * dims.width
  let y := relY * dims.height
  pagina x y

/-- The expression `valor || placeholder` of the three recorders. -/
def valorOPlaceholder (valor : Option String) (placeholder : String) : Valor :=
  .str (oTexto valor placeholder)

/-- The expression `this.esNumero(valor) ? 'numero' : 'apuesta'` of the recorders. -/
def tipoDeValor (valor : Option String) : String :=
  if esNumero (valor.map Valor.str) then "numero" else "apuesta"

/-! ## Direct recording: `grabacionManual` -/

/-- An object pushed on `clicksCapturados` by `grabacionManual` (lines 749-757). -/
structure ClickCapturado where
  x : ℤ
  y : ℤ
  relX : ℚ
  relY : ℚ
  timestamp : ℤ
  processName : String
  windowTitle : String
deriving DecidableEq, Repr

/-- A line of the capture script's output as the `includes` tests of the handler
classify it, with the fields `parseInt` reads from it. -/
inductive LineaCaptura where
  | firefoxClickCaptured (x y timestamp : ℤ) (processName windowTitle : Option String)
  | hookStartedSuccessfully
  | errorHookFailed
  | otra
deriving DecidableEq, Repr

/-- The `forEach` callback of the stdout handler of `grabacionManual`
(lines 734-767), on the list `clicksCapturados`. -/
def manualLinea (ventanaFirefox : Ventana) (clicksCapturados : List ClickCapturado) :
    LineaCaptura → List ClickCapturado
  | .firefoxClickCaptured x y timestamp processName windowTitle =>
    let relX := ((x : ℚ) - ventanaFirefox.x) / ventanaFirefox.width
    let relY := ((y : ℚ) - ventanaFirefox.y) / ventanaFirefox.height
    if 0 ≤ relX ∧ relX ≤ 1 ∧ 0 ≤ relY ∧ relY ≤ 1 then
      clicksCapturados ++
        [{ x := x, y := y, relX := relX, relY := relY, timestamp := timestamp
           processName := oTexto processName "unknown"
           windowTitle := oTexto windowTitle "unknown" }]
    else clicksCapturados
  | _ => clicksCapturados

/-- The body of the loop at lines 787-803 for the click at position `i` of
`clicksCapturados`, which is what `clicksCapturados.indexOf(click)` returns. -/
def manualEntrada (dims : Dimensiones) (pagina : ℚ → ℚ → Option String) (i : ℕ)
    (click : ClickCapturado) : Elemento :=
  let valor := detectarValorEnPosicion dims pagina click.relX click.relY
  { valor := some (valorOPlaceholder valor ("click_" ++ toString i))
    tipo := tipoDeValor valor
    metodo := some "manual_firefox_mejorado"
    selector := none
    coordenadas := { relativas := { x := click.relX, y := click.relY }
                     absolutas := { x := click.x, y := click.y } }
    numeroGrabacion := none
    timestamp := some click.timestamp
    procesoFirefox := some click.processName
    tituloVentana := some click.windowTitle }

/-- The loop at lines 787-803 from position `i` of `clicksCapturados` on. -/
def manualEntradas (dims : Dimensiones) (pagina : ℚ → ℚ → Option String) :
    ℕ → List ClickCapturado → List Elemento
  | _, [] => []
  | i, click :: resto =>
    manualEntrada dims pagina i click :: manualEntradas dims pagina (i + 1) resto

/-- The method `grabacionManual` (lines 541-823) on `numerosDetectados`:
`ventanaFirefox` is the result of the window location, `lineas` the lines the
capture script prints until the operator presses ENTER. -/
def grabacionManual (estaConectado : Bool) (ventanaFirefox : Option Ventana)
    (dims : Dimensiones) (pagina : ℚ → ℚ → Option String) (lineas : List LineaCaptura)
    (numerosDetectados : List Elemento) : List Elemento :=
  if !estaConectado then numerosDetectados
  else match ventanaFirefox with
    | none => numerosDetectados
    | some v =>
      let clicksCapturados := lineas.foldl (manualLinea v) []
      numerosDetectados ++ manualEntradas dims pagina 0 clicksCapturados

/-! ## System-level recording: `grabacionManualSistema` -/

/-- An object pushed on `clicksCapturados` by `grabacionManualSistema`
(lines 1238-1244). -/
structure ClickSistema where
  x : ℤ
  y : ℤ
  relX : ℚ
  relY : ℚ
  timestamp : ℤ
deriving DecidableEq, Repr

/-- A line of the system capture script; `ahora` is the value of `Date.now()`
when the handler treats the line. -/
inductive LineaSistema where
  | hookStarted
  | click (x y : ℤ) (ahora : ℤ)
  | otra
deriving DecidableEq, Repr

/-- The `forEach` callback of `grabacionManualSistema` (lines 1212-1252) on the pair
`(clicksCapturados, hookIniciado)`. -/
def sistemaLinea (ventanaFirefox : Ventana) (estado : List ClickSistema × Bool) :
    LineaSistema → List ClickSistema × Bool
  | .hookStarted => (estado.1, true)
  | .click x y ahora =>
    if ventanaFirefox.x ≤ x ∧ (x : ℚ) ≤ ventanaFirefox.x + ventanaFirefox.width ∧
        ventanaFirefox.y ≤ y ∧ (y : ℚ) ≤ ventanaFirefox.y + ventanaFirefox.height then
      let relX := ((x : ℚ) - ventanaFirefox.x) / ventanaFirefox.width
      let relY := ((y : ℚ) - ventanaFirefox.y) / ventanaFirefox.height
      (estado.1 ++ [{ x := x, y := y, relX := relX, relY := relY, timestamp := ahora }],
        estado.2)
    else estado
  | .otra => estado

/-- The body of the loop at lines 1277-1291 for the click at position `i` of
`clicksCapturados`. -/
def sistemaEntrada (dims : Dimensiones) (pagina : ℚ → ℚ → Option String) (i : ℕ)
    (click : ClickSistema) : Elemento :=
  let valor := detectarValorEnPosicion dims pagina click.relX click.relY
  { valor := some (valorOPlaceholder valor ("click_" ++ toString (i + 1)))
    tipo := tipoDeValor valor
    metodo := some "manual_sistema_firefox"
    selector := none
    coordenadas := { relativas := { x := click.relX, y := click.relY }
                     absolutas := { x := click.x, y := click.y } }
    numeroGrabacion := none
    timestamp := some click.timestamp
    procesoFirefox := none
    tituloVentana := none }

/-- The loop at lines 1277-1291 from position `i` of `clicksCapturados` on. -/
def sistemaEntradas (dims : Dimensiones) (pagina : ℚ → ℚ → Option String) :
    ℕ → List ClickSistema → List Elemento
  | _, [] => []
  | i, click :: resto =>
    sistemaEntrada dims pagina i click :: sistemaEntradas dims pagina (i + 1) resto

/-- The method `grabacionManualSistema` (lines 1126-1307) on `numerosDetectados`. -/
def grabacionManualSistema (estaConectado : Bool) (ventanaFirefox : Option Ventana)
    (dims : Dimensiones) (pagina : ℚ → ℚ → Option String) (lineas : List LineaSistema)
    (numerosDetectados : List Elemento) : List Elemento :=
  if !estaConectado then numerosDetectados
  else match ventanaFirefox with
    | none => numerosDetectados
    | some v =>
      let clicksCapturados := (lineas.foldl (sistemaLinea v) ([], false)).1
      numerosDetectados ++ sistemaEntradas dims pagina 0 clicksCapturados

/-! ## Hotkey-controlled recording: `grabacionConHotkeys` -/

/-- An object pushed on `coordenadasGrabadas` (lines 1011-1019). -/
structure CoordGrabada where
  numero : ℤ
  x : ℤ
  y : ℤ
  relX : ℚ
  relY : ℚ
  timestamp : ℤ
  confirmado : Bool
deriving DecidableEq, Repr

/-- The variables the stdout handler of `grabacionConHotkeys` closes over
(lines 969-972). -/
structure EstadoHotkeys where
  coordenadasGrabadas : List CoordGrabada
  capturaIniciada : Bool
  grabandoActual : Bool
  numeroActual : ℤ
deriving DecidableEq, Repr

/-- The handler's variables when the capture process is spawned. -/
def estadoInicialHotkeys : EstadoHotkeys :=
  { coordenadasGrabadas := [], capturaIniciada := false, grabandoActual := false,
    numeroActual := 1 }

/-- A trimmed line of the hotkey script's output as the `includes` tests classify
it, with the numbers read from it; `ahora` is the value of `Date.now()` when the
handler treats the line. -/
inductive LineaHotkeys where
  | hotkeyCaptureStarted
  | startRecording (num : ℤ)
  | clickRecorded (x y num : ℤ) (ahora : ℤ)
  | stopRecording (num : ℤ)
  | quitRequested
  | hotkeyCaptureStopped
  | otra
deriving DecidableEq, Repr

/-- The statement `coordenadasGrabadas.find(c => c.numero == num && !c.confirmado)`
followed by `ultimaCoord.confirmado = true` (lines 1030-1032): `find` returns the
first element that satisfies the test, and that element is updated in place. -/
def confirmarEncontrada (num : ℤ) : List CoordGrabada → List CoordGrabada
  | [] => []
  | c :: cs =>
    if c.numero == num && !c.confirmado then { c with confirmado := true } :: cs
    else c :: confirmarEncontrada num cs

/-- The `forEach` callback of the stdout handler of `grabacionConHotkeys`
(lines 978-1048). -/
def hotkeysLinea (ventanaFirefox : Ventana) (s : EstadoHotkeys) :
    LineaHotkeys → EstadoHotkeys
  | .hotkeyCaptureStarted => { s with capturaIniciada := true }
  | .startRecording num => { s with grabandoActual := true, numeroActual := num }
  | .clickRecorded x y num ahora =>
    if ventanaFirefox.x ≤ x ∧ (x : ℚ) ≤ ventanaFirefox.x + ventanaFirefox.width ∧
        ventanaFirefox.y ≤ y ∧ (y : ℚ) ≤ ventanaFirefox.y + ventanaFirefox.height then
      let relX := ((x : ℚ) - ventanaFirefox.x) / ventanaFirefox.width
      let relY := ((y : ℚ) - ventanaFirefox.y) / ventanaFirefox.height
      { s with coordenadasGrabadas := s.coordenadasGrabadas ++
          [{ numero := num, x := x, y := y, relX := relX, relY := relY,
             timestamp := ahora, confirmado := false }] }
    else s
  | .stopRecording num =>
    { s with grabandoActual := false
             coordenadasGrabadas := confirmarEncontrada num s.coordenadasGrabadas }
  | .quitRequested => s
  | .hotkeyCaptureStopped => s
  | .otra => s

/-- The handler run over the lines received, in order. -/
def hotkeysLineas (ventanaFirefox : Ventana) (s : EstadoHotkeys)
    (lineas : List LineaHotkeys) : EstadoHotkeys :=
  lineas.foldl (hotkeysLinea ventanaFirefox) s

/-- The array `coordenadasConfirmadas` (line 1080). -/
def coordenadasConfirmadas (s : EstadoHotkeys) : List CoordGrabada :=
  s.coordenadasGrabadas.filter fun c => c.confirmado

/-- The body of the loop at lines 1082-1097 for one confirmed coordinate. -/
def hotkeysEntrada (dims : Dimensiones) (pagina : ℚ → ℚ → Option String)
    (coord : CoordGrabada) : Elemento :=
  let valor := detectarValorEnPosicion dims pagina coord.relX coord.relY
  { valor := some (valorOPlaceholder valor ("numero_" ++ toString coord.numero))
    tipo := tipoDeValor valor
    metodo := some "hotkeys_controlado"
    selector := none
    coordenadas := { relativas := { x := coord.relX, y := coord.relY }
                     absolutas := { x := coord.x, y := coord.y } }
    numeroGrabacion := some coord.numero
    timestamp := some coord.timestamp
    procesoFirefox := none
    tituloVentana := none }

/-- The method `grabacionConHotkeys` (lines 825-1124) on `numerosDetectados`. -/
def grabacionConHotkeys (estaConectado : Bool) (ventanaFirefox : Option Ventana)
    (dims : Dimensiones) (pagina : ℚ → ℚ → Option String) (lineas : List LineaHotkeys)
    (numerosDetectados : List Elemento) : List Elemento :=
  if !estaConectado then numerosDetectados
  else match ventanaFirefox with
    | none => numerosDetectados
    | some v =>
      let s := hotkeysLineas v estadoInicialHotkeys lineas
      numerosDetectados ++ (coordenadasConfirmadas s).map (hotkeysEntrada dims pagina)

/-- The click a `CLICK_RECORDED` line for entry `n` stores when it is in the window. -/
def coordDeClick (v : Ventana) (n : ℤ) (c : ℤ × ℤ × ℤ) : CoordGrabada :=
  { numero := n, x := c.1, y := c.2.1, relX := (relativasDeClick v c.1 c.2.1).x,
    relY := (relativasDeClick v c.1 c.2.1).y, timestamp := c.2.2, confirmado := false }

/-- The `CLICK_RECORDED` line of a click `(x, y, Date.now())` for entry `n`. -/
def lineaDeClick (n : ℤ) (c : ℤ × ℤ × ℤ) : LineaHotkeys :=
  .clickRecorded c.1 c.2.1 n c.2.2

/-- Membership in the window's bounding box, the test of lines 1001-1002 and
1231-1232. -/
def dentroDeVentana (v : Ventana) (x y : ℤ) : Prop :=
  v.x ≤ x ∧ (x : ℚ) ≤ v.x + v.width ∧ v.y ≤ y ∧ (y : ℚ) ≤ v.y + v.height

instance (v : Ventana) (x y : ℤ) : Decidable (dentroDeVentana v x y) := by
  unfold dentroDeVentana
  infer_instance

/-- The range invariant of a relative point: both fractions lie in `[0, 1]`. -/
def enRango (p : Punto) : Prop := 0 ≤ p.x ∧ p.x ≤ 1 ∧ 0 ≤ p.y ∧ p.y ≤ 1

instance (p : Punto) : Decidable (enRango p) := by
  unfold enRango
  infer_instance

/-! ## The adaptive clicker: loading the coordinate store -/

/-- The object held in `ventanaJuego`: a geometry and the labels the loaders add. -/
structure VentanaJuego extends Ventana where
  navegador : Option String
  modoIncognito : Option Bool
deriving DecidableEq, Repr

/-- An element of the array `clicks` of `clicks_fisicos.json`. -/
structure ClickFisico where
  x : ℚ
  y : ℚ
  numero : Option Valor
  valor : Option Valor
  nombre : Option Valor
  tipo : Option String
deriving DecidableEq, Repr

/-- A parsed coordinate file, as far as the loader reads it.  A property that is
absent (or not of the shape the loader uses: `dimensiones` not an object,
`elementos` or `clicks` not an array) is `none`. -/
structure Documento where
  dimensiones : Option Dimensiones
  modoIncognito : Option Bool
  ventana : Option VentanaJuego
  elementos : Option (List Elemento)
  clicks : Option (List ClickFisico)
deriving DecidableEq, Repr

/-- The files of the working directory: `fs nombre` is the document that
`JSON.parse(await fs.readFile(nombre))` yields, `none` when the file is missing or
unreadable, when its text is not JSON, or when it is the JSON `null`. -/
abbrev Archivos := String → Option Documento

/-- The fields of `ClickerAdaptativo` the loader writes; `coordenadasRelativas` is
`none` when it holds `undefined`. -/
structure Clicker where
  ventanaJuego : Option VentanaJuego
  coordenadasRelativas : Option (List Elemento)
deriving DecidableEq, Repr

/-- The state set by the constructor (lines 5-13). -/
def clickerInicial : Clicker := { ventanaJuego := none, coordenadasRelativas := some [] }

/-- The method `detectarVentanaActual` (lines 154-225): `salida` is the geometry of
the first `WINDOW_FOUND:` line of the script's output, `none` when there is no such
line, when the script fails or when it times out; then `ventanaJuego` is kept. -/
def detectarVentanaActual (salida : Option VentanaJuego) (s : Clicker) : Clicker :=
  match salida with
  | some v => { s with ventanaJuego := some v }
  | none => s

/-- The callback of the `map` at lines 138-148. -/
def convertirClick (v : Ventana) (click : ClickFisico) : Elemento :=
  { tipo := oTexto click.tipo "numero"
    valor := oSi (oSi click.numero click.valor) click.nombre
    metodo := none
    selector := none
    coordenadas := { relativas := relativasDeClick v click.x click.y
                     absolutas := { x := click.x, y := click.y } }
    numeroGrabacion := none
    timestamp := none
    procesoFirefox := none
    tituloVentana := none }

/-- The method `convertirCoordenadasAbsolutas` (lines 127-152), with the effect of an
exception of `clicks.map` (the argument is not an array) as seen by the caller's
`catch`: the state reached before it. -/
def convertirCoordenadasAbsolutas (salida : Option VentanaJuego)
    (clicks : Option (List ClickFisico)) (s : Clicker) : Clicker :=
  let s := detectarVentanaActual salida s
  match s.ventanaJuego with
  | none => s
  | some v =>
    match clicks with
    | none => s
    | some cs => { s with coordenadasRelativas := some (cs.map (convertirClick v.toVentana)) }

/-- The first `try` block (lines 28-54): the state it leaves and whether it ended
without an exception. -/
def cargarFirefoxIntegrado (fs : Archivos) (s : Clicker) : Clicker × Bool :=
  match fs "coordenadas_firefox_integrado.json" with
  | none => (s, false)
  | some coordenadas =>
    match coordenadas.dimensiones with
    | none => (s, false)
    | some dimensiones =>
      let s := { s with
        ventanaJuego := some { x := 0, y := 0, width := dimensiones.width,
                               height := dimensiones.height,
                               navegador := some "firefox_integrado",
                               modoIncognito := coordenadas.modoIncognito }
        coordenadasRelativas := coordenadas.elementos }
      (s, s.coordenadasRelativas.isSome)

/-- The second `try` block (lines 56-80). -/
def cargarNavegadorIntegrado (fs : Archivos) (s : Clicker) : Clicker × Bool :=
  match fs "coordenadas_navegador_integrado.json" with
  | none => (s, false)
  | some coordenadas =>
    match coordenadas.dimensiones with
    | none => (s, false)
    | some dimensiones =>
      let s := { s with
        ventanaJuego := some { x := 0, y := 0, width := dimensiones.width,
                               height := dimensiones.height,
                               navegador := some "chromium_integrado",
                               modoIncognito := none }
        coordenadasRelativas := coordenadas.elementos }
      (s, s.coordenadasRelativas.isSome)

/-- The third and fourth `try` blocks (lines 82-98 and 100-109), which differ in the
file they read. -/
def cargarConVentana (nombre : String) (fs : Archivos) (s : Clicker) : Clicker × Bool :=
  match fs nombre with
  | none => (s, false)
  | some coordenadas =>
    let s := { s with ventanaJuego := coordenadas.ventana
                      coordenadasRelativas := coordenadas.elementos }
    (s, s.coordenadasRelativas.isSome)

/-- The innermost `try` block (lines 111-121). -/
def cargarClicksFisicos (fs : Archivos) (salida : Option VentanaJuego) (s : Clicker) :
    Clicker :=
  match fs "clicks_fisicos.json" with
  | none => s
  | some clicks => convertirCoordenadasAbsolutas salida clicks.clicks s

/-- The method `cargarCoordenadasExistentes` (lines 27-125): each `catch` runs the
next block on the state the failed block left. -/
def cargarCoordenadasExistentes (fs : Archivos) (salida : Option VentanaJuego)
    (s : Clicker) : Clicker :=
  let r := cargarFirefoxIntegrado fs s
  if r.2 then r.1 else
  let r := cargarNavegadorIntegrado fs r.1
  if r.2 then r.1 else
  let r := cargarConVentana "coordenadas_hibridas.json" fs r.1
  if r.2 then r.1 else
  let r := cargarConVentana "coordenadas_relativas.json" fs r.1
  if r.2 then r.1 else
  cargarClicksFisicos fs salida r.1

/-- The entries of an example file in the hybrid format. -/
def elementosHibridos : List Elemento :=
  [⟨some (.num 7), "numero", some "manual", none, ⟨⟨1 / 2, 1 / 2⟩, ⟨410, 320⟩⟩,
    none, none, none, none⟩]

/-- An example file in the hybrid format. -/
def documentoHibrido : Documento :=
  ⟨none, none, some ⟨⟨10, 20, 800, 600⟩, some "firefox", none⟩, some elementosHibridos, none⟩

/-- Two sources present and valid: the hybrid format and, after it in the order,
`clicks_fisicos.json`. -/
def archivosDeEjemplo : Archivos := fun nombre =>
  if nombre = "coordenadas_hibridas.json" then some documentoHibrido
  else if nombre = "clicks_fisicos.json" then
    some ⟨none, none, none, none, some [⟨500, 500, some (.num 9), none, none, none⟩]⟩
  else none

/-- A window held in the hybrid file of the example below. -/
def ventanaDeArchivo : VentanaJuego := ⟨⟨10, 20, 800, 600⟩, some "firefox", none⟩

/-- A working directory with two files: `coordenadas_hibridas.json` holds a `ventana`
but no `elementos` array, and `clicks_fisicos.json` holds one click. -/
def archivosParciales : Archivos := fun nombre =>
  if nombre = "coordenadas_hibridas.json" then
    some ⟨none, none, some ventanaDeArchivo, none, none⟩
  else if nombre = "clicks_fisicos.json" then
    some ⟨none, none, none, none, some [⟨410, 320, some (.num 9), none, none, none⟩]⟩
  else none

/-- A working directory whose only file, `coordenadas_hibridas.json`, holds a
`ventana` but no `elementos` array. -/
def archivosSoloParcial : Archivos := fun nombre =>
  if nombre = "coordenadas_hibridas.json" then
    some ⟨none, none, some ventanaDeArchivo, none, none⟩
  else none

/-! ## Purging: `limpiarRegistros` and `limpiarSelectivo` -/

/-- JavaScript `String.prototype.trim`: the white space it strips at both ends is the
set `parseInt` skips. -/
def jsTrim (s : String) : String :=
  String.mk ((s.toList.dropWhile esEspacioJs).reverse.dropWhile esEspacioJs).reverse

/-- The test `respuesta.trim().toUpperCase() === 'SI'` (lines 1373 and 1470).  The
library function `toUpperCase` is a parameter. -/
def esConfirmacion (toUpperCase : String → String) (respuesta : String) : Bool :=
  toUpperCase (jsTrim respuesta) == "SI"

/-- The method `limpiarRegistros` (lines 1331-1395) on `numerosDetectados`;
`respuesta` is the operator's answer to the confirmation question. -/
def limpiarRegistros (toUpperCase : String → String) (respuesta : String)
    (numerosDetectados : List Elemento) : List Elemento :=
  if numerosDetectados.length = 0 then numerosDetectados
  else if esConfirmacion toUpperCase respuesta then []
  else numerosDetectados

/-- The expression `coord.metodo || 'desconocido'` (lines 1347 and 1422). -/
def metodoDe (coord : Elemento) : String := oTexto coord.metodo "desconocido"

/-- The object `grupos` of `limpiarSelectivo`: its keys in insertion order, each with
the array of `{ coord, index }` pushed under it.  `Object.keys` returns the keys in
this order when no key is an integer-like string; the methods the detector writes
(`firefox_integrado`, `manual_firefox_mejorado`, `hotkeys_controlado`,
`manual_sistema_firefox`) are not. -/
abbrev Grupos := List (String × List (Elemento × ℕ))

/-- The statements `if (!grupos[metodo]) grupos[metodo] = [];` and
`grupos[metodo].push({ coord, index })` (lines 1423-1424). -/
def agregarAGrupo : Grupos → String → Elemento × ℕ → Grupos
  | [], metodo, item => [(metodo, [item])]
  | (k, items) :: resto, metodo, item =>
    if k = metodo then (k, items ++ [item]) :: resto
    else (k, items) :: agregarAGrupo resto metodo item

/-- The `forEach` at lines 1421-1425 from position `index` on. -/
def agrupar : ℕ → List Elemento → Grupos → Grupos
  | _, [], grupos => grupos
  | index, coord :: resto, grupos =>
    agrupar (index + 1) resto (agregarAGrupo grupos (metodoDe coord) (coord, index))

/-- The property read `grupos[metodo]`, for a key that is present. -/
def buscarGrupo (metodo : String) : Grupos → List (Elemento × ℕ)
  | [] => []
  | (k, items) :: resto => if k = metodo then items else buscarGrupo metodo resto

/-- The call `sort((a, b) => b - a)` of line 1472: descending numeric order. -/
def ordenarDescendente (indices : List ℕ) : List ℕ :=
  indices.insertionSort (· ≥ ·)

/-- The method `limpiarSelectivo` (lines 1410-1488) on `numerosDetectados`:
`seleccion` is the operator's answer to the question for a group number and
`confirmacion` the answer to the confirmation question. -/
def limpiarSelectivo (toUpperCase : String → String) (seleccion confirmacion : String)
    (numerosDetectados : List Elemento) : List Elemento :=
  if numerosDetectados.length = 0 then numerosDetectados
  else
    let grupos := agrupar 0 numerosDetectados []
    let claves := grupos.map Prod.fst
    match parseIntTexto seleccion with
    | none => numerosDetectados
    | some numeroSeleccion =>
      if numeroSeleccion < 1 ∨ numeroSeleccion > (claves.length : ℤ) + 1 then
        numerosDetectados
      else if numeroSeleccion = (claves.length : ℤ) + 1 then numerosDetectados
      else
        match claves[(numeroSeleccion - 1).toNat]? with
        | none => numerosDetectados
        | some metodoSeleccionado =>
          let registrosSeleccionados := buscarGrupo metodoSeleccionado grupos
          if esConfirmacion toUpperCase confirmacion then
            let indicesAEliminar :=
              ordenarDescendente (registrosSeleccionados.map fun item => item.2)
            indicesAEliminar.foldl (fun lista index => lista.eraseIdx index)
              numerosDetectados
          else numerosDetectados

/-- The distinct methods of a list of entries in order of first appearance, an entry
without a method counting as `desconocido`. -/
def metodosDistintos (entradas : List Elemento) : List String :=
  entradas.foldl
    (fun vistos coord => if metodoDe coord ∈ vistos then vistos else vistos ++ [metodoDe coord])
    []

/-- An entry with the given method and value, for the examples. -/
def entradaDeMetodo (metodo : String) (n : ℤ) : Elemento :=
  ⟨some (.num n), "numero", some metodo, none, ⟨⟨1 / 2, 1 / 4⟩, ⟨640, 180⟩⟩,
    none, none, none, none⟩

/-- The names every object inherits from `Object.prototype`; under such a key
`grupos[metodo]` is not one of the arrays `limpiarSelectivo` creates. -/
def propiedadesHeredadas : List String :=
  ["constructor", "toString", "toLocaleString", "valueOf", "hasOwnProperty",
   "isPrototypeOf", "propertyIsEnumerable", "__proto__", "__defineGetter__",
   "__defineSetter__", "__lookupGetter__", "__lookupSetter__"]

/-- A key for which the object `grupos` behaves as an insertion-ordered map: not a
string of digits (an integer-like key is listed first by `Object.keys`) and not an
inherited property name.  Every method the detector writes is such a key. -/
def claveOrdinaria (k : String) : Bool :=
  !(k.toList.all Char.isDigit) && !(propiedadesHeredadas.contains k)

/-- The positions, counted from `index`, of the entries whose method is `metodo`. -/
def posiciones (metodo : String) : ℕ → List Elemento → List ℕ
  | _, [] => []
  | index, coord :: resto =>
    if metodoDe coord = metodo then index :: posiciones metodo (index + 1) resto
    else posiciones metodo (index + 1) resto

/-- Upper-casing of the ASCII letters, the value of `toUpperCase` on ASCII text. -/
def mayusculasAscii (s : String) : String := String.mk (s.toList.map Char.toUpper)

/-! ## Replay: `ejecutarClicksAdaptativos` -/

/-- How a call `ejecutarClickFisico(x, y)` (lines 536-567) ends: `fs.writeFile`
rejects, so the call throws, or `ejecutarScript` resolves with a text: the script's
output (`CLICK_SUCCESS: ...` or `CLICK_ERROR: ...`), its error output, or `TIMEOUT`
(lines 610-633; `ejecutarScript` never rejects). -/
inductive ResultadoClick where
  | rechaza (mensaje : String)
  | salida (texto : String)
deriving DecidableEq, Repr

/-- Whether the call threw. -/
def ResultadoClick.esRechazo : ResultadoClick → Bool
  | .rechaza _ => true
  | .salida _ => false

/-- The environment of a replay: how the click issued for the entry at a position,
at a target point, ends. -/
abbrev Clicks := ℕ → ℤ → ℤ → ResultadoClick

/-- The loop at lines 418-440 from position `i` on; the state is the list of the
targets at which `ejecutarClickFisico` was called so far and `clicksExitosos`. -/
def bucleClicks (v : Ventana) (click : Clicks) :
    ℕ → List Elemento → List (ℤ × ℤ) × ℕ → List (ℤ × ℤ) × ℕ
  | _, [], estado => estado
  | i, coordenada :: resto, (intentos, clicksExitosos) =>
    let objetivo := objetivoEjecutar v coordenada.coordenadas.relativas
    match click i objetivo.1 objetivo.2 with
    | .salida _ => bucleClicks v click (i + 1) resto (intentos ++ [objetivo], clicksExitosos + 1)
    | .rechaza _ => bucleClicks v click (i + 1) resto (intentos ++ [objetivo], clicksExitosos)

/-- The summary printed at lines 444-450, with the targets of the clicks issued. -/
structure Resumen where
  intentos : List (ℤ × ℤ)
  clicksExitosos : ℕ
  clicksFallidos : ℕ
deriving DecidableEq, Repr

/-- The method `ejecutarClicksAdaptativos` (lines 387-451): the state it leaves and
the summary, `none` when it returns before the loop (or when reading `length` of an
`undefined` `coordenadasRelativas` throws). -/
def ejecutarClicksAdaptativos (salida : Option VentanaJuego) (click : Clicks)
    (s : Clicker) : Clicker × Option Resumen :=
  match s.coordenadasRelativas with
  | none => (s, none)
  | some coordenadasRelativas =>
    if coordenadasRelativas.length = 0 then (s, none)
    else
      let s := detectarVentanaActual salida s
      match s.ventanaJuego with
      | none => (s, none)
      | some ventanaJuego =>
        let r := bucleClicks ventanaJuego.toVentana click 0 coordenadasRelativas ([], 0)
        (s, some { intentos := r.1, clicksExitosos := r.2,
                   clicksFallidos := coordenadasRelativas.length - r.2 })

/-- An entry with the given relative point, for the examples. -/
def entradaEn (x y : ℚ) : Elemento :=
  ⟨some (.num 7), "numero", some "firefox_integrado", none, ⟨⟨x, y⟩, ⟨0, 0⟩⟩,
    none, none, none, none⟩

/-- An environment in which the click of the entry at position 2 (the third entry)
throws and every other click succeeds. -/
def clicksConTerceroFallido : Clicks := fun i x y =>
  if i = 2 then .rechaza "EPERM"
  else .salida ("CLICK_SUCCESS: " ++ toString x ++ "," ++ toString y)

/-- An environment in which every click script reports an error in its output. -/
def clicksConError : Clicks := fun _ _ _ =>
  .salida "CLICK_ERROR: Exception calling SetCursorPos"

/-- An environment in which every click script is killed after ten seconds. -/
def clicksConTimeout : Clicks := fun _ _ _ => .salida "TIMEOUT"

/-- An environment in which every click succeeds. -/
def clicksCorrectos : Clicks := fun _ x y =>
  .salida ("CLICK_SUCCESS: " ++ toString x ++ "," ++ toString y)

/-- A clicker that holds the window and the entry loaded from an export of the
detector: a window at the origin of size 1280 x 720 and one entry at its centre. -/
def clickerCargado : Clicker :=
  ⟨some ⟨⟨0, 0, 1280, 720⟩, some "firefox_integrado", some true⟩,
    some [entradaEn (1 / 2) (1 / 2)]⟩

/-! ## The script `captura_hotkeys.ps1` -/

/-- The variables of the script `captura_hotkeys.ps1` (lines 859-861). -/
structure EstadoScript where
  grabando : Bool
  numeroActual : ℤ
  salir : Bool
deriving DecidableEq, Repr

/-- The script's variables before its loop. -/
def estadoInicialScript : EstadoScript :=
  { grabando := false, numeroActual := 1, salir := false }

/-- What one pass of the script's `while` loop (lines 863-935) observes:
`teclasLeidas` tells whether the key block reaches its three tests (the conditions
of lines 870 and 873 hold and nothing throws), then the state of the keys Q, S, E,
the cursor position when the left button is down, and whether the stop file exists.
`ahora` is the value of `Date.now()` when the handler treats the click line. -/
structure PasoScript where
  teclasLeidas : Bool
  qPressed : Bool
  sPressed : Bool
  ePressed : Bool
  boton : Option (ℤ × ℤ)
  archivoDeParada : Bool
  ahora : ℤ
deriving DecidableEq, Repr

/-- One pass of the loop (lines 863-935): the variables after it and the lines it
prints. -/
def pasoScript (e : EstadoScript) (p : PasoScript) : EstadoScript × List LineaHotkeys :=
  let r1 : EstadoScript × List LineaHotkeys :=
    if p.teclasLeidas && p.qPressed then
      ({ e with salir := true }, [.quitRequested])
    else (e, [])
  let r2 : EstadoScript × List LineaHotkeys :=
    if p.teclasLeidas && p.sPressed && !r1.1.grabando then
      ({ r1.1 with grabando := true }, r1.2 ++ [.startRecording r1.1.numeroActual])
    else r1
  let r3 : EstadoScript × List LineaHotkeys :=
    if p.teclasLeidas && p.ePressed && r2.1.grabando then
      ({ r2.1 with grabando := false, numeroActual := r2.1.numeroActual + 1 },
        r2.2 ++ [.stopRecording r2.1.numeroActual])
    else r2
  let r4 : EstadoScript × List LineaHotkeys :=
    if r3.1.grabando then
      match p.boton with
      | some pos => (r3.1, r3.2 ++ [.clickRecorded pos.1 pos.2 r3.1.numeroActual p.ahora])
      | none => r3
    else r3
  if p.archivoDeParada then ({ r4.1 with salir := true }, r4.2) else r4

/-- The loop `while (-not $salir)` over the passes observed and the line printed
after it (line 940); when the passes end with the loop still running, the process was
killed (line 1077) and prints nothing more. -/
def bucleScript : EstadoScript → List PasoScript → List LineaHotkeys
  | e, [] => if e.salir then [.hotkeyCaptureStopped] else []
  | e, p :: ps =>
    if e.salir then [.hotkeyCaptureStopped]
    else (pasoScript e p).2 ++ bucleScript (pasoScript e p).1 ps

/-- Everything the script prints (lines 857-940). -/
def salidaScript (pasos : List PasoScript) : List LineaHotkeys :=
  .hotkeyCaptureStarted :: bucleScript estadoInicialScript pasos

/-- The lines the script can print when its variables are `grabando` and
`numeroActual`: a start only when not recording, a click or a stop only when
recording, each carrying the current number, which a stop increments. -/
def sigueProtocolo : Bool → ℤ → List LineaHotkeys → Prop
  | _, _, [] => True
  | g, n, .startRecording num :: ls => g = false ∧ num = n ∧ sigueProtocolo true n ls
  | g, n, .clickRecorded _ _ num _ :: ls => g = true ∧ num = n ∧ sigueProtocolo g n ls
  | g, n, .stopRecording num :: ls => g = true ∧ num = n ∧ sigueProtocolo false (n + 1) ls
  | g, n, .hotkeyCaptureStarted :: ls => sigueProtocolo g n ls
  | g, n, .quitRequested :: ls => sigueProtocolo g n ls
  | g, n, .hotkeyCaptureStopped :: ls => sigueProtocolo g n ls
  | g, n, .otra :: ls => sigueProtocolo g n ls

/-- The coordinate the stop handler's `find` returns (line 1030). -/
def primeraPendiente (num : ℤ) (cs : List CoordGrabada) : Option CoordGrabada :=
  cs.find? fun c => c.numero == num && !c.confirmado

/-- The coordinates the stop handler confirms while the handler treats `lineas` from
the state `s`, in the order of the `STOP_RECORDING` lines that confirm them. -/
def ordenDeConfirmacion (v : Ventana) : EstadoHotkeys → List LineaHotkeys → List CoordGrabada
  | _, [] => []
  | s, .stopRecording num :: ls =>
    match primeraPendiente num s.coordenadasGrabadas with
    | some c =>
      { c with confirmado := true } ::
        ordenDeConfirmacion v (hotkeysLinea v s (.stopRecording num)) ls
    | none => ordenDeConfirmacion v (hotkeysLinea v s (.stopRecording num)) ls
  | s, l :: ls => ordenDeConfirmacion v (hotkeysLinea v s l) ls

/-- The click a `FIREFOX_CLICK_CAPTURED` line makes `grabacionManual` store, if any:
its absolute point. -/
def clickAceptado (v : Ventana) : LineaCaptura → Option Punto
  | .firefoxClickCaptured x y _ _ _ =>
    if enRango (relativasDeClick v x y) then some ⟨x, y⟩ else none
  | _ => none

/-- What holds of `coordenadasGrabadas` while the handler treats the script's lines
and the script's `numeroActual` is `n`: the coordinates are in non-decreasing order of
their number, none has a number above `n`, and a confirmed one has a number below
`n`. -/
def invarianteHotkeys (n : ℤ) (cs : List CoordGrabada) : Prop :=
  cs.Pairwise (fun a b => a.numero ≤ b.numero) ∧
  (∀ c ∈ cs, c.numero ≤ n) ∧
  (∀ c ∈ cs, c.confirmado = true → c.numero < n)

/-- A pass of the script's loop in which nothing is pressed. -/
def pasoVacio : PasoScript :=
  { teclasLeidas := true, qPressed := false, sPressed := false, ePressed := false,
    boton := none, archivoDeParada := false, ahora := 0 }

/-- A session at the keyboard: S, a click at (10,10), E, S, a click at (20,20), E. -/
def pasosDeEjemplo : List PasoScript :=
  [{ pasoVacio with sPressed := true },
   { pasoVacio with boton := some (10, 10), ahora := 1000 },
   { pasoVacio with ePressed := true },
   { pasoVacio with sPressed := true },
   { pasoVacio with boton := some (20, 20), ahora := 2000 },
   { pasoVacio with ePressed := true }]

/-- The pass of the script's loop in which only the key S is down. -/
def pasoInicio : PasoScript := { pasoVacio with sPressed := true }

/-- The pass of the script's loop in which only the key E is down. -/
def pasoFin : PasoScript := { pasoVacio with ePressed := true }

/-- A pass of the script's loop in which no key is down and the left button is, with
the cursor at `(c.1, c.2.1)`; `c.2.2` is the value of `Date.now()` when the handler
treats its line. -/
def pasoDeClick (c : ℤ × ℤ × ℤ) : PasoScript :=
  { pasoVacio with boton := some (c.1, c.2.1), ahora := c.2.2 }

/-- Whether the line is a `STOP_RECORDING` line. -/
def esStop : LineaHotkeys → Bool
  | .stopRecording _ => true
  | _ => false

/-! ## `modoHibrido` -/

/-- The method `modoHibrido` (lines 1309-1329) on `numerosDetectados`;
`agregarManuales` tells whether the operator's answer, in lower case, starts with
`s`. -/
def modoHibrido (estaConectado : Bool) (dims : Dimensiones) (dom : Option (List Encontrado))
    (agregarManuales : Bool) (ventanaFirefox : Option Ventana)
    (pagina : ℚ → ℚ → Option String) (lineas : List LineaSistema)
    (numerosDetectados : List Elemento) : List Elemento :=
  let numerosDetectados := deteccionAutomatica estaConectado dims dom numerosDetectados
  if agregarManuales then
    grabacionManualSistema estaConectado ventanaFirefox dims pagina lineas numerosDetectados
  else numerosDetectados

/-! ## Window location of the detector -/

/-- A top-level window as the detection scripts see it: whether `IsWindowVisible`
holds, whether `GetWindowRect` succeeds, and the rectangle it returns. -/
structure VentanaSistema where
  visible : Bool
  rectOk : Bool
  left : ℤ
  top : ℤ
  right : ℤ
  bottom : ℤ
deriving DecidableEq, Repr

/-- The loop over `$firefoxProcesses` of `detectar_firefox_mejorado.ps1`
(lines 1817-1847): the numbers of the `FIREFOX_FOUND_MEJORADO` line it prints. -/
def scriptMejoradoProcesos : List VentanaSistema → Option Ventana
  | [] => none
  | w :: ws =>
    if w.visible && w.rectOk && decide (w.right - w.left > 100) &&
        decide (w.bottom - w.top > 100) then
      some ⟨w.left, w.top, w.right - w.left, w.bottom - w.top⟩
    else scriptMejoradoProcesos ws

/-- The loop over `$clasesFirefox` (lines 1874-1891); an element is the window
`FindWindow` returns for a class, `none` for a null handle. -/
def scriptMejoradoClases : List (Option VentanaSistema) → Option Ventana
  | [] => none
  | none :: ws => scriptMejoradoClases ws
  | some w :: ws =>
    if w.rectOk && decide (w.right - w.left > 100) && decide (w.bottom - w.top > 100) then
      some ⟨w.left, w.top, w.right - w.left, w.bottom - w.top⟩
    else scriptMejoradoClases ws

/-- The script `detectar_firefox_mejorado.ps1` (lines 1762-1899): the geometry of its
`FIREFOX_FOUND_MEJORADO` line, `none` when it prints `FIREFOX_NOT_FOUND_MEJORADO`. -/
def scriptMejorado (procesos : List VentanaSistema)
    (porClase : List (Option VentanaSistema)) : Option Ventana :=
  match scriptMejoradoProcesos procesos with
  | some v => some v
  | none => scriptMejoradoClases porClase

/-- The script `detectar_firefox_simple.ps1` (lines 1699-1730): `proceso` is the
window of the first process named like `firefox` with a window title, if any; the
result is the geometry of the `FIREFOX_FOUND` line. -/
def scriptSimple (proceso : Option VentanaSistema) : Option Ventana :=
  match proceso with
  | none => none
  | some w =>
    if w.rectOk then some ⟨w.left, w.top, w.right - w.left, w.bottom - w.top⟩ else none

/-- The method `obtenerPosicionVentanaFirefox` (lines 1695-1756): `salida` is the
geometry read from the `FIREFOX_FOUND:` marker, `none` when the marker is absent
(also after a timeout) or a file operation throws. -/
def obtenerPosicionVentanaFirefox (salida : Option Ventana) : Option Ventana :=
  match salida with
  | some ventana => some ventana
  | none => none

/-- The method `obtenerPosicionVentanaFirefoxMejorada` (lines 1758-1937): `salida` is
the geometry read from the `FIREFOX_FOUND_MEJORADO:` marker, `none` when the marker is
absent or a file operation throws; in both cases the original method is tried. -/
def obtenerPosicionVentanaFirefoxMejorada (salida salidaSimple : Option Ventana) :
    Option Ventana :=
  match salida with
  | some ventana => some ventana
  | none => obtenerPosicionVentanaFirefox salidaSimple

/-- A minimised Firefox window: visible, with the rectangle Windows gives minimised
windows, 160 wide and 28 high. -/
def ventanaMinimizada : VentanaSistema :=
  { visible := true, rectOk := true, left := -32000, top := -32000,
    right := -31840, bottom := -31972 }

/-- A working directory that holds an export of the detector,
`coordenadas_firefox_integrado.json`, with a viewport of 1280 x 720 and one entry. -/
def archivosExportados : Archivos := fun nombre =>
  if nombre = "coordenadas_firefox_integrado.json" then
    some ⟨some ⟨1280, 720⟩, some true, none, some [entradaEn (1 / 2) (1 / 2)], none⟩
  else none

/-! ## Export of the detector: `exportarCoordenadasRelativas` -/

/-- The file system after `fs.writeFile(nombre, JSON.stringify(datos))`: reading
`nombre` back yields `datos`.  Serialising and parsing a document of finite numbers
and strings gives the document back; a property whose value is `undefined` is left
out and reads as absent. -/
def escribirArchivo (fs : Archivos) (nombre : String) (datos : Documento) : Archivos :=
  fun n => if n = nombre then some datos else fs n

/-- The object `datos` of `exportarCoordenadasRelativas` (lines 1607-1622), as far as
the loader of the clicker reads it. -/
def datosExportados (modoIncognito : Bool) (dimensionesVentana : Dimensiones)
    (numerosDetectados : List Elemento) : Documento :=
  { dimensiones := some dimensionesVentana
    modoIncognito := some modoIncognito
    ventana := none
    elementos := some numerosDetectados
    clicks := none }

/-- The method `exportarCoordenadasRelativas` (lines 1601-1634) on the files of the
working directory; `escrituraFalla` tells whether `fs.writeFile` throws. -/
def exportarCoordenadasRelativas (modoIncognito : Bool) (dimensionesVentana : Dimensiones)
    (numerosDetectados : List Elemento) (escrituraFalla : Bool) (fs : Archivos) : Archivos :=
  if numerosDetectados.length = 0 then fs
  else if escrituraFalla then fs
  else escribirArchivo fs "coordenadas_firefox_integrado.json"
    (datosExportados modoIncognito dimensionesVentana numerosDetectados)

/-- The expression `Math.random() * 800 + 500` (clicker_adaptativo.js, line 432) for
the draw `r` of `Math.random()`, as the machine computes it: the product and the sum
are each rounded to a double. -/
def pausaHumana (r : ℚ) : ℚ := doble (doble (r * 800) + 500)

/-! ## The fallback grid, written out -/

/-- The values of the 44 objects the fallback branch pushes, in push order. -/
def valoresSimulados : List Valor :=
  [.num 3, .num 6, .num 9, .num 12, .num 15, .num 18, .num 21, .num 24, .num 27, .num 30,
   .num 33, .num 36, .num 2, .num 5, .num 8, .num 11, .num 14, .num 17, .num 20, .num 23,
   .num 26, .num 29, .num 32, .num 35, .num 1, .num 4, .num 7, .num 10, .num 13, .num 16,
   .num 19, .num 22, .num 25, .num 28, .num 31, .num 34, .num 0,
   .str "RED", .str "BLACK", .str "EVEN", .str "ODD", .str "1st 12", .str "2nd 12",
   .str "3rd 12"]

/-- The positions of the 36 cells of the main grid, in push order: column by column,
each column from the top row to the bottom row. -/
def posicionesSimuladas : List (ℚ × ℚ) :=
  [
   (120, 180), (120, 218), (120, 256), (205, 180), (205, 218), (205, 256),
   (290, 180), (290, 218), (290, 256), (375, 180), (375, 218), (375, 256),
   (460, 180), (460, 218), (460, 256), (545, 180), (545, 218), (545, 256),
   (630, 180), (630, 218), (630, 256), (715, 180), (715, 218), (715, 256),
   (800, 180), (800, 218), (800, 256), (885, 180), (885, 218), (885, 256),
   (970, 180), (970, 218), (970, 256), (1055, 180), (1055, 218), (1055, 256)]

/-- A window at (100, 200) of size 800 x 600, for the examples. -/
def ventanaDeEjemplo : VentanaJuego := ⟨⟨100, 200, 800, 600⟩, some "firefox", none⟩

/-- A working directory whose only file is `clicks_fisicos.json` in the oldest
format, with the clicks recorded for the numbers 0 and 7. -/
def archivosSoloClicks : Archivos := fun nombre =>
  if nombre = "clicks_fisicos.json" then
    some ⟨none, none, none, none,
      some [⟨500, 500, some (.num 0), none, none, none⟩,
            ⟨300, 350, some (.num 7), none, none, none⟩]⟩
  else none

/-- The positions of the zero cell and of the seven outer bets, in push order. -/
def posicionesExteriores : List (ℚ × ℚ) :=
  [(60, 218), (1160, 180), (1160, 218), (1160, 256), (1240, 180),
   (420, 304), (760, 304), (1100, 304)]

/-! ## Diagnostics: `DiagnosticoFirefox` -/

/-- An object pushed on `resultados`. -/
structure ResultadoDiagnostico where
  nombre : String
  estado : Bool
  mensaje : String
  solucion : Option String
deriving DecidableEq, Repr

/-- How a call of `ejecutarComando` (diagnostico_firefox.js, lines 380-407) ends: it
resolves with the standard output when the exit code is 0, and rejects otherwise and
after ten seconds. -/
inductive SalidaComando where
  | resuelve (salida : String)
  | rechaza (mensaje : String)
deriving DecidableEq, Repr

/-- Whether `texto` starts with `sub`. -/
def empiezaCon : List Char → List Char → Bool
  | _, [] => true
  | [], _ :: _ => false
  | c :: cs, d :: ds => c == d && empiezaCon cs ds

/-- Whether `sub` occurs in `texto`. -/
def incluyeLista : List Char → List Char → Bool
  | [], sub => sub.isEmpty
  | c :: cs, sub => empiezaCon (c :: cs) sub || incluyeLista cs sub

/-- JavaScript `texto.includes(sub)`. -/
def incluye (texto sub : String) : Bool := incluyeLista texto.toList sub.toList

/-- What the seven probes of one diagnostic run meet.
* `paquete`: the value of `dependencies?.playwright || devDependencies?.playwright`
  of `package.json`, `none` when reading or parsing the file throws;
* `powershell`, `politica`, `procesos`, `hooks`: how the four commands end;
* `arranque`: the message of the error thrown while the test browser is launched and
  its page awaited, `none` when none is thrown; `cierre`: the same for
  `navegador.close()`;
* `arranqueSelectores`: whether the headless browser is launched and the test page
  set without an error; `consulta selector`: the number of elements the page returns
  for the selector, `none` when the query throws; `cierreSelectores`: whether the
  browser closes without an error;
* `escritura`, `borrado`: whether writing and deleting `test_hooks.ps1` succeed. -/
structure Entorno where
  paquete : Option (Option String)
  powershell : SalidaComando
  politica : SalidaComando
  procesos : SalidaComando
  arranque : Option String
  cierre : Option String
  arranqueSelectores : Bool
  consulta : String → Option ℕ
  cierreSelectores : Bool
  escritura : Bool
  hooks : SalidaComando
  borrado : Bool

/-- The method `verificarPlaywright` (lines 52-85) on `resultados`. -/
def verificarPlaywright (e : Entorno) (resultados : List ResultadoDiagnostico) :
    List ResultadoDiagnostico :=
  match e.paquete with
  | none =>
    resultados ++ [{ nombre := "Playwright Instalado", estado := false,
                     mensaje := "Error verificando package.json",
                     solucion := some "Verifica que estés en el directorio correcto del proyecto" }]
  | some tienePlaywright =>
    if oTexto tienePlaywright "" != "" then
      resultados ++ [{ nombre := "Playwright Instalado", estado := true,
                       mensaje := "Versión " ++ oTexto tienePlaywright "" ++ " encontrada",
                       solucion := none }]
    else
      resultados ++ [{ nombre := "Playwright Instalado", estado := false,
                       mensaje := "No encontrado en package.json",
                       solucion := some "Ejecuta: npm install playwright" }]

/-- The method `verificarPowerShell` (lines 87-113) on `resultados`. -/
def verificarPowerShell (e : Entorno) (resultados : List ResultadoDiagnostico) :
    List ResultadoDiagnostico :=
  let fallo : ResultadoDiagnostico :=
    { nombre := "PowerShell Disponible", estado := false, mensaje := "PowerShell no funciona",
      solucion := some "Instala PowerShell o verifica la ruta del sistema" }
  match e.powershell with
  | .resuelve resultado =>
    if incluye resultado "Version" then
      resultados ++ [{ nombre := "PowerShell Disponible", estado := true,
                       mensaje := "PowerShell funciona correctamente", solucion := none }]
    else resultados ++ [fallo]
  | .rechaza _ => resultados ++ [fallo]

/-- The method `verificarPermisos` (lines 115-150) on `resultados`. -/
def verificarPermisos (e : Entorno) (resultados : List ResultadoDiagnostico) :
    List ResultadoDiagnostico :=
  match e.politica with
  | .resuelve resultado =>
    let politica := jsTrim resultado
    let permitido := ["RemoteSigned", "Unrestricted", "Bypass"].contains politica
    if permitido then
      resultados ++ [{ nombre := "Permisos PowerShell", estado := true,
                       mensaje := "Política actual: " ++ politica, solucion := none }]
    else
      resultados ++ [{ nombre := "Permisos PowerShell", estado := false,
                       mensaje := "Política restrictiva: " ++ politica,
                       solucion := some "Ejecuta como administrador: Set-ExecutionPolicy RemoteSigned" }]
  | .rechaza _ =>
    resultados ++ [{ nombre := "Permisos PowerShell", estado := false,
                     mensaje := "Error verificando permisos",
                     solucion := some "Ejecuta PowerShell como administrador" }]

/-- The method `verificarFirefoxProceso` (lines 152-187) on `resultados`. -/
def verificarFirefoxProceso (e : Entorno) (resultados : List ResultadoDiagnostico) :
    List ResultadoDiagnostico :=
  match e.procesos with
  | .resuelve resultado =>
    if incluye resultado "firefox" || incluye resultado "Firefox" then
      resultados ++ [{ nombre := "Firefox Ejecutándose", estado := true,
                       mensaje := "Firefox detectado en el sistema", solucion := none }]
    else
      resultados ++ [{ nombre := "Firefox Ejecutándose", estado := false,
                       mensaje := "No se detectó Firefox ejecutándose",
                       solucion := some "Abre Firefox manualmente o usa el comando \"abrir\" del detector" }]
  | .rechaza _ =>
    resultados ++ [{ nombre := "Firefox Ejecutándose", estado := false,
                     mensaje := "Error verificando procesos",
                     solucion := some "Verifica que Firefox esté instalado" }]

/-- The method `verificarFirefoxPlaywright` (lines 189-230) on `resultados`: the
success is pushed before `navegador.close()` is awaited inside the same `try`. -/
def verificarFirefoxPlaywright (e : Entorno) (resultados : List ResultadoDiagnostico) :
    List ResultadoDiagnostico :=
  let fallo (mensaje : String) : ResultadoDiagnostico :=
    { nombre := "Firefox Playwright", estado := false, mensaje := "Error: " ++ mensaje,
      solucion := some "Ejecuta: npx playwright install firefox" }
  match e.arranque with
  | some mensaje => resultados ++ [fallo mensaje]
  | none =>
    let resultados := resultados ++
      [{ nombre := "Firefox Playwright", estado := true,
         mensaje := "Firefox de Playwright funciona correctamente", solucion := none }]
    match e.cierre with
    | none => resultados
    | some mensaje => resultados ++ [fallo mensaje]

/-- The array `selectoresTest` (lines 235-241). -/
def selectoresTest : List String :=
  [".roulette-number", ".betting-spot", "[data-number]", ".number-cell",
   "button[data-number]"]

/-- The loop at lines 264-273: the value of `selectoresEncontrados` after it. -/
def contarSelectores (consulta : String → Option ℕ) : List String → ℕ
  | [] => 0
  | selector :: resto =>
    match consulta selector with
    | some n => (if n > 0 then 1 else 0) + contarSelectores consulta resto
    | none => contarSelectores consulta resto

/-- The method `verificarSelectores` (lines 232-306) on `resultados`. -/
def verificarSelectores (e : Entorno) (resultados : List ResultadoDiagnostico) :
    List ResultadoDiagnostico :=
  let fallo : ResultadoDiagnostico :=
    { nombre := "Selectores CSS", estado := false, mensaje := "Error verificando selectores",
      solucion := some "Problema con el navegador de prueba" }
  if !e.arranqueSelectores then resultados ++ [fallo]
  else
    let selectoresEncontrados := contarSelectores e.consulta selectoresTest
    if !e.cierreSelectores then resultados ++ [fallo]
    else
      let porcentaje := Math.round ((selectoresEncontrados : ℚ) / selectoresTest.length * 100)
      if porcentaje ≥ 60 then
        resultados ++ [{ nombre := "Selectores CSS", estado := true,
                         mensaje := toString selectoresEncontrados ++ "/" ++
                           toString selectoresTest.length ++ " selectores funcionan (" ++
                           toString porcentaje ++ "%)",
                         solucion := none }]
      else
        resultados ++ [{ nombre := "Selectores CSS", estado := false,
                         mensaje := "Solo " ++ toString selectoresEncontrados ++ "/" ++
                           toString selectoresTest.length ++ " selectores funcionan (" ++
                           toString porcentaje ++ "%)",
                         solucion := some "Los selectores pueden necesitar actualización para el sitio específico" }]

/-- The method `verificarHooks` (lines 308-378) on `resultados`: the result of the
test is pushed before `fs.unlink` is awaited inside the same `try`. -/
def verificarHooks (e : Entorno) (resultados : List ResultadoDiagnostico) :
    List ResultadoDiagnostico :=
  let fallo : ResultadoDiagnostico :=
    { nombre := "Hooks de Mouse", estado := false, mensaje := "Error probando hooks",
      solucion := some "Problema con permisos del sistema o antivirus" }
  if !e.escritura then resultados ++ [fallo]
  else
    match e.hooks with
    | .rechaza _ => resultados ++ [fallo]
    | .resuelve resultado =>
      let resultados :=
        if incluye resultado "HOOK_TEST_SUCCESS" then
          resultados ++ [{ nombre := "Hooks de Mouse", estado := true,
                           mensaje := "Hooks de sistema funcionan correctamente",
                           solucion := none }]
        else
          resultados ++ [{ nombre := "Hooks de Mouse", estado := false,
                           mensaje := "Hooks de sistema no funcionan",
                           solucion := some "Ejecuta como administrador o verifica permisos de seguridad" }]
      if e.borrado then resultados else resultados ++ [fallo]

/-- The method `ejecutarDiagnostico` (lines 12-50) on `resultados`; the summary it
prints afterwards only reads the array. -/
def ejecutarDiagnostico (e : Entorno) (resultados : List ResultadoDiagnostico) :
    List ResultadoDiagnostico :=
  verificarHooks e (verificarSelectores e (verificarFirefoxPlaywright e
    (verificarFirefoxProceso e (verificarPermisos e (verificarPowerShell e
      (verificarPlaywright e resultados))))))

/-- A machine on which every probe passes and every clean-up succeeds. -/
def entornoSano : Entorno :=
  { paquete := some (some "^1.40.0")
    powershell := .resuelve "Version : 5.1.19041"
    politica := .resuelve "RemoteSigned "
    procesos := .resuelve "firefox  Mozilla Firefox"
    arranque := none
    cierre := none
    arranqueSelectores := true
    consulta := fun _ => some 1
    cierreSelectores := true
    escritura := true
    hooks := .resuelve "HOOK_TEST_SUCCESS"
    borrado := true }

/-- The format of a result: the remediation text is `null` when the probe passed and
a non-empty string when it failed. -/
def solucionCoherente (r : ResultadoDiagnostico) : Prop :=
  (r.estado = true ↔ r.solucion = none) ∧
  (r.estado = false ↔ ∃ texto, r.solucion = some texto ∧ texto ≠ "")

/-- The machine of `entornoSano` on which closing the test browser of the fifth probe
throws. -/
def entornoCierreFallido : Entorno :=
  { entornoSano with cierre := some "Target closed" }

/-- The machine of `entornoSano` on which `test_hooks.ps1` cannot be deleted. -/
def entornoBorradoFallido : Entorno :=
  { entornoSano with borrado := false }

/-- The names of the seven probes, in the order `ejecutarDiagnostico` awaits them. -/
def nombresDeSondas : List String :=
  ["Playwright Instalado", "PowerShell Disponible", "Permisos PowerShell",
   "Firefox Ejecutándose", "Firefox Playwright", "Selectores CSS", "Hooks de Mouse"]

/-- The result the fifth probe records when closing its test browser throws
"Target closed". -/
def resultadoCierreFallido : ResultadoDiagnostico :=
  { nombre := "Firefox Playwright", estado := false, mensaje := "Error: Target closed",
    solucion := some "Ejecuta: npx playwright install firefox" }

/-! ## Theorems -/

theorem round_int_add (n : ℤ) (q : ℚ) : Math.round ((n : ℚ) + q) = n + Math.round q := by
  unfold Math.round
  rw [add_assoc, Int.floor_int_add]

theorem round_intCast (n : ℤ) : Math.round (n : ℚ) = n := by
  have h := round_int_add n 0
  simp only [add_zero] at h
  rw [h]
  unfold Math.round
  norm_num

/-- The capture formula followed by the replay formula on the same window gives
back an integer point exactly. -/
theorem objetivo_relativas (g : Ventana) (px py : ℤ) (hw : g.width ≠ 0) (hh : g.height ≠ 0) :
    objetivoEjecutar g (relativasDeClick g px py) = (px, py) := by
  have hx : g.x + (px - g.x) / g.width * g.width = (px : ℚ) := by
    rw [div_mul_cancel₀ _ hw]; ring
  have hy : g.y + (py - g.y) / g.height * g.height = (py : ℚ) := by
    rw [div_mul_cancel₀ _ hh]; ring
  simp only [objetivoEjecutar, relativasDeClick, hx, hy, round_intCast]

/-- C1: for a window with integer origin and positive size and an integer point
strictly inside it, the capture formula of `convertirCoordenadasAbsolutas` followed by
the replay formula of `ejecutarClicksAdaptativos` on the same window gives a point
within one pixel of the original on each axis. -/
theorem ida_y_vuelta_un_pixel (gx gy px py : ℤ) (w h : ℚ) (hw : 0 < w) (hh : 0 < h)
    (_hx1 : (gx : ℚ) < px) (_hx2 : (px : ℚ) < gx + w)
    (_hy1 : (gy : ℚ) < py) (_hy2 : (py : ℚ) < gy + h) :
    |(objetivoEjecutar ⟨gx, gy, w, h⟩
        (convertirClick ⟨gx, gy, w, h⟩
          ⟨px, py, none, none, none, none⟩).coordenadas.relativas).1 - px| ≤ 1 ∧
    |(objetivoEjecutar ⟨gx, gy, w, h⟩
        (convertirClick ⟨gx, gy, w, h⟩
          ⟨px, py, none, none, none, none⟩).coordenadas.relativas).2 - py| ≤ 1 := by
  have h := objetivo_relativas ⟨gx, gy, w, h⟩ px py (ne_of_gt hw) (ne_of_gt hh)
  simp only [convertirClick, h, sub_self, abs_zero]
  exact ⟨zero_le_one, zero_le_one⟩

theorem ida_y_vuelta_un_pixel_witness :
    |(objetivoEjecutar ⟨100, 200, 800, 600⟩
        (convertirClick ⟨100, 200, 800, 600⟩
          ⟨(333 : ℤ), (457 : ℤ), none, none, none, none⟩).coordenadas.relativas).1 - 333| ≤ 1 ∧
    |(objetivoEjecutar ⟨100, 200, 800, 600⟩
        (convertirClick ⟨100, 200, 800, 600⟩
          ⟨(333 : ℤ), (457 : ℤ), none, none, none, none⟩).coordenadas.relativas).2 - 457| ≤ 1 := by
  have h := ida_y_vuelta_un_pixel 100 200 333 457 800 600 (by norm_num) (by norm_num)
    (by norm_num) (by norm_num) (by norm_num) (by norm_num)
  simpa using h

/-- C2: with the capture window at (100,200) of size 800x600 the point (500,500)
is captured as the relative point (0.5, 0.5), and replaying it on the window at
(0,0) of size 400x300 targets (200,150). -/
theorem ejemplo_captura_y_replay :
    (convertirClick ⟨100, 200, 800, 600⟩
        ⟨500, 500, none, none, none, none⟩).coordenadas.relativas = ⟨1 / 2, 1 / 2⟩ ∧
    objetivoEjecutar ⟨0, 0, 400, 300⟩
      (convertirClick ⟨100, 200, 800, 600⟩
        ⟨500, 500, none, none, none, none⟩).coordenadas.relativas = (200, 150) := by
  constructor
  · simp only [convertirClick, relativasDeClick]
    norm_num
  · simp only [convertirClick, relativasDeClick, objetivoEjecutar]
    norm_num [Math.round]

/-! ### Rounding to the nearest double -/

theorem redondeoPar_cotas (x : ℚ) :
    ⌊x⌋ ≤ redondeoPar x ∧ redondeoPar x ≤ ⌊x⌋ + 1 ∧
      (redondeoPar x = ⌊x⌋ + 1 → (1 : ℚ) / 2 ≤ x - ⌊x⌋) := by
  unfold redondeoPar
  split_ifs with h1 h2 h3
  · exact ⟨le_refl _, by omega, fun h => by omega⟩
  · exact ⟨by omega, le_refl _, fun _ => le_of_lt h2⟩
  · exact ⟨le_refl _, by omega, fun h => by omega⟩
  · exact ⟨by omega, le_refl _, fun _ => not_lt.1 h1⟩

theorem redondeoPar_le (x : ℚ) (n : ℤ) (h : x ≤ n) : redondeoPar x ≤ n := by
  obtain ⟨_, h2, h3⟩ := redondeoPar_cotas x
  have hf : (⌊x⌋ : ℚ) ≤ x := Int.floor_le x
  by_cases hr : redondeoPar x = ⌊x⌋ + 1
  · have h4 := h3 hr
    have h5 : (⌊x⌋ : ℚ) < n := by linarith
    have h6 : ⌊x⌋ < n := by exact_mod_cast h5
    omega
  · have h5 : (⌊x⌋ : ℚ) ≤ n := le_trans hf h
    have h6 : ⌊x⌋ ≤ n := by exact_mod_cast h5
    omega

theorem le_redondeoPar (x : ℚ) (n : ℤ) (h : (n : ℚ) ≤ x) : n ≤ redondeoPar x := by
  obtain ⟨h1, _, _⟩ := redondeoPar_cotas x
  have h2 : n ≤ ⌊x⌋ := Int.le_floor.2 h
  omega

theorem redondeoPar_mono (x y : ℚ) (h : x ≤ y) : redondeoPar x ≤ redondeoPar y := by
  have hf : ⌊x⌋ ≤ ⌊y⌋ := Int.floor_mono h
  by_cases hlt : ⌊x⌋ < ⌊y⌋
  · obtain ⟨_, h2, _⟩ := redondeoPar_cotas x
    obtain ⟨h1, _, _⟩ := redondeoPar_cotas y
    omega
  · have heq : ⌊x⌋ = ⌊y⌋ := by omega
    unfold redondeoPar
    rw [heq]
    split_ifs <;> first | omega | (exfalso; linarith)

theorem redondeoPar_eq (x : ℚ) (n : ℤ) (h1 : (n : ℚ) - 1 / 2 < x) (h2 : x < n + 1 / 2) :
    redondeoPar x = n := by
  by_cases hx : x < n
  · have hf : ⌊x⌋ = n - 1 := by
      rw [Int.floor_eq_iff]
      push_cast
      constructor <;> linarith
    unfold redondeoPar
    rw [hf]
    push_cast
    rw [if_neg (by linarith), if_pos (by linarith)]
    ring
  · have hf : ⌊x⌋ = n := by
      rw [Int.floor_eq_iff]
      constructor <;> linarith
    unfold redondeoPar
    rw [hf, if_pos (by linarith)]

theorem redondeoPar_empate (n : ℤ) :
    redondeoPar ((n : ℚ) + 1 / 2) = if n % 2 = 0 then n else n + 1 := by
  have hf : ⌊(n : ℚ) + 1 / 2⌋ = n := by
    rw [Int.floor_eq_iff]
    constructor <;> linarith
  unfold redondeoPar
  rw [hf, if_neg (by linarith), if_neg (by linarith)]

theorem exponenteDoble_eq (q : ℚ) (e : ℤ) (he : -1022 ≤ e) (h1 : (2 : ℚ) ^ e ≤ |q|)
    (h2 : |q| < (2 : ℚ) ^ (e + 1)) : exponenteDoble q = e := by
  have hpos : 0 < |q| := lt_of_lt_of_le (by positivity) h1
  have ha : e ≤ Int.log 2 |q| :=
    (Int.zpow_le_iff_le_log (by norm_num) hpos).1 (by exact_mod_cast h1)
  have hb : Int.log 2 |q| < e + 1 :=
    (Int.lt_zpow_iff_log_lt (by norm_num) hpos).1 (by exact_mod_cast h2)
  unfold exponenteDoble
  omega

theorem doble_eq_of (q : ℚ) (e n : ℤ) (he : -1022 ≤ e) (h1 : (2 : ℚ) ^ e ≤ |q|)
    (h2 : |q| < (2 : ℚ) ^ (e + 1)) (hn : redondeoPar (q / 2 ^ (e - 52)) = n) :
    doble q = n * 2 ^ (e - 52) := by
  unfold doble
  rw [exponenteDoble_eq q e he h1 h2, hn]

theorem doble_eq (q : ℚ) (e n : ℤ) (he : -1022 ≤ e) (h1 : (2 : ℚ) ^ e ≤ |q|)
    (h2 : |q| < (2 : ℚ) ^ (e + 1))
    (hn1 : (n : ℚ) - 1 / 2 < q / 2 ^ (e - 52)) (hn2 : q / 2 ^ (e - 52) < n + 1 / 2) :
    doble q = n * 2 ^ (e - 52) := by
  unfold doble
  rw [exponenteDoble_eq q e he h1 h2, redondeoPar_eq _ n hn1 hn2]

theorem exponenteDoble_le (q : ℚ) (k : ℤ) (hk : 0 ≤ k) (h : |q| < (2 : ℚ) ^ (k + 1)) :
    exponenteDoble q ≤ k := by
  unfold exponenteDoble
  by_cases hq : |q| ≤ 0
  · rw [Int.log_of_right_le_zero 2 hq]
    omega
  · have hpos : 0 < |q| := not_le.1 hq
    have hb : Int.log 2 |q| < k + 1 :=
      (Int.lt_zpow_iff_log_lt (by norm_num) hpos).1 (by exact_mod_cast h)
    omega

theorem ulp_pos (q : ℚ) : (0 : ℚ) < 2 ^ (exponenteDoble q - 52) := by positivity

theorem doble_le (x c : ℚ) (N : ℤ) (hc : c = N * 2 ^ (exponenteDoble x - 52)) (h : x ≤ c) :
    doble x ≤ c := by
  have hu := ulp_pos x
  have h1 : x / 2 ^ (exponenteDoble x - 52) ≤ N := by
    rw [div_le_iff₀ hu, ← hc]
    exact h
  have h2 : ((redondeoPar (x / 2 ^ (exponenteDoble x - 52)) : ℤ) : ℚ) ≤ N := by
    exact_mod_cast redondeoPar_le _ N h1
  unfold doble
  rw [hc]
  exact mul_le_mul_of_nonneg_right h2 (le_of_lt hu)

theorem le_doble (x c : ℚ) (N : ℤ) (hc : c = N * 2 ^ (exponenteDoble x - 52)) (h : c ≤ x) :
    c ≤ doble x := by
  have hu := ulp_pos x
  have h1 : (N : ℚ) ≤ x / 2 ^ (exponenteDoble x - 52) := by
    rw [le_div_iff₀ hu, ← hc]
    exact h
  have h2 : (N : ℚ) ≤ ((redondeoPar (x / 2 ^ (exponenteDoble x - 52)) : ℤ) : ℚ) := by
    exact_mod_cast le_redondeoPar _ N h1
  unfold doble
  rw [hc]
  exact mul_le_mul_of_nonneg_right h2 (le_of_lt hu)


theorem pot_ulp (e : ℤ) (k : ℕ) :
    (((2 : ℤ) ^ k : ℤ) : ℚ) * 2 ^ (e - 52) = 2 ^ (e - 52 + k) := by
  push_cast
  rw [← zpow_natCast, ← zpow_add₀ (by norm_num)]
  congr 1
  ring

theorem doble_zero : doble 0 = 0 := by
  unfold doble
  rw [zero_div, redondeoPar_eq 0 0 (by norm_num) (by norm_num)]
  simp

theorem doble_nonneg (b : ℚ) (hb : 0 ≤ b) : 0 ≤ doble b :=
  le_doble b 0 0 (by simp) hb

theorem doble_mono (a b : ℚ) (ha : 0 ≤ a) (h : a ≤ b) : doble a ≤ doble b := by
  have hb : 0 ≤ b := le_trans ha h
  rcases eq_or_lt_of_le ha with ha0 | hapos
  · rw [← ha0, doble_zero]
    exact doble_nonneg b hb
  · have hbpos : 0 < b := lt_of_lt_of_le hapos h
    have hlog : Int.log 2 |a| ≤ Int.log 2 |b| := by
      apply Int.log_mono_right (abs_pos.2 (ne_of_gt hapos))
      rw [abs_of_nonneg ha, abs_of_nonneg hb]
      exact h
    have hexp : exponenteDoble a ≤ exponenteDoble b := by
      unfold exponenteDoble
      omega
    rcases eq_or_lt_of_le hexp with heq | hlt
    · have hu := ulp_pos b
      have h1 : a / 2 ^ (exponenteDoble b - 52) ≤ b / 2 ^ (exponenteDoble b - 52) :=
        div_le_div_of_nonneg_right h (le_of_lt hu)
      have h2 : ((redondeoPar (a / 2 ^ (exponenteDoble b - 52)) : ℤ) : ℚ) ≤
          ((redondeoPar (b / 2 ^ (exponenteDoble b - 52)) : ℤ) : ℚ) := by
        exact_mod_cast redondeoPar_mono _ _ h1
      unfold doble
      rw [heq]
      exact mul_le_mul_of_nonneg_right h2 (le_of_lt hu)
    · have h1 : a < (2 : ℚ) ^ (exponenteDoble a + 1) := by
        have h0 := Int.lt_zpow_succ_log_self (R := ℚ) (b := 2) (by norm_num) |a|
        rw [abs_of_nonneg ha] at h0
        have hle : Int.log 2 a + 1 ≤ exponenteDoble a + 1 := by
          unfold exponenteDoble
          rw [abs_of_nonneg ha]
          omega
        have h3 : ((2 : ℕ) : ℚ) ^ (Int.log 2 a + 1) ≤ ((2 : ℕ) : ℚ) ^ (exponenteDoble a + 1) :=
          zpow_le_zpow_right₀ (by norm_num) hle
        have h4 := lt_of_lt_of_le h0 h3
        exact_mod_cast h4
      have h2 : doble a ≤ (2 : ℚ) ^ (exponenteDoble a + 1) := by
        apply doble_le a _ ((2 : ℤ) ^ 53) _ (le_of_lt h1)
        rw [pot_ulp]
        congr 1
        push_cast
        ring
      have h3 : (2 : ℚ) ^ (exponenteDoble a + 1) ≤ (2 : ℚ) ^ exponenteDoble b :=
        zpow_le_zpow_right₀ (by norm_num) (by omega)
      have h4 : (2 : ℚ) ^ exponenteDoble b ≤ b := by
        have hb2 : exponenteDoble b = Int.log 2 |b| := by
          have : -1022 ≤ exponenteDoble a := by
            unfold exponenteDoble
            omega
          unfold exponenteDoble at hlt this ⊢
          omega
        rw [hb2]
        have h0 := Int.zpow_log_le_self (R := ℚ) (b := 2) (by norm_num) (abs_pos.2 (ne_of_gt hbpos))
        rw [abs_of_nonneg hb] at h0 ⊢
        exact_mod_cast h0
      have h5 : (2 : ℚ) ^ exponenteDoble b ≤ doble b := by
        apply le_doble b _ ((2 : ℤ) ^ 52) _ h4
        rw [pot_ulp]
        congr 1
        push_cast
        ring
      linarith

theorem doble_le_medio (x : ℚ) (m : ℤ) (hx : |x| < 2 ^ 52) (h : x ≤ m / 2) :
    doble x ≤ m / 2 := by
  have he : exponenteDoble x ≤ 51 := exponenteDoble_le x 51 (by norm_num) (by
    norm_num at hx ⊢
    exact hx)
  apply doble_le x _ (m * 2 ^ (51 - exponenteDoble x).toNat) _ h
  push_cast
  rw [← zpow_natCast, Int.toNat_of_nonneg (by omega), mul_assoc,
    ← zpow_add₀ (by norm_num)]
  have : 51 - exponenteDoble x + (exponenteDoble x - 52) = -1 := by ring
  rw [this]
  norm_num
  ring

theorem medio_le_doble (x : ℚ) (m : ℤ) (hx : |x| < 2 ^ 52) (h : (m : ℚ) / 2 ≤ x) :
    (m : ℚ) / 2 ≤ doble x := by
  have he : exponenteDoble x ≤ 51 := exponenteDoble_le x 51 (by norm_num) (by
    norm_num at hx ⊢
    exact hx)
  apply le_doble x _ (m * 2 ^ (51 - exponenteDoble x).toNat) _ h
  push_cast
  rw [← zpow_natCast, Int.toNat_of_nonneg (by omega), mul_assoc,
    ← zpow_add₀ (by norm_num)]
  have : 51 - exponenteDoble x + (exponenteDoble x - 52) = -1 := by ring
  rw [this]
  norm_num
  ring

/-! ### The replay target against the specified mapper -/

theorem eje_doble (o : ℤ) (t : ℚ) (ho : |(o : ℚ)| ≤ 2 ^ 50) (ht : |t| ≤ 2 ^ 50) :
    Math.round (doble (o + doble t)) = o + Math.round t ∨
      Math.round (doble (o + doble t)) = o + Math.round t + 1 := by
  have hk1 : ((Math.round t : ℤ) : ℚ) ≤ t + 1 / 2 := Int.floor_le _
  have hk2 : t + 1 / 2 < (Math.round t : ℤ) + 1 := Int.lt_floor_add_one _
  generalize Math.round t = k at hk1 hk2 ⊢
  obtain ⟨ht1, ht2⟩ := abs_le.1 ht
  obtain ⟨ho1, ho2⟩ := abs_le.1 ho
  have htabs : |t| < 2 ^ 52 := lt_of_le_of_lt ht (by norm_num)
  have ha : ((2 * k - 1 : ℤ) : ℚ) / 2 ≤ doble t :=
    medio_le_doble t (2 * k - 1) htabs (by push_cast; linarith)
  have hb : doble t ≤ ((2 * k + 1 : ℤ) : ℚ) / 2 :=
    doble_le_medio t (2 * k + 1) htabs (by push_cast; linarith)
  push_cast at ha hb
  have huabs : |(o : ℚ) + doble t| < 2 ^ 52 := by
    rw [abs_lt]
    norm_num at ht1 ht2 ho1 ho2 ⊢
    constructor <;> linarith
  have hc : ((2 * (o + k) - 1 : ℤ) : ℚ) / 2 ≤ doble (o + doble t) :=
    medio_le_doble _ (2 * (o + k) - 1) huabs (by push_cast; linarith)
  have hd : doble (o + doble t) ≤ ((2 * (o + k) + 1 : ℤ) : ℚ) / 2 :=
    doble_le_medio _ (2 * (o + k) + 1) huabs (by push_cast; linarith)
  push_cast at hc hd
  unfold Math.round
  by_cases hlt : doble (o + doble t) + 1 / 2 < (o : ℚ) + k + 1
  · left
    rw [Int.floor_eq_iff]
    push_cast
    constructor <;> linarith
  · right
    rw [Int.floor_eq_iff]
    push_cast
    constructor <;> linarith

theorem doble_relativa : doble (116 / 800) = 5224175567749775 / 2 ^ 55 := by
  rw [doble_eq (116 / 800) (-3) 5224175567749775 (by norm_num)
    (by rw [abs_of_nonneg (by norm_num)]; norm_num)
    (by rw [abs_of_nonneg (by norm_num)]; norm_num) (by norm_num) (by norm_num)]
  norm_num

theorem doble_producto : doble (5224175567749775 / 2 ^ 55 * 100) = 8162774324609023 / 2 ^ 49 := by
  rw [doble_eq _ 3 8162774324609023 (by norm_num)
    (by rw [abs_of_nonneg (by norm_num)]; norm_num)
    (by rw [abs_of_nonneg (by norm_num)]; norm_num) (by norm_num) (by norm_num)]
  norm_num

theorem doble_suma : doble (1000 + 8162774324609023 / 2 ^ 49) = 2029 / 2 := by
  rw [doble_eq _ 9 8923636371030016 (by norm_num)
    (by rw [abs_of_nonneg (by norm_num)]; norm_num)
    (by rw [abs_of_nonneg (by norm_num)]; norm_num) (by norm_num) (by norm_num)]
  norm_num

/-- C3, as stated, fails: a click at x = 216 captured on a window at x = 100 of width
800 is stored as the double nearest to 116/800 = 0.145.  Replayed on a window at
x = 1000 of width 100, the code computes `Math.round(1000 + rel * 100)`: the product
is the double 14.499999999999998, its sum with 1000 is rounded to the double 1014.5,
and `Math.round` gives 1015, where the specified `origin + round(rel * size)` is
1000 + 14 = 1014. -/
theorem objetivo_doble_difiere :
    (objetivoEjecutarDoble ⟨1000, 1000, 100, 100⟩ ⟨doble (116 / 800), doble (116 / 800)⟩).1
      = 1015 ∧
    (toAbsoluteSpec 1000 1000 100 100 ⟨doble (116 / 800), doble (116 / 800)⟩).1 = 1014 := by
  constructor
  · simp only [objetivoEjecutarDoble, doble_relativa, doble_producto, doble_suma]
    unfold Math.round
    norm_num
  · simp only [toAbsoluteSpec, doble_relativa]
    unfold Math.round
    have : ⌊(5224175567749775 : ℚ) / 2 ^ 55 * 100 + 1 / 2⌋ = 14 := by
      rw [Int.floor_eq_iff]
      norm_num
    rw [this]
    norm_num

/-- C3, amended: for an integer origin and a relative point, with the origin and the
products `rel * size` of magnitude at most 2^50, the target the code computes in
double arithmetic is on each axis the specified `origin + round(rel * size)` or that
value plus one; it is the specified value whenever neither the product nor the sum is
rounded; and `ejecutarClicksAdaptativos`, `verificarCoordenadas` and
`exportarClicksFisicos` compute the same point for the same relative point and
geometry. -/
theorem objetivo_doble_a_un_pixel (ox oy : ℤ) (w h : ℚ) (rel : Punto)
    (hox : |(ox : ℚ)| ≤ 2 ^ 50) (hoy : |(oy : ℚ)| ≤ 2 ^ 50)
    (hx : |rel.x * w| ≤ 2 ^ 50) (hy : |rel.y * h| ≤ 2 ^ 50) :
    ((objetivoEjecutarDoble ⟨ox, oy, w, h⟩ rel).1 = (toAbsoluteSpec ox oy w h rel).1 ∨
      (objetivoEjecutarDoble ⟨ox, oy, w, h⟩ rel).1 = (toAbsoluteSpec ox oy w h rel).1 + 1) ∧
    ((objetivoEjecutarDoble ⟨ox, oy, w, h⟩ rel).2 = (toAbsoluteSpec ox oy w h rel).2 ∨
      (objetivoEjecutarDoble ⟨ox, oy, w, h⟩ rel).2 = (toAbsoluteSpec ox oy w h rel).2 + 1) ∧
    (doble (rel.x * w) = rel.x * w → doble (ox + rel.x * w) = ox + rel.x * w →
      (objetivoEjecutarDoble ⟨ox, oy, w, h⟩ rel).1 = (toAbsoluteSpec ox oy w h rel).1) ∧
    (doble (rel.y * h) = rel.y * h → doble (oy + rel.y * h) = oy + rel.y * h →
      (objetivoEjecutarDoble ⟨ox, oy, w, h⟩ rel).2 = (toAbsoluteSpec ox oy w h rel).2) ∧
    objetivoVerificarDoble ⟨ox, oy, w, h⟩ rel = objetivoEjecutarDoble ⟨ox, oy, w, h⟩ rel ∧
    objetivoExportarDoble ⟨ox, oy, w, h⟩ rel = objetivoEjecutarDoble ⟨ox, oy, w, h⟩ rel := by
  refine ⟨eje_doble ox _ hox hx, eje_doble oy _ hoy hy, ?_, ?_, rfl, rfl⟩
  · intro h1 h2
    simp only [objetivoEjecutarDoble, toAbsoluteSpec, h1, h2, round_int_add]
  · intro h1 h2
    simp only [objetivoEjecutarDoble, toAbsoluteSpec, h1, h2, round_int_add]

theorem objetivo_doble_a_un_pixel_witness :
    ((objetivoEjecutarDoble ⟨((1000 : ℤ) : ℚ), ((200 : ℤ) : ℚ), 100, 600⟩
          ⟨doble (116 / 800), 1 / 2⟩).1 =
        (toAbsoluteSpec 1000 200 100 600 ⟨doble (116 / 800), 1 / 2⟩).1 ∨
      (objetivoEjecutarDoble ⟨((1000 : ℤ) : ℚ), ((200 : ℤ) : ℚ), 100, 600⟩
          ⟨doble (116 / 800), 1 / 2⟩).1 =
        (toAbsoluteSpec 1000 200 100 600 ⟨doble (116 / 800), 1 / 2⟩).1 + 1) ∧
    ((objetivoEjecutarDoble ⟨((1000 : ℤ) : ℚ), ((200 : ℤ) : ℚ), 100, 600⟩
          ⟨doble (116 / 800), 1 / 2⟩).2 =
        (toAbsoluteSpec 1000 200 100 600 ⟨doble (116 / 800), 1 / 2⟩).2 ∨
      (objetivoEjecutarDoble ⟨((1000 : ℤ) : ℚ), ((200 : ℤ) : ℚ), 100, 600⟩
          ⟨doble (116 / 800), 1 / 2⟩).2 =
        (toAbsoluteSpec 1000 200 100 600 ⟨doble (116 / 800), 1 / 2⟩).2 + 1) := by
  have h := objetivo_doble_a_un_pixel 1000 200 100 600 ⟨doble (116 / 800), 1 / 2⟩
    (by norm_num [abs_of_nonneg]) (by norm_num [abs_of_nonneg])
    (by rw [doble_relativa, abs_of_nonneg (by norm_num)]; norm_num)
    (by rw [abs_of_nonneg (by norm_num)]; norm_num)
  exact ⟨h.1, h.2.1⟩

/-! ### Window membership and the range of relative points -/

theorem fraccion_en_rango (a o w : ℚ) (hw : 0 < w) :
    (0 ≤ (a - o) / w ∧ (a - o) / w ≤ 1) ↔ (o ≤ a ∧ a ≤ o + w) := by
  rw [le_div_iff₀ hw, div_le_one hw]
  constructor
  · rintro ⟨h1, h2⟩
    constructor <;> linarith
  · rintro ⟨h1, h2⟩
    constructor <;> linarith

theorem rango_iff_dentro (v : Ventana) (hw : 0 < v.width) (hh : 0 < v.height) (x y : ℤ) :
    enRango (relativasDeClick v x y) ↔ dentroDeVentana v x y := by
  have hx := fraccion_en_rango x v.x v.width hw
  have hy := fraccion_en_rango y v.y v.height hh
  unfold enRango dentroDeVentana relativasDeClick
  constructor
  · rintro ⟨a, b, c, d⟩
    exact ⟨(hx.1 ⟨a, b⟩).1, (hx.1 ⟨a, b⟩).2, (hy.1 ⟨c, d⟩).1, (hy.1 ⟨c, d⟩).2⟩
  · rintro ⟨a, b, c, d⟩
    exact ⟨(hx.2 ⟨a, b⟩).1, (hx.2 ⟨a, b⟩).2, (hy.2 ⟨c, d⟩).1, (hy.2 ⟨c, d⟩).2⟩

theorem manualLinea_fuera (v : Ventana) (x y ts : ℤ) (p t : Option String)
    (clicks : List ClickCapturado) (h : ¬ enRango (relativasDeClick v x y)) :
    manualLinea v clicks (.firefoxClickCaptured x y ts p t) = clicks := by
  unfold enRango relativasDeClick at h
  simp only [manualLinea]
  rw [if_neg h]

theorem hotkeysLinea_fuera (v : Ventana) (x y num ahora : ℤ) (s : EstadoHotkeys)
    (h : ¬ dentroDeVentana v x y) :
    hotkeysLinea v s (.clickRecorded x y num ahora) = s := by
  unfold dentroDeVentana at h
  simp only [hotkeysLinea]
  rw [if_neg h]

theorem hotkeysLinea_dentro (v : Ventana) (x y num ahora : ℤ) (s : EstadoHotkeys)
    (h : dentroDeVentana v x y) :
    hotkeysLinea v s (.clickRecorded x y num ahora) =
      { s with coordenadasGrabadas := s.coordenadasGrabadas ++
          [{ numero := num, x := x, y := y, relX := (relativasDeClick v x y).x,
             relY := (relativasDeClick v x y).y, timestamp := ahora,
             confirmado := false }] } := by
  unfold dentroDeVentana at h
  simp only [hotkeysLinea, relativasDeClick]
  rw [if_pos h]

theorem sistemaLinea_fuera (v : Ventana) (x y ahora : ℤ) (e : List ClickSistema × Bool)
    (h : ¬ dentroDeVentana v x y) :
    sistemaLinea v e (.click x y ahora) = e := by
  unfold dentroDeVentana at h
  simp only [sistemaLinea]
  rw [if_neg h]

/-- C5: for a window of positive width and height, a pointer event whose absolute
coordinate lies outside the window's bounding box is discarded by the handlers of
`grabacionManual`, `grabacionConHotkeys` and `grabacionManualSistema`: each leaves
its list of captured clicks (and the rest of its state) as it was. -/
theorem evento_fuera_descartado (v : Ventana) (hw : 0 < v.width) (hh : 0 < v.height)
    (x y : ℤ) (hfuera : ¬ dentroDeVentana v x y) :
    (∀ clicks ts p t, manualLinea v clicks (.firefoxClickCaptured x y ts p t) = clicks) ∧
    (∀ s num ahora, hotkeysLinea v s (.clickRecorded x y num ahora) = s) ∧
    (∀ e ahora, sistemaLinea v e (.click x y ahora) = e) := by
  refine ⟨?_, ?_, ?_⟩
  · intro clicks ts p t
    exact manualLinea_fuera v x y ts p t clicks
      (fun h => hfuera ((rango_iff_dentro v hw hh x y).1 h))
  · intro s num ahora
    exact hotkeysLinea_fuera v x y num ahora s hfuera
  · intro e ahora
    exact sistemaLinea_fuera v x y ahora e hfuera

theorem evento_fuera_descartado_witness :
    manualLinea ⟨100, 200, 800, 600⟩ [] (.firefoxClickCaptured 50 300 0 none none) = [] ∧
    hotkeysLinea ⟨100, 200, 800, 600⟩ estadoInicialHotkeys (.clickRecorded 50 300 1 0)
      = estadoInicialHotkeys ∧
    sistemaLinea ⟨100, 200, 800, 600⟩ ([], false) (.click 50 300 0) = ([], false) :=
  have h := evento_fuera_descartado ⟨100, 200, 800, 600⟩ (by norm_num) (by norm_num) 50 300
    (by unfold dentroDeVentana; norm_num)
  ⟨h.1 [] 0 none none, h.2.1 estadoInicialHotkeys 1 0, h.2.2 ([], false) 0⟩

/-! ### The range invariant of stored relative points -/

theorem manualLinea_rango (v : Ventana) (l : LineaCaptura) (clicks : List ClickCapturado)
    (h : ∀ c ∈ clicks, enRango ⟨c.relX, c.relY⟩) :
    ∀ c ∈ manualLinea v clicks l, enRango ⟨c.relX, c.relY⟩ := by
  cases l with
  | firefoxClickCaptured x y ts p t =>
    simp only [manualLinea]
    split
    · rename_i hr
      intro c hc
      rcases List.mem_append.1 hc with hc | hc
      · exact h c hc
      · rw [List.mem_singleton] at hc
        subst hc
        exact hr
    · exact h
  | hookStartedSuccessfully => exact h
  | errorHookFailed => exact h
  | otra => exact h

theorem manualLineas_rango (v : Ventana) (lineas : List LineaCaptura) :
    ∀ clicks : List ClickCapturado, (∀ c ∈ clicks, enRango ⟨c.relX, c.relY⟩) →
      ∀ c ∈ lineas.foldl (manualLinea v) clicks, enRango ⟨c.relX, c.relY⟩ := by
  induction lineas with
  | nil => intro clicks h; exact h
  | cons l ls ih =>
    intro clicks h
    exact ih _ (manualLinea_rango v l clicks h)

theorem manualEntradas_rango (dims : Dimensiones) (pagina : ℚ → ℚ → Option String)
    (clicks : List ClickCapturado) (h : ∀ c ∈ clicks, enRango ⟨c.relX, c.relY⟩) :
    ∀ i, ∀ e ∈ manualEntradas dims pagina i clicks, enRango e.coordenadas.relativas := by
  induction clicks with
  | nil => intro i e he; simp [manualEntradas] at he
  | cons c cs ih =>
    intro i e he
    simp only [manualEntradas, List.mem_cons] at he
    rcases he with he | he
    · subst he
      exact h c (List.mem_cons_self _ _)
    · exact ih (fun c' hc' => h c' (List.mem_cons_of_mem _ hc')) (i + 1) e he

theorem sistemaLinea_rango (v : Ventana) (hw : 0 < v.width) (hh : 0 < v.height)
    (l : LineaSistema) (e : List ClickSistema × Bool)
    (h : ∀ c ∈ e.1, enRango ⟨c.relX, c.relY⟩) :
    ∀ c ∈ (sistemaLinea v e l).1, enRango ⟨c.relX, c.relY⟩ := by
  cases l with
  | hookStarted => exact h
  | click x y ahora =>
    simp only [sistemaLinea]
    split
    · rename_i hd
      intro c hc
      rcases List.mem_append.1 hc with hc | hc
      · exact h c hc
      · rw [List.mem_singleton] at hc
        subst hc
        exact (rango_iff_dentro v hw hh x y).2 hd
    · exact h
  | otra => exact h

theorem sistemaLineas_rango (v : Ventana) (hw : 0 < v.width) (hh : 0 < v.height)
    (lineas : List LineaSistema) :
    ∀ e : List ClickSistema × Bool, (∀ c ∈ e.1, enRango ⟨c.relX, c.relY⟩) →
      ∀ c ∈ (lineas.foldl (sistemaLinea v) e).1, enRango ⟨c.relX, c.relY⟩ := by
  induction lineas with
  | nil => intro e h; exact h
  | cons l ls ih =>
    intro e h
    exact ih _ (sistemaLinea_rango v hw hh l e h)

theorem sistemaEntradas_rango (dims : Dimensiones) (pagina : ℚ → ℚ → Option String)
    (clicks : List ClickSistema) (h : ∀ c ∈ clicks, enRango ⟨c.relX, c.relY⟩) :
    ∀ i, ∀ e ∈ sistemaEntradas dims pagina i clicks, enRango e.coordenadas.relativas := by
  induction clicks with
  | nil => intro i e he; simp [sistemaEntradas] at he
  | cons c cs ih =>
    intro i e he
    simp only [sistemaEntradas, List.mem_cons] at he
    rcases he with he | he
    · subst he
      exact h c (List.mem_cons_self _ _)
    · exact ih (fun c' hc' => h c' (List.mem_cons_of_mem _ hc')) (i + 1) e he

theorem confirmarEncontrada_rango (num : ℤ) (cs : List CoordGrabada)
    (h : ∀ c ∈ cs, enRango ⟨c.relX, c.relY⟩) :
    ∀ c ∈ confirmarEncontrada num cs, enRango ⟨c.relX, c.relY⟩ := by
  induction cs with
  | nil => intro c hc; simp [confirmarEncontrada] at hc
  | cons d ds ih =>
    intro c hc
    simp only [confirmarEncontrada] at hc
    split at hc
    · rcases List.mem_cons.1 hc with hc | hc
      · subst hc
        exact h d (List.mem_cons_self _ _)
      · exact h c (List.mem_cons_of_mem _ hc)
    · rcases List.mem_cons.1 hc with hc | hc
      · subst hc
        exact h c (List.mem_cons_self _ _)
      · exact ih (fun c' hc' => h c' (List.mem_cons_of_mem _ hc')) c hc

theorem hotkeysLinea_rango (v : Ventana) (hw : 0 < v.width) (hh : 0 < v.height)
    (l : LineaHotkeys) (s : EstadoHotkeys)
    (h : ∀ c ∈ s.coordenadasGrabadas, enRango ⟨c.relX, c.relY⟩) :
    ∀ c ∈ (hotkeysLinea v s l).coordenadasGrabadas, enRango ⟨c.relX, c.relY⟩ := by
  cases l with
  | clickRecorded x y num ahora =>
    by_cases hd : dentroDeVentana v x y
    · rw [hotkeysLinea_dentro v x y num ahora s hd]
      intro c hc
      rcases List.mem_append.1 hc with hc | hc
      · exact h c hc
      · rw [List.mem_singleton] at hc
        subst hc
        exact (rango_iff_dentro v hw hh x y).2 hd
    · rw [hotkeysLinea_fuera v x y num ahora s hd]
      exact h
  | stopRecording num => exact confirmarEncontrada_rango num _ h
  | hotkeyCaptureStarted => exact h
  | startRecording num => exact h
  | quitRequested => exact h
  | hotkeyCaptureStopped => exact h
  | otra => exact h

theorem hotkeysLineas_rango (v : Ventana) (hw : 0 < v.width) (hh : 0 < v.height)
    (lineas : List LineaHotkeys) :
    ∀ s : EstadoHotkeys, (∀ c ∈ s.coordenadasGrabadas, enRango ⟨c.relX, c.relY⟩) →
      ∀ c ∈ (hotkeysLineas v s lineas).coordenadasGrabadas, enRango ⟨c.relX, c.relY⟩ := by
  induction lineas with
  | nil => intro s h; exact h
  | cons l ls ih =>
    intro s h
    exact ih _ (hotkeysLinea_rango v hw hh l s h)

/-- C4, as stated, fails: with the viewport configured to 800 x 600 and no element
found on the page, `deteccionAutomatica` stores the fallback cell `RED`, placed at
x = 1160, with the relative abscissa 1160 / 800 > 1; and
`convertirCoordenadasAbsolutas` stores a click at (50, 300), left of a window detected
at (100, 200) with size 800 x 600, with the relative abscissa -1/16 < 0. -/
theorem deteccion_fuera_de_rango :
    entradaDetectada ⟨800, 600⟩ ⟨.str "RED", 1160, 180, 80, 35, "simulado_apuesta"⟩
        ∈ deteccionAutomatica true ⟨800, 600⟩ (some []) [] ∧
    (entradaDetectada ⟨800, 600⟩
        ⟨.str "RED", 1160, 180, 80, 35, "simulado_apuesta"⟩).coordenadas.relativas
      = ⟨29 / 20, 3 / 10⟩ ∧
    ¬ enRango (entradaDetectada ⟨800, 600⟩
        ⟨.str "RED", 1160, 180, 80, 35, "simulado_apuesta"⟩).coordenadas.relativas ∧
    (convertirCoordenadasAbsolutas (some ⟨⟨100, 200, 800, 600⟩, some "firefox", none⟩)
        (some [⟨50, 300, some (.num 7), none, none, none⟩]) clickerInicial).coordenadasRelativas
      = some [convertirClick ⟨100, 200, 800, 600⟩ ⟨50, 300, some (.num 7), none, none, none⟩] ∧
    (convertirClick ⟨100, 200, 800, 600⟩
        ⟨50, 300, some (.num 7), none, none, none⟩).coordenadas.relativas
      = ⟨-1 / 16, 1 / 6⟩ ∧
    ¬ enRango (convertirClick ⟨100, 200, 800, 600⟩
        ⟨50, 300, some (.num 7), none, none, none⟩).coordenadas.relativas := by
  refine ⟨?_, ?_, ?_, ?_, ?_, ?_⟩
  · simp only [deteccionAutomatica, Bool.not_true, Bool.false_eq_true, if_false]
    apply List.mem_map_of_mem
    have h : (⟨.str "RED", 1160, 180, 80, 35, "simulado_apuesta"⟩ : Encontrado)
        ∈ gridSimulado := by
      unfold gridSimulado
      apply List.mem_append_right
      simp only [apuestasExteriores, List.map_cons, startX, startY, cellWidth]
      norm_num
    simpa [numerosEncontrados] using h
  · simp only [entradaDetectada]
    norm_num
  · simp only [entradaDetectada, enRango]
    norm_num
  · simp [convertirCoordenadasAbsolutas, detectarVentanaActual, clickerInicial]
  · simp only [convertirClick, relativasDeClick]
    norm_num
  · simp only [convertirClick, relativasDeClick, enRango]
    norm_num

/-- C4, amended: for a window and a viewport of positive width and height, every
entry that `grabacionManual`, `grabacionConHotkeys` or `grabacionManualSistema`
appends has its relative point in `[0,1] x [0,1]`; an entry of `deteccionAutomatica`
has it exactly when the element's position lies within the viewport, and an entry of
`convertirCoordenadasAbsolutas` exactly when the click lies within the window's
bounding box. -/
theorem rango_de_entradas_creadas (v : Ventana) (hw : 0 < v.width) (hh : 0 < v.height)
    (dims : Dimensiones) (hdw : 0 < dims.width) (hdh : 0 < dims.height) :
    (∀ con pagina lineas nd, ∃ nuevas,
      grabacionManual con (some v) dims pagina lineas nd = nd ++ nuevas ∧
      ∀ e ∈ nuevas, enRango e.coordenadas.relativas) ∧
    (∀ con pagina lineas nd, ∃ nuevas,
      grabacionConHotkeys con (some v) dims pagina lineas nd = nd ++ nuevas ∧
      ∀ e ∈ nuevas, enRango e.coordenadas.relativas) ∧
    (∀ con pagina lineas nd, ∃ nuevas,
      grabacionManualSistema con (some v) dims pagina lineas nd = nd ++ nuevas ∧
      ∀ e ∈ nuevas, enRango e.coordenadas.relativas) ∧
    (∀ num, enRango (entradaDetectada dims num).coordenadas.relativas ↔
      (0 ≤ num.x ∧ num.x ≤ dims.width ∧ 0 ≤ num.y ∧ num.y ≤ dims.height)) ∧
    (∀ click, enRango (convertirClick v click).coordenadas.relativas ↔
      (v.x ≤ click.x ∧ click.x ≤ v.x + v.width ∧
        v.y ≤ click.y ∧ click.y ≤ v.y + v.height)) := by
  refine ⟨?_, ?_, ?_, ?_, ?_⟩
  · intro con pagina lineas nd
    cases con with
    | false => exact ⟨[], by simp [grabacionManual], by simp⟩
    | true =>
      refine ⟨manualEntradas dims pagina 0 (lineas.foldl (manualLinea v) []), by
        simp [grabacionManual], ?_⟩
      exact manualEntradas_rango dims pagina _
        (manualLineas_rango v lineas [] (by simp)) 0
  · intro con pagina lineas nd
    cases con with
    | false => exact ⟨[], by simp [grabacionConHotkeys], by simp⟩
    | true =>
      refine ⟨(coordenadasConfirmadas (hotkeysLineas v estadoInicialHotkeys lineas)).map
        (hotkeysEntrada dims pagina), by simp [grabacionConHotkeys], ?_⟩
      intro e he
      rcases List.mem_map.1 he with ⟨c, hc, rfl⟩
      have hc' : c ∈ (hotkeysLineas v estadoInicialHotkeys lineas).coordenadasGrabadas :=
        (List.mem_filter.1 hc).1
      exact hotkeysLineas_rango v hw hh lineas estadoInicialHotkeys
        (by simp [estadoInicialHotkeys]) c hc'
  · intro con pagina lineas nd
    cases con with
    | false => exact ⟨[], by simp [grabacionManualSistema], by simp⟩
    | true =>
      refine ⟨sistemaEntradas dims pagina 0 (lineas.foldl (sistemaLinea v) ([], false)).1, by
        simp [grabacionManualSistema], ?_⟩
      exact sistemaEntradas_rango dims pagina _
        (sistemaLineas_rango v hw hh lineas ([], false) (by simp)) 0
  · intro num
    have hx := fraccion_en_rango num.x 0 dims.width hdw
    have hy := fraccion_en_rango num.y 0 dims.height hdh
    simp only [sub_zero, zero_add] at hx hy
    simp only [entradaDetectada, enRango]
    constructor
    · rintro ⟨a, b, c, d⟩
      exact ⟨(hx.1 ⟨a, b⟩).1, (hx.1 ⟨a, b⟩).2, (hy.1 ⟨c, d⟩).1, (hy.1 ⟨c, d⟩).2⟩
    · rintro ⟨a, b, c, d⟩
      exact ⟨(hx.2 ⟨a, b⟩).1, (hx.2 ⟨a, b⟩).2, (hy.2 ⟨c, d⟩).1, (hy.2 ⟨c, d⟩).2⟩
  · intro click
    have hx := fraccion_en_rango click.x v.x v.width hw
    have hy := fraccion_en_rango click.y v.y v.height hh
    simp only [convertirClick, relativasDeClick, enRango]
    constructor
    · rintro ⟨a, b, c, d⟩
      exact ⟨(hx.1 ⟨a, b⟩).1, (hx.1 ⟨a, b⟩).2, (hy.1 ⟨c, d⟩).1, (hy.1 ⟨c, d⟩).2⟩
    · rintro ⟨a, b, c, d⟩
      exact ⟨(hx.2 ⟨a, b⟩).1, (hx.2 ⟨a, b⟩).2, (hy.2 ⟨c, d⟩).1, (hy.2 ⟨c, d⟩).2⟩

theorem rango_de_entradas_creadas_witness :
    enRango (convertirClick ⟨100, 200, 800, 600⟩
      ⟨500, 500, none, none, none, none⟩).coordenadas.relativas :=
  ((rango_de_entradas_creadas ⟨100, 200, 800, 600⟩ (by norm_num) (by norm_num)
    ⟨1280, 720⟩ (by norm_num) (by norm_num)).2.2.2.2
      ⟨500, 500, none, none, none, none⟩).2 (by norm_num)

/-! ### The hotkey state machine -/

theorem hotkeysLineas_append (v : Ventana) (s : EstadoHotkeys) (l1 l2 : List LineaHotkeys) :
    hotkeysLineas v s (l1 ++ l2) = hotkeysLineas v (hotkeysLineas v s l1) l2 := by
  simp [hotkeysLineas, List.foldl_append]

theorem hotkeysLineas_clicks (v : Ventana) (n : ℤ) (clicks : List (ℤ × ℤ × ℤ))
    (hd : ∀ c ∈ clicks, dentroDeVentana v c.1 c.2.1) :
    ∀ s : EstadoHotkeys, hotkeysLineas v s (clicks.map (lineaDeClick n)) =
      { s with coordenadasGrabadas :=
          s.coordenadasGrabadas ++ clicks.map (coordDeClick v n) } := by
  induction clicks with
  | nil => intro s; simp [hotkeysLineas]
  | cons c cs ih =>
    intro s
    have hc := hd c (List.mem_cons_self _ _)
    have ih' := ih (fun c' hc' => hd c' (List.mem_cons_of_mem _ hc'))
    simp only [hotkeysLineas, List.map_cons, List.foldl_cons] at ih' ⊢
    rw [lineaDeClick, hotkeysLinea_dentro v c.1 c.2.1 n c.2.2 s hc, ih']
    simp [coordDeClick]

theorem confirmarEncontrada_sin_pendiente (n : ℤ) (cs : List CoordGrabada)
    (h : ∀ c ∈ cs, c.numero = n → c.confirmado = true) :
    confirmarEncontrada n cs = cs := by
  induction cs with
  | nil => rfl
  | cons d ds ih =>
    have hd := h d (List.mem_cons_self _ _)
    have hrest := ih (fun c hc => h c (List.mem_cons_of_mem _ hc))
    simp only [confirmarEncontrada]
    by_cases hn : d.numero = n
    · simp [hd hn, hrest]
    · simp [hn, hrest]

theorem confirmarEncontrada_cuenta (n : ℤ) (cs : List CoordGrabada)
    (h : ∃ c ∈ cs, c.numero = n ∧ c.confirmado = false) :
    ((confirmarEncontrada n cs).filter fun c => c.confirmado).length =
      (cs.filter fun c => c.confirmado).length + 1 := by
  induction cs with
  | nil => simp at h
  | cons d ds ih =>
    simp only [confirmarEncontrada]
    by_cases hd : d.numero = n ∧ d.confirmado = false
    · simp [hd.1, hd.2, List.filter_cons]
    · have hrest : ∃ c ∈ ds, c.numero = n ∧ c.confirmado = false := by
        rcases h with ⟨c, hc, hc2⟩
        rcases List.mem_cons.1 hc with hc | hc
        · subst hc; exact absurd hc2 hd
        · exact ⟨c, hc, hc2⟩
      have hcond : (d.numero == n && !d.confirmado) = false := by
        by_cases hn : d.numero = n
        · have : d.confirmado = true := by
            cases hcf : d.confirmado with
            | true => rfl
            | false => exact absurd ⟨hn, hcf⟩ hd
          simp [hn, this]
        · simp [hn]
      simp only [hcond]
      have := ih hrest
      by_cases hcf : d.confirmado = true
      · simp [List.filter_cons, hcf] at this ⊢
        exact this
      · simp [List.filter_cons, hcf] at this ⊢
        exact this

/-- C6: in the handler of `grabacionConHotkeys`, from any state of the handler, the
lines `START_RECORDING:n`, then k >= 1 `CLICK_RECORDED` lines for `n` with the click
in the window, then `STOP_RECORDING:n` raise the number of confirmed coordinates by
exactly one; and a session that consists of these lines appends exactly one entry to
`numerosDetectados`. -/
theorem inicio_clicks_fin_confirma_una (v : Ventana) (n : ℤ) (clicks : List (ℤ × ℤ × ℤ))
    (hk : clicks ≠ []) (hd : ∀ c ∈ clicks, dentroDeVentana v c.1 c.2.1) :
    (∀ s : EstadoHotkeys,
      (coordenadasConfirmadas (hotkeysLineas v s
        ([.startRecording n] ++ clicks.map (lineaDeClick n) ++ [.stopRecording n]))).length
        = (coordenadasConfirmadas s).length + 1) ∧
    (∀ dims pagina nd,
      (grabacionConHotkeys true (some v) dims pagina
        ([.startRecording n] ++ clicks.map (lineaDeClick n) ++ [.stopRecording n]) nd).length
        = nd.length + 1) := by
  have key : ∀ s : EstadoHotkeys,
      (coordenadasConfirmadas (hotkeysLineas v s
        ([.startRecording n] ++ clicks.map (lineaDeClick n) ++ [.stopRecording n]))).length
        = (coordenadasConfirmadas s).length + 1 := by
    intro s
    rw [hotkeysLineas_append, hotkeysLineas_append, hotkeysLineas_clicks v n clicks hd]
    simp only [hotkeysLineas, List.foldl_cons, List.foldl_nil, hotkeysLinea,
      coordenadasConfirmadas]
    rw [confirmarEncontrada_cuenta]
    · simp [List.filter_append, coordDeClick, List.filter_map]
    · obtain ⟨c, hc⟩ := List.exists_mem_of_ne_nil clicks hk
      exact ⟨coordDeClick v n c, List.mem_append_right _ (List.mem_map_of_mem _ hc),
        rfl, rfl⟩
  refine ⟨key, ?_⟩
  intro dims pagina nd
  have h0 := key estadoInicialHotkeys
  simp only [grabacionConHotkeys, Bool.not_true, Bool.false_eq_true, if_false,
    List.length_append, List.length_map]
  rw [h0]
  simp [coordenadasConfirmadas, estadoInicialHotkeys]

theorem inicio_clicks_fin_confirma_una_witness :
    (grabacionConHotkeys true (some ⟨0, 0, 100, 100⟩) dimensionesPorDefecto (fun _ _ => none)
        ([.startRecording 1] ++ [(10, 10, 1000), (20, 20, 2000)].map (lineaDeClick 1)
          ++ [.stopRecording 1]) []).length = 0 + 1 :=
  (inicio_clicks_fin_confirma_una ⟨0, 0, 100, 100⟩ 1 [(10, 10, 1000), (20, 20, 2000)]
    (by simp) (by simp [dentroDeVentana]; norm_num)).2 dimensionesPorDefecto (fun _ _ => none) []

/-- The handler has no guard of its own against a repeated stop line: were the lines
`START_RECORDING:1`, two clicks in the window and `STOP_RECORDING:1` followed by a
second `STOP_RECORDING:1`, the click still pending would be confirmed.  The script
never prints such a second line (`bucleScript_protocolo`). -/
theorem segundo_stop_confirma_otra :
    (coordenadasConfirmadas (hotkeysLineas ⟨0, 0, 100, 100⟩ estadoInicialHotkeys
      [.startRecording 1, .clickRecorded 10 10 1 1000, .clickRecorded 20 20 1 2000,
        .stopRecording 1])).length = 1 ∧
    (coordenadasConfirmadas (hotkeysLinea ⟨0, 0, 100, 100⟩
      (hotkeysLineas ⟨0, 0, 100, 100⟩ estadoInicialHotkeys
        [.startRecording 1, .clickRecorded 10 10 1 1000, .clickRecorded 20 20 1 2000,
          .stopRecording 1])
      (.stopRecording 1))).length = 2 ∧
    hotkeysLinea ⟨0, 0, 100, 100⟩
      (hotkeysLineas ⟨0, 0, 100, 100⟩ estadoInicialHotkeys
        [.startRecording 1, .clickRecorded 10 10 1 1000, .clickRecorded 20 20 1 2000,
          .stopRecording 1])
      (.stopRecording 1) ≠
    hotkeysLineas ⟨0, 0, 100, 100⟩ estadoInicialHotkeys
      [.startRecording 1, .clickRecorded 10 10 1 1000, .clickRecorded 20 20 1 2000,
        .stopRecording 1] := by
  have h1 : dentroDeVentana ⟨0, 0, 100, 100⟩ 10 10 := by
    unfold dentroDeVentana; norm_num
  have h2 : dentroDeVentana ⟨0, 0, 100, 100⟩ 20 20 := by
    unfold dentroDeVentana; norm_num
  simp only [hotkeysLineas, List.foldl_cons, List.foldl_nil, hotkeysLinea_dentro _ _ _ _ _ _ h1,
    hotkeysLinea_dentro _ _ _ _ _ _ h2]
  simp [hotkeysLinea, estadoInicialHotkeys, confirmarEncontrada, coordenadasConfirmadas]

/-- After `START_RECORDING:n`, exactly one click in the window and `STOP_RECORDING:n`,
in a handler state that held no unconfirmed click numbered `n` before, a further
`STOP_RECORDING:n` line would leave the handler's state as it is. -/
theorem segundo_stop_sin_pendientes (v : Ventana) (s : EstadoHotkeys) (n x y ahora : ℤ)
    (hd : dentroDeVentana v x y)
    (hp : ∀ c ∈ s.coordenadasGrabadas, c.numero = n → c.confirmado = true) :
    hotkeysLinea v
      (hotkeysLineas v s
        [.startRecording n, .clickRecorded x y n ahora, .stopRecording n])
      (.stopRecording n) =
    hotkeysLineas v s [.startRecording n, .clickRecorded x y n ahora, .stopRecording n] := by
  simp only [hotkeysLineas, List.foldl_cons, List.foldl_nil]
  rw [hotkeysLinea_dentro v x y n ahora _ hd]
  simp only [hotkeysLinea]
  have hfin : ∀ c ∈ confirmarEncontrada n (s.coordenadasGrabadas ++
      [{ numero := n, x := x, y := y, relX := (relativasDeClick v x y).x,
         relY := (relativasDeClick v x y).y, timestamp := ahora, confirmado := false }]),
      c.numero = n → c.confirmado = true := by
    have hpre : ∀ (cs : List CoordGrabada) (d : CoordGrabada),
        (∀ c ∈ cs, c.numero = n → c.confirmado = true) → d.numero = n →
        ∀ c ∈ confirmarEncontrada n (cs ++ [d]), c.numero = n → c.confirmado = true := by
      intro cs d
      induction cs with
      | nil =>
        intro _ hdn c hc hcn
        by_cases hdc : d.confirmado = true
        · simp [confirmarEncontrada, hdn, hdc] at hc
          subst hc; exact hdc
        · simp [confirmarEncontrada, hdn, hdc] at hc
          subst hc; rfl
      | cons e es ih =>
        intro hes hdn c hc hcn
        have he := hes e (List.mem_cons_self _ _)
        have hcond : (e.numero == n && !e.confirmado) = false := by
          by_cases hen : e.numero = n
          · simp [hen, he hen]
          · simp [hen]
        simp only [List.cons_append, confirmarEncontrada, hcond] at hc
        rcases List.mem_cons.1 hc with hc | hc
        · subst hc; exact he hcn
        · exact ih (fun c' hc' => hes c' (List.mem_cons_of_mem _ hc')) hdn c hc hcn
    exact hpre _ _ hp rfl
  rw [confirmarEncontrada_sin_pendiente n _ hfin]

theorem segundo_stop_sin_pendientes_witness :
    hotkeysLinea ⟨0, 0, 100, 100⟩
      (hotkeysLineas ⟨0, 0, 100, 100⟩ estadoInicialHotkeys
        [.startRecording 1, .clickRecorded 10 10 1 1000, .stopRecording 1])
      (.stopRecording 1) =
    hotkeysLineas ⟨0, 0, 100, 100⟩ estadoInicialHotkeys
      [.startRecording 1, .clickRecorded 10 10 1 1000, .stopRecording 1] :=
  segundo_stop_sin_pendientes ⟨0, 0, 100, 100⟩ estadoInicialHotkeys 1 10 10 1000
    (by unfold dentroDeVentana; norm_num) (by simp [estadoInicialHotkeys])

theorem bucleScript_clicks (n : ℤ) (clicks : List (ℤ × ℤ × ℤ)) (resto : List PasoScript) :
    bucleScript ⟨true, n, false⟩ (clicks.map pasoDeClick ++ resto) =
      clicks.map (lineaDeClick n) ++ bucleScript ⟨true, n, false⟩ resto := by
  induction clicks with
  | nil => simp
  | cons c cs ih =>
    simp only [List.map_cons, List.cons_append, bucleScript]
    simp [pasoScript, pasoDeClick, pasoVacio, lineaDeClick, ih]

theorem bucleScript_inicio_clicks_fin (n : ℤ) (clicks : List (ℤ × ℤ × ℤ))
    (resto : List PasoScript) :
    bucleScript ⟨false, n, false⟩ (pasoInicio :: clicks.map pasoDeClick ++ pasoFin :: resto) =
      (.startRecording n :: clicks.map (lineaDeClick n) ++ [.stopRecording n]) ++
        bucleScript ⟨false, n + 1, false⟩ resto := by
  have h1 : bucleScript ⟨false, n, false⟩
      (pasoInicio :: clicks.map pasoDeClick ++ pasoFin :: resto) =
      .startRecording n ::
        bucleScript ⟨true, n, false⟩ (clicks.map pasoDeClick ++ pasoFin :: resto) := by
    simp [bucleScript, pasoScript, pasoInicio, pasoVacio]
  have h2 : bucleScript ⟨true, n, false⟩ (pasoFin :: resto) =
      .stopRecording n :: bucleScript ⟨false, n + 1, false⟩ resto := by
    simp [bucleScript, pasoScript, pasoFin, pasoVacio]
  rw [h1, bucleScript_clicks, h2]
  simp

theorem bucleScript_sin_inicio (n : ℤ) (p : PasoScript) (hs : p.sPressed = false) :
    bucleScript ⟨false, n, false⟩ [p] =
      (if p.teclasLeidas && p.qPressed then [.quitRequested] else []) ++
        (if (p.teclasLeidas && p.qPressed) || p.archivoDeParada then
          [.hotkeyCaptureStopped] else []) := by
  obtain ⟨tl, q, sp, ep, bot, arch, ahora⟩ := p
  simp only at hs
  subst hs
  cases tl <;> cases q <;> cases ep <;> cases arch <;> cases bot <;>
    simp [bucleScript, pasoScript]

theorem hotkeysLineas_sin_efecto (v : Ventana) (lineas : List LineaHotkeys)
    (h : ∀ l ∈ lineas, l = .quitRequested ∨ l = .hotkeyCaptureStopped) :
    ∀ s : EstadoHotkeys, hotkeysLineas v s lineas = s := by
  induction lineas with
  | nil => intro s; rfl
  | cons l ls ih =>
    intro s
    have hl := h l (List.mem_cons_self _ _)
    have hls := ih (fun l' hl' => h l' (List.mem_cons_of_mem _ hl'))
    simp only [hotkeysLineas, List.foldl_cons] at hls ⊢
    rcases hl with hl | hl <;> subst hl <;> exact hls s

theorem cuenta_inicio_clicks_fin (v : Ventana) (n : ℤ) (clicks : List (ℤ × ℤ × ℤ))
    (hk : clicks ≠ []) (hd : ∀ c ∈ clicks, dentroDeVentana v c.1 c.2.1) (s : EstadoHotkeys) :
    (coordenadasConfirmadas (hotkeysLineas v s
      (.startRecording n :: clicks.map (lineaDeClick n) ++ [.stopRecording n]))).length
      = (coordenadasConfirmadas s).length + 1 := by
  have hl : (LineaHotkeys.startRecording n :: clicks.map (lineaDeClick n) ++
      [.stopRecording n]) =
      [.startRecording n] ++ clicks.map (lineaDeClick n) ++ [.stopRecording n] := by simp
  rw [hl, hotkeysLineas_append, hotkeysLineas_append, hotkeysLineas_clicks v n clicks hd]
  simp only [hotkeysLineas, List.foldl_cons, List.foldl_nil, hotkeysLinea,
    coordenadasConfirmadas]
  rw [confirmarEncontrada_cuenta]
  · simp [List.filter_append, coordDeClick, List.filter_map]
  · obtain ⟨c, hc⟩ := List.exists_mem_of_ne_nil clicks hk
    exact ⟨coordDeClick v n c, List.mem_append_right _ (List.mem_map_of_mem _ hc),
      rfl, rfl⟩

/-- C8, the code at the failing input: after `START_RECORDING:1`, a click at (10,10),
a click at (20,20) and `STOP_RECORDING:1`, the one entry the session appends has the
absolute coordinates (10,10) of the first click, not those of the last. -/
theorem stop_confirma_primer_click :
    (grabacionConHotkeys true (some ⟨0, 0, 100, 100⟩) dimensionesPorDefecto
      (fun _ _ => none)
      [.startRecording 1, .clickRecorded 10 10 1 1000, .clickRecorded 20 20 1 2000,
        .stopRecording 1] []).map (fun e => e.coordenadas.absolutas) = [⟨10, 10⟩] := by
  have h1 : dentroDeVentana ⟨0, 0, 100, 100⟩ 10 10 := by
    unfold dentroDeVentana; norm_num
  have h2 : dentroDeVentana ⟨0, 0, 100, 100⟩ 20 20 := by
    unfold dentroDeVentana; norm_num
  simp only [grabacionConHotkeys, hotkeysLineas, List.foldl_cons, List.foldl_nil,
    hotkeysLinea_dentro _ _ _ _ _ _ h1, hotkeysLinea_dentro _ _ _ _ _ _ h2]
  simp [hotkeysLinea, estadoInicialHotkeys, confirmarEncontrada, coordenadasConfirmadas,
    hotkeysEntrada]

/-! ### The value probe -/

theorem manualEntradas_length (dims : Dimensiones) (pagina : ℚ → ℚ → Option String)
    (clicks : List ClickCapturado) :
    ∀ i, (manualEntradas dims pagina i clicks).length = clicks.length := by
  induction clicks with
  | nil => intro i; rfl
  | cons c cs ih => intro i; simp [manualEntradas, ih]

theorem manualEntradas_en_posicion (dims : Dimensiones) (pagina : ℚ → ℚ → Option String)
    (clicks : List ClickCapturado) :
    ∀ i j click, clicks[j]? = some click →
      (manualEntradas dims pagina i clicks)[j]? = some (manualEntrada dims pagina (i + j) click) := by
  induction clicks with
  | nil => intro i j click h; simp at h
  | cons c cs ih =>
    intro i j click h
    cases j with
    | zero =>
      simp only [List.getElem?_cons_zero, Option.some.injEq] at h
      subst h
      simp [manualEntradas]
    | succ k =>
      simp only [List.getElem?_cons_succ] at h
      have := ih (i + 1) k click h
      simp only [manualEntradas, List.getElem?_cons_succ]
      rw [this]
      congr 2
      omega

theorem tipoDeValor_none : tipoDeValor none = "apuesta" := by
  simp [tipoDeValor, esNumero, parseInt]

/-- C9, as stated, fails: with a probe that returns nothing, the entry a hotkey
session appends for entry 7 has the placeholder value `numero_7` and the kind
`apuesta` (the kind of an outer bet); the code has no kind for an unknown value. -/
theorem sonda_nula_tipo_apuesta :
    (grabacionConHotkeys true (some ⟨0, 0, 100, 100⟩) dimensionesPorDefecto
      (fun _ _ => none)
      [.startRecording 7, .clickRecorded 10 10 7 1000, .stopRecording 7] []).map
        (fun e => (e.valor, e.tipo)) = [(some (.str "numero_7"), "apuesta")] := by
  have h1 : dentroDeVentana ⟨0, 0, 100, 100⟩ 10 10 := by
    unfold dentroDeVentana; norm_num
  simp only [grabacionConHotkeys, hotkeysLineas, List.foldl_cons, List.foldl_nil,
    hotkeysLinea_dentro _ _ _ _ _ _ h1]
  simp [hotkeysLinea, estadoInicialHotkeys, confirmarEncontrada, coordenadasConfirmadas,
    hotkeysEntrada, detectarValorEnPosicion, valorOPlaceholder, oTexto, tipoDeValor_none]
  decide

/-- C9, amended: a confirmed click whose value probe times out, throws or returns
nothing still gives an entry; its value is the placeholder `numero_<n>` in hotkey
mode and `click_<index>` in direct mode, and its kind is `apuesta`.  Whatever the
probe returns, a hotkey session appends one entry per confirmed coordinate and a
direct session one entry per captured click, the click at position `j` giving the
entry at position `j`. -/
theorem sonda_sin_valor_placeholder (dims : Dimensiones) (pagina : ℚ → ℚ → Option String)
    (coord : CoordGrabada) (i : ℕ) (click : ClickCapturado)
    (hcoord : detectarValorEnPosicion dims pagina coord.relX coord.relY = none)
    (hclick : detectarValorEnPosicion dims pagina click.relX click.relY = none) :
    ((hotkeysEntrada dims pagina coord).valor
        = some (.str ("numero_" ++ toString coord.numero)) ∧
      (hotkeysEntrada dims pagina coord).tipo = "apuesta") ∧
    ((manualEntrada dims pagina i click).valor = some (.str ("click_" ++ toString i)) ∧
      (manualEntrada dims pagina i click).tipo = "apuesta") ∧
    (∀ v lineas nd, grabacionConHotkeys true (some v) dims pagina lineas nd =
      nd ++ (coordenadasConfirmadas (hotkeysLineas v estadoInicialHotkeys lineas)).map
        (hotkeysEntrada dims pagina)) ∧
    (∀ v lineas nd, ∃ nuevas,
      grabacionManual true (some v) dims pagina lineas nd = nd ++ nuevas ∧
      nuevas.length = (lineas.foldl (manualLinea v) []).length ∧
      ∀ j c, (lineas.foldl (manualLinea v) [])[j]? = some c →
        nuevas[j]? = some (manualEntrada dims pagina j c)) := by
  refine ⟨⟨?_, ?_⟩, ⟨?_, ?_⟩, ?_, ?_⟩
  · simp [hotkeysEntrada, hcoord, valorOPlaceholder, oTexto]
  · simp [hotkeysEntrada, hcoord, tipoDeValor_none]
  · simp [manualEntrada, hclick, valorOPlaceholder, oTexto]
  · simp [manualEntrada, hclick, tipoDeValor_none]
  · intro v lineas nd
    simp [grabacionConHotkeys]
  · intro v lineas nd
    refine ⟨manualEntradas dims pagina 0 (lineas.foldl (manualLinea v) []), by
      simp [grabacionManual], manualEntradas_length dims pagina _ 0, ?_⟩
    intro j c hc
    have := manualEntradas_en_posicion dims pagina _ 0 j c hc
    simpa using this

theorem sonda_sin_valor_placeholder_witness :
    (hotkeysEntrada dimensionesPorDefecto (fun _ _ => none)
      ⟨7, 10, 10, 1 / 10, 1 / 10, 1000, true⟩).tipo = "apuesta" :=
  (sonda_sin_valor_placeholder dimensionesPorDefecto (fun _ _ => none)
    ⟨7, 10, 10, 1 / 10, 1 / 10, 1000, true⟩ 0 ⟨10, 10, 1 / 10, 1 / 10, 5, "firefox", "t"⟩
    rfl rfl).1.2

/-! ### Load precedence of the coordinate store -/

/-- C10, as stated, fails: when the four relative formats are missing and
`clicks_fisicos.json` is present and valid, but no browser window is detected,
nothing is loaded: the clicker keeps its initial, empty state. -/
theorem clicks_fisicos_sin_ventana_no_carga :
    cargarCoordenadasExistentes
      (fun nombre =>
        if nombre = "clicks_fisicos.json" then
          some ⟨none, none, none, none, some [⟨500, 500, some (.num 7), none, none, none⟩]⟩
        else none)
      none clickerInicial = clickerInicial := by
  simp [cargarCoordenadasExistentes, cargarFirefoxIntegrado, cargarNavegadorIntegrado,
    cargarConVentana, cargarClicksFisicos, convertirCoordenadasAbsolutas,
    detectarVentanaActual, clickerInicial]

/-- C10, amended: `cargarCoordenadasExistentes` tries
`coordenadas_firefox_integrado.json`, `coordenadas_navegador_integrado.json`,
`coordenadas_hibridas.json`, `coordenadas_relativas.json`, `clicks_fisicos.json` in
this order.  A relative format that is present and valid is loaded when every earlier
source is missing, corrupt or unparseable, whatever the later sources hold.  When
all four are missing, corrupt or unparseable, the clicks of `clicks_fisicos.json` are
loaded, converted to relative coordinates, if a browser window is detected at that
moment; if none is detected and none was held, nothing is loaded. -/
theorem cargar_precedencia (fs : Archivos) (salida : Option VentanaJuego) (s : Clicker) :
    (∀ d dim els, fs "coordenadas_firefox_integrado.json" = some d →
      d.dimensiones = some dim → d.elementos = some els →
      cargarCoordenadasExistentes fs salida s =
        ⟨some ⟨⟨0, 0, dim.width, dim.height⟩, some "firefox_integrado", d.modoIncognito⟩,
          some els⟩) ∧
    (fs "coordenadas_firefox_integrado.json" = none →
      ∀ d dim els, fs "coordenadas_navegador_integrado.json" = some d →
      d.dimensiones = some dim → d.elementos = some els →
      cargarCoordenadasExistentes fs salida s =
        ⟨some ⟨⟨0, 0, dim.width, dim.height⟩, some "chromium_integrado", none⟩,
          some els⟩) ∧
    (fs "coordenadas_firefox_integrado.json" = none →
      fs "coordenadas_navegador_integrado.json" = none →
      ∀ d els, fs "coordenadas_hibridas.json" = some d → d.elementos = some els →
      cargarCoordenadasExistentes fs salida s = ⟨d.ventana, some els⟩) ∧
    (fs "coordenadas_firefox_integrado.json" = none →
      fs "coordenadas_navegador_integrado.json" = none →
      fs "coordenadas_hibridas.json" = none →
      ∀ d els, fs "coordenadas_relativas.json" = some d → d.elementos = some els →
      cargarCoordenadasExistentes fs salida s = ⟨d.ventana, some els⟩) ∧
    (fs "coordenadas_firefox_integrado.json" = none →
      fs "coordenadas_navegador_integrado.json" = none →
      fs "coordenadas_hibridas.json" = none →
      fs "coordenadas_relativas.json" = none →
      ∀ d cs, fs "clicks_fisicos.json" = some d → d.clicks = some cs →
      (∀ v, salida = some v →
        cargarCoordenadasExistentes fs salida s =
          ⟨some v, some (cs.map (convertirClick v.toVentana))⟩) ∧
      (salida = none → s.ventanaJuego = none →
        cargarCoordenadasExistentes fs salida s = s)) := by
  refine ⟨?_, ?_, ?_, ?_, ?_⟩
  · intro d dim els h1 hdim hels
    simp [cargarCoordenadasExistentes, cargarFirefoxIntegrado, h1, hdim, hels]
  · intro h1 d dim els h2 hdim hels
    simp [cargarCoordenadasExistentes, cargarFirefoxIntegrado, cargarNavegadorIntegrado,
      h1, h2, hdim, hels]
  · intro h1 h2 d els h3 hels
    simp [cargarCoordenadasExistentes, cargarFirefoxIntegrado, cargarNavegadorIntegrado,
      cargarConVentana, h1, h2, h3, hels]
  · intro h1 h2 h3 d els h4 hels
    simp [cargarCoordenadasExistentes, cargarFirefoxIntegrado, cargarNavegadorIntegrado,
      cargarConVentana, h1, h2, h3, h4, hels]
  · intro h1 h2 h3 h4 d cs h5 hcs
    refine ⟨?_, ?_⟩
    · intro v hv
      simp [cargarCoordenadasExistentes, cargarFirefoxIntegrado, cargarNavegadorIntegrado,
        cargarConVentana, cargarClicksFisicos, convertirCoordenadasAbsolutas,
        detectarVentanaActual, h1, h2, h3, h4, h5, hcs, hv]
    · intro hsal hvj
      simp [cargarCoordenadasExistentes, cargarFirefoxIntegrado, cargarNavegadorIntegrado,
        cargarConVentana, cargarClicksFisicos, convertirCoordenadasAbsolutas,
        detectarVentanaActual, h1, h2, h3, h4, h5, hsal, hvj]

theorem cargar_precedencia_witness :
    cargarCoordenadasExistentes archivosDeEjemplo none clickerInicial =
      ⟨documentoHibrido.ventana, some elementosHibridos⟩ :=
  (cargar_precedencia archivosDeEjemplo none clickerInicial).2.2.1
    (by simp [archivosDeEjemplo]) (by simp [archivosDeEjemplo]) documentoHibrido
    elementosHibridos (by simp [archivosDeEjemplo]) rfl

/-! ### Partial sources -/

/-- C11, the code at the failing input: with `coordenadas_hibridas.json` holding a
window but no `elementos` and `clicks_fisicos.json` holding one click, and no browser
window detected, the loader ends with `ventanaJuego` taken from the hybrid file and
`coordenadasRelativas` taken from `clicks_fisicos.json`, converted against that
window; and when the partial hybrid file is the only file, every source fails and
yet the state differs from the one before the call: `ventanaJuego` holds the file's
window and `coordenadasRelativas` is `undefined`. -/
theorem carga_mezcla_fuentes_parciales :
    cargarCoordenadasExistentes archivosParciales none clickerInicial =
      ⟨some ventanaDeArchivo,
        some [convertirClick ventanaDeArchivo.toVentana
          ⟨410, 320, some (.num 9), none, none, none⟩]⟩ ∧
    cargarCoordenadasExistentes archivosSoloParcial none clickerInicial =
      ⟨some ventanaDeArchivo, none⟩ ∧
    cargarCoordenadasExistentes archivosSoloParcial none clickerInicial ≠ clickerInicial := by
  refine ⟨?_, ?_, ?_⟩
  · simp [cargarCoordenadasExistentes, cargarFirefoxIntegrado, cargarNavegadorIntegrado,
      cargarConVentana, cargarClicksFisicos, convertirCoordenadasAbsolutas,
      detectarVentanaActual, clickerInicial, archivosParciales]
  · simp [cargarCoordenadasExistentes, cargarFirefoxIntegrado, cargarNavegadorIntegrado,
      cargarConVentana, cargarClicksFisicos, convertirCoordenadasAbsolutas,
      detectarVentanaActual, clickerInicial, archivosSoloParcial]
  · simp [cargarCoordenadasExistentes, cargarFirefoxIntegrado, cargarNavegadorIntegrado,
      cargarConVentana, cargarClicksFisicos, convertirCoordenadasAbsolutas,
      detectarVentanaActual, clickerInicial, archivosSoloParcial]

/-! ### Selective purge -/

theorem claves_agregarAGrupo (g : Grupos) (m : String) (item : Elemento × ℕ) :
    (agregarAGrupo g m item).map Prod.fst =
      if m ∈ g.map Prod.fst then g.map Prod.fst else g.map Prod.fst ++ [m] := by
  induction g with
  | nil => simp [agregarAGrupo]
  | cons p resto ih =>
    obtain ⟨k, items⟩ := p
    by_cases hk : k = m
    · simp [agregarAGrupo, hk]
    · have hk' : ¬ m = k := fun h => hk h.symm
      by_cases hm : m ∈ resto.map Prod.fst
      · simp only [agregarAGrupo, hk, if_false, List.map_cons, ih, if_pos hm,
          List.mem_cons, hm, or_true, if_true]
      · simp only [agregarAGrupo, hk, if_false, List.map_cons, ih, if_neg hm,
          List.mem_cons, hm, or_false, hk', List.cons_append]

theorem claves_agrupar (cs : List Elemento) :
    ∀ (i : ℕ) (g : Grupos), (agrupar i cs g).map Prod.fst =
      cs.foldl (fun vistos coord =>
        if metodoDe coord ∈ vistos then vistos else vistos ++ [metodoDe coord])
        (g.map Prod.fst) := by
  induction cs with
  | nil => intro i g; rfl
  | cons c cs ih =>
    intro i g
    simp only [agrupar, List.foldl_cons]
    rw [ih, claves_agregarAGrupo]

theorem buscarGrupo_agregarAGrupo (m : String) (g : Grupos) (k : String)
    (item : Elemento × ℕ) :
    buscarGrupo m (agregarAGrupo g k item) =
      if k = m then buscarGrupo m g ++ [item] else buscarGrupo m g := by
  induction g with
  | nil =>
    by_cases hk : k = m
    · simp [agregarAGrupo, buscarGrupo, hk]
    · simp [agregarAGrupo, buscarGrupo, hk]
  | cons p resto ih =>
    obtain ⟨k', items⟩ := p
    by_cases h1 : k' = k
    · subst h1
      by_cases h2 : k' = m
      · simp [agregarAGrupo, buscarGrupo, h2]
      · simp [agregarAGrupo, buscarGrupo, h2]
    · by_cases h2 : k' = m
      · subst h2
        have h3 : ¬ k = k' := fun h => h1 h.symm
        simp [agregarAGrupo, buscarGrupo, h1, h3]
      · simp only [agregarAGrupo, h1, if_false, buscarGrupo, h2, ih]

theorem indices_agrupar (m : String) (cs : List Elemento) :
    ∀ (i : ℕ) (g : Grupos),
      (buscarGrupo m (agrupar i cs g)).map (fun item => item.2) =
        (buscarGrupo m g).map (fun item => item.2) ++ posiciones m i cs := by
  induction cs with
  | nil => intro i g; simp [agrupar, posiciones]
  | cons c cs ih =>
    intro i g
    simp only [agrupar, posiciones]
    rw [ih, buscarGrupo_agregarAGrupo]
    by_cases h : metodoDe c = m
    · simp [h]
    · simp [h]

theorem posiciones_cota (m : String) (cs : List Elemento) :
    ∀ (i : ℕ), ∀ j ∈ posiciones m i cs, i ≤ j := by
  induction cs with
  | nil => intro i j hj; simp [posiciones] at hj
  | cons c cs ih =>
    intro i j hj
    simp only [posiciones] at hj
    split at hj
    · rcases List.mem_cons.1 hj with hj | hj
      · omega
      · have := ih (i + 1) j hj
        omega
    · have := ih (i + 1) j hj
      omega

theorem posiciones_creciente (m : String) (cs : List Elemento) :
    ∀ (i : ℕ), (posiciones m i cs).Pairwise (· < ·) := by
  induction cs with
  | nil => intro i; simp [posiciones]
  | cons c cs ih =>
    intro i
    simp only [posiciones]
    split
    · refine List.pairwise_cons.2 ⟨?_, ih (i + 1)⟩
      intro j hj
      have := posiciones_cota m cs (i + 1) j hj
      omega
    · exact ih (i + 1)

theorem ordenarDescendente_creciente (l : List ℕ) (h : l.Pairwise (· < ·)) :
    ordenarDescendente l = l.reverse := by
  unfold ordenarDescendente
  apply List.eq_of_perm_of_sorted (r := (· ≥ ·))
  · exact (List.perm_insertionSort _ l).trans (List.reverse_perm l).symm
  · exact List.sorted_insertionSort _ l
  · rw [List.Sorted, List.pairwise_reverse]
    exact h.imp (fun hab => Nat.le_of_lt hab)

theorem eraseIdx_en_medio (pre : List Elemento) (c : Elemento) (l : List Elemento) :
    (pre ++ c :: l).eraseIdx pre.length = pre ++ l := by
  induction pre with
  | nil => rfl
  | cons p ps ih => simp [List.eraseIdx, ih]

theorem borrar_posiciones (m : String) (cs : List Elemento) :
    ∀ pre : List Elemento,
      (posiciones m pre.length cs).foldr (fun index lista => lista.eraseIdx index)
        (pre ++ cs) = pre ++ cs.filter (fun e => metodoDe e ≠ m) := by
  induction cs with
  | nil => intro pre; simp [posiciones]
  | cons c cs ih =>
    intro pre
    have hih := ih (pre ++ [c])
    simp only [List.length_append, List.length_singleton, List.append_assoc,
      List.singleton_append] at hih
    simp only [posiciones]
    by_cases h : metodoDe c = m
    · simp only [h, if_true, List.foldr_cons, hih]
      rw [eraseIdx_en_medio]
      simp [List.filter_cons, h]
    · simp only [h, if_false, hih]
      simp [List.filter_cons, h]

theorem limpiarSelectivo_filtra (toUpperCase : String → String)
    (nd : List Elemento) (seleccion confirmacion : String) (k : ℕ) (M : String)
    (hsel : parseIntTexto seleccion = some ((k : ℤ) + 1))
    (hM : (metodosDistintos nd)[k]? = some M)
    (hconf : esConfirmacion toUpperCase confirmacion = true) :
    limpiarSelectivo toUpperCase seleccion confirmacion nd =
      nd.filter (fun e => metodoDe e ≠ M) := by
  have hcl : (agrupar 0 nd []).map Prod.fst = metodosDistintos nd := by
    rw [claves_agrupar]; rfl
  have hk : k < (metodosDistintos nd).length := by
    rcases List.getElem?_eq_some.1 hM with ⟨h, _⟩
    exact h
  have hne : nd.length ≠ 0 := by
    intro h0
    have : nd = [] := List.length_eq_zero.1 h0
    subst this
    simp [metodosDistintos] at hk
  have hidx : (buscarGrupo M (agrupar 0 nd [])).map (fun item => item.2) =
      posiciones M 0 nd := by
    rw [indices_agrupar]; simp [buscarGrupo]
  have hborrar := borrar_posiciones M nd []
  simp only [List.length_nil, List.nil_append] at hborrar
  have h1 : ¬ ((k : ℤ) + 1 < 1 ∨ (k : ℤ) + 1 > ((metodosDistintos nd).length : ℤ) + 1) := by
    omega
  have h2 : ¬ ((k : ℤ) + 1 = ((metodosDistintos nd).length : ℤ) + 1) := by
    omega
  have h3 : ((k : ℤ) + 1 - 1).toNat = k := by
    simp
  simp only [limpiarSelectivo, hne, if_false, hsel, hcl, h1, h2, h3, hM, hconf, if_true,
    hidx, ordenarDescendente_creciente _ (posiciones_creciente M nd 0),
    List.foldl_reverse]
  exact hborrar

theorem limpiarSelectivo_sin_cambio (toUpperCase : String → String)
    (nd : List Elemento) (seleccion confirmacion : String)
    (h : esConfirmacion toUpperCase confirmacion = false ∨
      ¬ ∃ k : ℕ, parseIntTexto seleccion = some ((k : ℤ) + 1) ∧
        k < (metodosDistintos nd).length) :
    limpiarSelectivo toUpperCase seleccion confirmacion nd = nd := by
  have hcl : (agrupar 0 nd []).map Prod.fst = metodosDistintos nd := by
    rw [claves_agrupar]; rfl
  unfold limpiarSelectivo
  simp only [hcl]
  split
  · rfl
  · split
    · rfl
    · rename_i z hz
      split
      · rfl
      · rename_i hr
        split
        · rfl
        · rename_i hc
          split
          · rfl
          · rcases h with h | h
            · simp [h]
            · exfalso
              apply h
              refine ⟨(z - 1).toNat, ?_, ?_⟩
              · rw [hz]
                congr 1
                omega
              · omega

theorem mem_metodosDistintos (m : String) (cs : List Elemento) :
    ∀ vistos : List String,
      m ∈ cs.foldl (fun vistos coord =>
        if metodoDe coord ∈ vistos then vistos else vistos ++ [metodoDe coord]) vistos →
      m ∈ vistos ∨ ∃ e ∈ cs, metodoDe e = m := by
  induction cs with
  | nil => intro vistos h; exact Or.inl h
  | cons c cs ih =>
    intro vistos h
    simp only [List.foldl_cons] at h
    rcases ih _ h with h1 | ⟨e, he, hm⟩
    · by_cases hc : metodoDe c ∈ vistos
      · rw [if_pos hc] at h1
        exact Or.inl h1
      · rw [if_neg hc] at h1
        rcases List.mem_append.1 h1 with h2 | h2
        · exact Or.inl h2
        · rw [List.mem_singleton] at h2
          exact Or.inr ⟨c, List.mem_cons_self _ _, h2.symm⟩
    · exact Or.inr ⟨e, List.mem_cons_of_mem _ he, hm⟩

/-- C12: when the entries' methods are ordinary keys (as all methods the detector
writes are), the operator selects the group number `k + 1` of the method `M`, the
`k`-th of the distinct methods in order of first appearance (entries without a method
counting as `desconocido`), and confirms, `limpiarSelectivo` leaves exactly the
entries whose method is not `M`, in their original order and unaltered. -/
theorem limpiarSelectivo_deja_los_demas (toUpperCase : String → String)
    (nd : List Elemento) (seleccion confirmacion : String) (k : ℕ) (M : String)
    (_hclaves : ∀ e ∈ nd, claveOrdinaria (metodoDe e) = true)
    (hsel : parseIntTexto seleccion = some ((k : ℤ) + 1))
    (hM : (metodosDistintos nd)[k]? = some M)
    (hconf : esConfirmacion toUpperCase confirmacion = true) :
    limpiarSelectivo toUpperCase seleccion confirmacion nd =
      nd.filter (fun e => metodoDe e ≠ M) :=
  limpiarSelectivo_filtra toUpperCase nd seleccion confirmacion k M hsel hM hconf

theorem limpiarSelectivo_deja_los_demas_witness :
    limpiarSelectivo mayusculasAscii "1" " si "
      [entradaDeMetodo "firefox_integrado" 1, entradaDeMetodo "manual_firefox_mejorado" 2,
        entradaDeMetodo "firefox_integrado" 3, entradaDeMetodo "firefox_integrado" 4,
        entradaDeMetodo "manual_firefox_mejorado" 5] =
      [entradaDeMetodo "manual_firefox_mejorado" 2,
        entradaDeMetodo "manual_firefox_mejorado" 5] := by
  have h := limpiarSelectivo_deja_los_demas mayusculasAscii
    [entradaDeMetodo "firefox_integrado" 1, entradaDeMetodo "manual_firefox_mejorado" 2,
      entradaDeMetodo "firefox_integrado" 3, entradaDeMetodo "firefox_integrado" 4,
      entradaDeMetodo "manual_firefox_mejorado" 5] "1" " si " 0 "firefox_integrado"
    (by decide) (by decide) (by decide) (by decide)
  rw [h]
  simp [metodoDe, entradaDeMetodo, oTexto, List.filter]

/-- C13: both purges change `numerosDetectados` only on confirmation.  With an answer
that, trimmed and upper-cased, equals `SI`, `limpiarRegistros` empties the list and
`limpiarSelectivo` (for a valid selection) removes at least one entry; with any other
answer, and for a selection that is not a number, out of range or the `Cancelar`
item, the list is left as it was. -/
theorem purga_solo_con_confirmacion (toUpperCase : String → String) (nd : List Elemento)
    (_hclaves : ∀ e ∈ nd, claveOrdinaria (metodoDe e) = true) :
    (∀ r, esConfirmacion toUpperCase r = true → limpiarRegistros toUpperCase r nd = []) ∧
    (∀ r, esConfirmacion toUpperCase r = false → limpiarRegistros toUpperCase r nd = nd) ∧
    (∀ sel conf, esConfirmacion toUpperCase conf = false →
      limpiarSelectivo toUpperCase sel conf nd = nd) ∧
    (∀ sel conf,
      (¬ ∃ k : ℕ, parseIntTexto sel = some ((k : ℤ) + 1) ∧
        k < (metodosDistintos nd).length) →
      limpiarSelectivo toUpperCase sel conf nd = nd) ∧
    (∀ sel conf (k : ℕ), parseIntTexto sel = some ((k : ℤ) + 1) →
      k < (metodosDistintos nd).length → esConfirmacion toUpperCase conf = true →
      (limpiarSelectivo toUpperCase sel conf nd).length < nd.length) := by
  refine ⟨?_, ?_, ?_, ?_, ?_⟩
  · intro r hr
    unfold limpiarRegistros
    by_cases h0 : nd.length = 0
    · simp [h0, List.length_eq_zero.1 h0]
    · simp [h0, hr]
  · intro r hr
    unfold limpiarRegistros
    simp [hr]
  · intro sel conf hc
    exact limpiarSelectivo_sin_cambio toUpperCase nd sel conf (Or.inl hc)
  · intro sel conf hs
    exact limpiarSelectivo_sin_cambio toUpperCase nd sel conf (Or.inr hs)
  · intro sel conf k hsel hk hconf
    have hM : (metodosDistintos nd)[k]? = some ((metodosDistintos nd)[k]) :=
      List.getElem?_eq_getElem hk
    rw [limpiarSelectivo_filtra toUpperCase nd sel conf k _ hsel hM hconf]
    rw [List.length_filter_lt_length_iff_exists]
    have hmem : (metodosDistintos nd)[k] ∈ metodosDistintos nd := List.getElem_mem hk
    rcases mem_metodosDistintos _ nd [] hmem with h | ⟨e, he, hm⟩
    · simp at h
    · exact ⟨e, he, by simp [hm]⟩

theorem purga_solo_con_confirmacion_witness :
    limpiarRegistros mayusculasAscii "no"
        [entradaDeMetodo "firefox_integrado" 1, entradaDeMetodo "hotkeys_controlado" 2]
      = [entradaDeMetodo "firefox_integrado" 1, entradaDeMetodo "hotkeys_controlado" 2] ∧
    limpiarRegistros mayusculasAscii "si"
        [entradaDeMetodo "firefox_integrado" 1, entradaDeMetodo "hotkeys_controlado" 2]
      = [] :=
  have h := purga_solo_con_confirmacion mayusculasAscii
    [entradaDeMetodo "firefox_integrado" 1, entradaDeMetodo "hotkeys_controlado" 2]
    (by decide)
  ⟨h.2.1 "no" (by decide), h.1 "si" (by decide)⟩

/-! ### Replay -/

theorem bucleClicks_general (v : Ventana) (click : Clicks) (cs : List Elemento) :
    ∀ (i : ℕ) (intentos : List (ℤ × ℤ)) (exitosos : ℕ),
      bucleClicks v click i cs (intentos, exitosos) =
        (intentos ++ cs.map (fun c => objetivoEjecutar v c.coordenadas.relativas),
          exitosos + ((cs.enumFrom i).filter (fun p =>
            !(click p.1 (objetivoEjecutar v p.2.coordenadas.relativas).1
                (objetivoEjecutar v p.2.coordenadas.relativas).2).esRechazo)).length) := by
  induction cs with
  | nil => intro i intentos exitosos; simp [bucleClicks]
  | cons c cs ih =>
    intro i intentos exitosos
    simp only [bucleClicks, List.map_cons, List.enumFrom_cons, List.filter_cons]
    cases hc : click i (objetivoEjecutar v c.coordenadas.relativas).1
        (objetivoEjecutar v c.coordenadas.relativas).2 with
    | rechaza m =>
      simp only [ih, ResultadoClick.esRechazo, Bool.not_true, Bool.false_eq_true, if_false,
        List.append_assoc, List.singleton_append]
    | salida t =>
      simp only [ih, ResultadoClick.esRechazo, Bool.not_false, if_true, List.length_cons,
        List.append_assoc, List.singleton_append]
      congr 1
      omega

/-- C14: for every list of entries and every environment of clicks, the loop of
`ejecutarClicksAdaptativos` calls `ejecutarClickFisico` once for every entry, in
storage order, whichever of the calls throw, and counts as successes the entries
whose call did not throw; when the entries are not empty and a window is held after
the detection, the method reports these successes and `n - successes` failures. -/
theorem replay_intenta_todas (v : Ventana) (click : Clicks) (coords : List Elemento) :
    (bucleClicks v click 0 coords ([], 0)).1 =
      coords.map (fun c => objetivoEjecutar v c.coordenadas.relativas) ∧
    (bucleClicks v click 0 coords ([], 0)).2 =
      (coords.enum.filter (fun p =>
        !(click p.1 (objetivoEjecutar v p.2.coordenadas.relativas).1
            (objetivoEjecutar v p.2.coordenadas.relativas).2).esRechazo)).length ∧
    (∀ salida s vj, s.coordenadasRelativas = some coords → coords ≠ [] →
      (detectarVentanaActual salida s).ventanaJuego = some vj → vj.toVentana = v →
      (ejecutarClicksAdaptativos salida click s).2 =
        some { intentos := coords.map (fun c => objetivoEjecutar v c.coordenadas.relativas)
               clicksExitosos := (bucleClicks v click 0 coords ([], 0)).2
               clicksFallidos := coords.length - (bucleClicks v click 0 coords ([], 0)).2 }) := by
  have h := bucleClicks_general v click coords 0 [] 0
  refine ⟨?_, ?_, ?_⟩
  · rw [h]; simp
  · rw [h]; simp [List.enum]
  · intro salida s vj hs hne hv hvj
    have hlen : coords.length ≠ 0 := fun h0 => hne (List.length_eq_zero.1 h0)
    simp only [ejecutarClicksAdaptativos, hs, hlen, if_false, hv, hvj]
    rw [h]
    simp

theorem replay_intenta_todas_witness :
    (ejecutarClicksAdaptativos (some ⟨⟨0, 0, 1000, 500⟩, some "firefox", none⟩)
      clicksConTerceroFallido
      ⟨none, some [entradaEn (1 / 10) (1 / 10), entradaEn (2 / 10) (2 / 10),
        entradaEn (3 / 10) (3 / 10), entradaEn (4 / 10) (4 / 10),
        entradaEn (5 / 10) (5 / 10)]⟩).2 =
      some { intentos := [(100, 50), (200, 100), (300, 150), (400, 200), (500, 250)]
             clicksExitosos := 4
             clicksFallidos := 1 } := by
  have h := (replay_intenta_todas ⟨0, 0, 1000, 500⟩ clicksConTerceroFallido
    [entradaEn (1 / 10) (1 / 10), entradaEn (2 / 10) (2 / 10),
      entradaEn (3 / 10) (3 / 10), entradaEn (4 / 10) (4 / 10),
      entradaEn (5 / 10) (5 / 10)]).2.2
    (some ⟨⟨0, 0, 1000, 500⟩, some "firefox", none⟩)
    ⟨none, some [entradaEn (1 / 10) (1 / 10), entradaEn (2 / 10) (2 / 10),
      entradaEn (3 / 10) (3 / 10), entradaEn (4 / 10) (4 / 10),
      entradaEn (5 / 10) (5 / 10)]⟩
    ⟨⟨0, 0, 1000, 500⟩, some "firefox", none⟩ rfl (by simp) rfl rfl
  rw [h]
  simp only [List.map_cons, List.map_nil, objetivoEjecutar, entradaEn, bucleClicks,
    clicksConTerceroFallido]
  norm_num [Math.round]

/-- C15, the code at the failing input: with one entry and a window detected, a
click script whose output is `CLICK_ERROR: ...`, and likewise one that ends in
`TIMEOUT`, is counted as a successful click: the summary shows 1 success and 0
failures. -/
theorem click_con_error_cuenta_como_exito :
    (ejecutarClicksAdaptativos (some ⟨⟨0, 0, 1000, 500⟩, some "firefox", none⟩)
      clicksConError ⟨none, some [entradaEn (1 / 10) (1 / 10)]⟩).2 =
      some { intentos := [(100, 50)], clicksExitosos := 1, clicksFallidos := 0 } ∧
    (ejecutarClicksAdaptativos (some ⟨⟨0, 0, 1000, 500⟩, some "firefox", none⟩)
      clicksConTimeout ⟨none, some [entradaEn (1 / 10) (1 / 10)]⟩).2 =
      some { intentos := [(100, 50)], clicksExitosos := 1, clicksFallidos := 0 } := by
  constructor
  · simp only [ejecutarClicksAdaptativos, detectarVentanaActual, bucleClicks, clicksConError,
      objetivoEjecutar, entradaEn]
    norm_num [Math.round]
  · simp only [ejecutarClicksAdaptativos, detectarVentanaActual, bucleClicks,
      clicksConTimeout, objetivoEjecutar, entradaEn]
    norm_num [Math.round]

/-- C16, the code at the failing input: the clicker loaded an export of the detector
at start-up, so it holds the window (0, 0, 1280, 720) and one entry at its centre; the
window location made before the replay finds no window, and still a click is issued,
at (640, 360), computed from the window held. -/
theorem replay_con_ventana_anterior :
    cargarCoordenadasExistentes archivosExportados none clickerInicial = clickerCargado ∧
    (ejecutarClicksAdaptativos none clicksCorrectos clickerCargado).2 =
      some { intentos := [(640, 360)], clicksExitosos := 1, clicksFallidos := 0 } := by
  constructor
  · simp [cargarCoordenadasExistentes, cargarFirefoxIntegrado, archivosExportados,
      clickerInicial, clickerCargado]
  · simp only [ejecutarClicksAdaptativos, detectarVentanaActual, bucleClicks,
      clicksCorrectos, objetivoEjecutar, entradaEn, clickerCargado]
    norm_num [Math.round]

/-! ### What a hotkey session appends -/

theorem confirmarEncontrada_mem (num : ℤ) (cs : List CoordGrabada) :
    ∀ c ∈ confirmarEncontrada num cs, ∃ d ∈ cs, c = d ∨ c = { d with confirmado := true } := by
  induction cs with
  | nil => intro c hc; simp [confirmarEncontrada] at hc
  | cons d ds ih =>
    intro c hc
    simp only [confirmarEncontrada] at hc
    split at hc
    · rcases List.mem_cons.1 hc with hc | hc
      · exact ⟨d, List.mem_cons_self _ _, Or.inr hc⟩
      · exact ⟨c, List.mem_cons_of_mem _ hc, Or.inl rfl⟩
    · rcases List.mem_cons.1 hc with hc | hc
      · exact ⟨d, List.mem_cons_self _ _, Or.inl hc⟩
      · rcases ih c hc with ⟨e, he, hce⟩
        exact ⟨e, List.mem_cons_of_mem _ he, hce⟩

theorem hotkeysLineas_origen (v : Ventana) (todas : List LineaHotkeys)
    (lineas : List LineaHotkeys) :
    (∀ l ∈ lineas, l ∈ todas) →
    ∀ s : EstadoHotkeys,
      (∀ c ∈ s.coordenadasGrabadas,
        LineaHotkeys.clickRecorded c.x c.y c.numero c.timestamp ∈ todas ∧
        dentroDeVentana v c.x c.y ∧ c.relX = (relativasDeClick v c.x c.y).x ∧
        c.relY = (relativasDeClick v c.x c.y).y) →
      ∀ c ∈ (hotkeysLineas v s lineas).coordenadasGrabadas,
        LineaHotkeys.clickRecorded c.x c.y c.numero c.timestamp ∈ todas ∧
        dentroDeVentana v c.x c.y ∧ c.relX = (relativasDeClick v c.x c.y).x ∧
        c.relY = (relativasDeClick v c.x c.y).y := by
  induction lineas with
  | nil => intro _ s h; exact h
  | cons l ls ih =>
    intro hsub s h
    have hl : l ∈ todas := hsub l (List.mem_cons_self _ _)
    have hls : ∀ l' ∈ ls, l' ∈ todas := fun l' hl' => hsub l' (List.mem_cons_of_mem _ hl')
    simp only [hotkeysLineas, List.foldl_cons]
    apply ih hls
    cases l with
    | clickRecorded x y num ahora =>
      by_cases hd : dentroDeVentana v x y
      · rw [hotkeysLinea_dentro v x y num ahora s hd]
        intro c hc
        rcases List.mem_append.1 hc with hc | hc
        · exact h c hc
        · rw [List.mem_singleton] at hc
          subst hc
          exact ⟨hl, hd, rfl, rfl⟩
      · rw [hotkeysLinea_fuera v x y num ahora s hd]
        exact h
    | stopRecording num =>
      intro c hc
      rcases confirmarEncontrada_mem num _ c hc with ⟨d, hd, hcd | hcd⟩
      · subst hcd; exact h c hd
      · subst hcd; exact h d hd
    | hotkeyCaptureStarted => exact h
    | startRecording num => exact h
    | quitRequested => exact h
    | hotkeyCaptureStopped => exact h
    | otra => exact h

theorem confirmadas_confirmarEncontrada_perm (n : ℤ) (cs : List CoordGrabada) :
    ((confirmarEncontrada n cs).filter (fun c => c.confirmado)).Perm
      (cs.filter (fun c => c.confirmado) ++
        ((primeraPendiente n cs).map fun c => { c with confirmado := true }).toList) := by
  induction cs with
  | nil => simp [confirmarEncontrada, primeraPendiente]
  | cons d ds ih =>
    by_cases hc : (d.numero == n && !d.confirmado) = true
    · have hdc : d.confirmado = false := by
        simp only [Bool.and_eq_true, Bool.not_eq_true'] at hc
        exact hc.2
      have e1 : confirmarEncontrada n (d :: ds) = { d with confirmado := true } :: ds := by
        simp only [confirmarEncontrada, hc, if_true]
      have e2 : primeraPendiente n (d :: ds) = some d := by
        simp only [primeraPendiente, List.find?_cons, hc]
      have e3 : (d :: ds).filter (fun c => c.confirmado) =
          ds.filter (fun c => c.confirmado) := by
        simp [List.filter_cons, hdc]
      rw [e1, e2, e3, List.filter_cons_of_pos (by rfl)]
      exact (List.perm_append_singleton _ _).symm
    · have hc' : (d.numero == n && !d.confirmado) = false := by
        simpa using hc
      simp only [primeraPendiente] at ih
      simp only [confirmarEncontrada, hc', primeraPendiente, List.find?_cons, List.filter_cons,
        Bool.false_eq_true, if_false]
      by_cases hdc : d.confirmado = true
      · simp only [hdc, if_true, List.cons_append]
        exact List.Perm.cons _ ih
      · simp only [hdc, Bool.false_eq_true, if_false]
        exact ih

theorem confirmadas_perm (v : Ventana) (lineas : List LineaHotkeys) :
    ∀ s : EstadoHotkeys,
      (coordenadasConfirmadas (hotkeysLineas v s lineas)).Perm
        (coordenadasConfirmadas s ++ ordenDeConfirmacion v s lineas) := by
  induction lineas with
  | nil => intro s; simp [hotkeysLineas, ordenDeConfirmacion]
  | cons l ls ih =>
    intro s
    have hih := ih (hotkeysLinea v s l)
    simp only [hotkeysLineas, List.foldl_cons] at hih ⊢
    refine hih.trans ?_
    cases l with
    | stopRecording num =>
      have hk := confirmadas_confirmarEncontrada_perm num s.coordenadasGrabadas
      have hk2 := hk.append_right
        (ordenDeConfirmacion v (hotkeysLinea v s (.stopRecording num)) ls)
      cases hpp : primeraPendiente num s.coordenadasGrabadas with
      | none =>
        simp only [hpp, Option.map_none', Option.toList_none, List.append_nil] at hk2
        simpa [ordenDeConfirmacion, hpp, hotkeysLinea, coordenadasConfirmadas] using hk2
      | some c =>
        simp only [hpp, Option.map_some', Option.toList_some, List.append_assoc,
          List.singleton_append] at hk2
        simpa [ordenDeConfirmacion, hpp, hotkeysLinea, coordenadasConfirmadas] using hk2
    | clickRecorded x y num ahora =>
      by_cases hd : dentroDeVentana v x y
      · simp [coordenadasConfirmadas, ordenDeConfirmacion, List.filter_append,
          hotkeysLinea_dentro v x y num ahora s hd]
      · simp [ordenDeConfirmacion, hotkeysLinea_fuera v x y num ahora s hd]
    | hotkeyCaptureStarted => simp [ordenDeConfirmacion, hotkeysLinea, coordenadasConfirmadas]
    | startRecording num => simp [ordenDeConfirmacion, hotkeysLinea, coordenadasConfirmadas]
    | quitRequested => simp [ordenDeConfirmacion, hotkeysLinea]
    | hotkeyCaptureStopped => simp [ordenDeConfirmacion, hotkeysLinea]
    | otra => simp [ordenDeConfirmacion, hotkeysLinea]

theorem sin_stop_no_confirma (v : Ventana) (lineas : List LineaHotkeys)
    (h : ∀ l ∈ lineas, esStop l = false) :
    ∀ s : EstadoHotkeys,
      coordenadasConfirmadas (hotkeysLineas v s lineas) = coordenadasConfirmadas s := by
  induction lineas with
  | nil => intro s; rfl
  | cons l ls ih =>
    intro s
    have hl := h l (List.mem_cons_self _ _)
    have hih := ih (fun l' hl' => h l' (List.mem_cons_of_mem _ hl')) (hotkeysLinea v s l)
    simp only [hotkeysLineas, List.foldl_cons] at hih ⊢
    rw [hih]
    cases l with
    | stopRecording num => simp [esStop] at hl
    | clickRecorded x y num ahora =>
      by_cases hd : dentroDeVentana v x y
      · simp [coordenadasConfirmadas, List.filter_append,
          hotkeysLinea_dentro v x y num ahora s hd]
      · rw [hotkeysLinea_fuera v x y num ahora s hd]
    | hotkeyCaptureStarted => rfl
    | startRecording num => rfl
    | quitRequested => rfl
    | hotkeyCaptureStopped => rfl
    | otra => rfl

theorem ordenDeConfirmacion_length (v : Ventana) (lineas : List LineaHotkeys) :
    ∀ s : EstadoHotkeys, (ordenDeConfirmacion v s lineas).length ≤ lineas.countP esStop := by
  induction lineas with
  | nil => intro s; simp [ordenDeConfirmacion]
  | cons l ls ih =>
    intro s
    have hih := ih (hotkeysLinea v s l)
    cases l with
    | stopRecording num =>
      cases hpp : primeraPendiente num s.coordenadasGrabadas with
      | none =>
        simp only [ordenDeConfirmacion, hpp, List.countP_cons, esStop, if_true]
        omega
      | some c =>
        simp only [ordenDeConfirmacion, hpp, List.countP_cons, esStop, if_true,
          List.length_cons]
        omega
    | clickRecorded x y num ahora => simpa [ordenDeConfirmacion, List.countP_cons, esStop] using hih
    | hotkeyCaptureStarted => simpa [ordenDeConfirmacion, List.countP_cons, esStop] using hih
    | startRecording num => simpa [ordenDeConfirmacion, List.countP_cons, esStop] using hih
    | quitRequested => simpa [ordenDeConfirmacion, List.countP_cons, esStop] using hih
    | hotkeyCaptureStopped => simpa [ordenDeConfirmacion, List.countP_cons, esStop] using hih
    | otra => simpa [ordenDeConfirmacion, List.countP_cons, esStop] using hih

theorem grabacionConHotkeys_conectado (v : Ventana) (dims : Dimensiones)
    (pagina : ℚ → ℚ → Option String) (lineas : List LineaHotkeys) (nd : List Elemento) :
    grabacionConHotkeys true (some v) dims pagina lineas nd =
      nd ++ (coordenadasConfirmadas (hotkeysLineas v estadoInicialHotkeys lineas)).map
        (hotkeysEntrada dims pagina) := by
  simp [grabacionConHotkeys]

/-- C17: when a hotkey session ends, `numerosDetectados` is its previous content,
unchanged and in front, followed by the entries of exactly the clicks that a
`STOP_RECORDING` line confirmed during the session (for each such line, the first
click of its number still unconfirmed when it arrived), so by no more entries than
there were `STOP_RECORDING` lines.  Each new entry carries the absolute point of its
click, which lay in the window, and the relative point computed from it.  Clicks that
no `STOP_RECORDING` line follows are discarded: lines without a stop, received after
the others, change nothing in what the session appends. -/
theorem sesion_hotkeys_agrega_confirmadas (v : Ventana) (dims : Dimensiones)
    (pagina : ℚ → ℚ → Option String) (lineas : List LineaHotkeys) (nd : List Elemento) :
    (grabacionConHotkeys true (some v) dims pagina lineas nd).take nd.length = nd ∧
    ((grabacionConHotkeys true (some v) dims pagina lineas nd).drop nd.length).Perm
      ((ordenDeConfirmacion v estadoInicialHotkeys lineas).map
        (hotkeysEntrada dims pagina)) ∧
    ((grabacionConHotkeys true (some v) dims pagina lineas nd).drop nd.length).length ≤
      lineas.countP esStop ∧
    (∀ e ∈ (grabacionConHotkeys true (some v) dims pagina lineas nd).drop nd.length,
      ∃ x y num ahora, LineaHotkeys.clickRecorded x y num ahora ∈ lineas ∧
        dentroDeVentana v x y ∧
        e.coordenadas = ⟨relativasDeClick v x y, ⟨x, y⟩⟩ ∧
        e.numeroGrabacion = some num ∧ e.timestamp = some ahora) ∧
    (∀ enVuelo, (∀ l ∈ enVuelo, esStop l = false) →
      grabacionConHotkeys true (some v) dims pagina (lineas ++ enVuelo) nd =
        grabacionConHotkeys true (some v) dims pagina lineas nd) := by
  have hperm := confirmadas_perm v lineas estadoInicialHotkeys
  have hvacio : coordenadasConfirmadas estadoInicialHotkeys = [] := by
    simp [coordenadasConfirmadas, estadoInicialHotkeys]
  rw [hvacio, List.nil_append] at hperm
  refine ⟨?_, ?_, ?_, ?_, ?_⟩
  · rw [grabacionConHotkeys_conectado, List.take_left]
  · rw [grabacionConHotkeys_conectado, List.drop_left]
    exact hperm.map _
  · rw [grabacionConHotkeys_conectado, List.drop_left, List.length_map, hperm.length_eq]
    exact ordenDeConfirmacion_length v lineas estadoInicialHotkeys
  · rw [grabacionConHotkeys_conectado, List.drop_left]
    intro e he
    rcases List.mem_map.1 he with ⟨c, hc, rfl⟩
    have hc' : c ∈ (hotkeysLineas v estadoInicialHotkeys lineas).coordenadasGrabadas :=
      (List.mem_filter.1 hc).1
    obtain ⟨h1, h2, h3, h4⟩ := hotkeysLineas_origen v lineas lineas (fun l hl => hl)
      estadoInicialHotkeys (by simp [estadoInicialHotkeys]) c hc'
    refine ⟨c.x, c.y, c.numero, c.timestamp, h1, h2, ?_, rfl, rfl⟩
    simp only [hotkeysEntrada, h3, h4]
  · intro enVuelo hv
    rw [grabacionConHotkeys_conectado, grabacionConHotkeys_conectado, hotkeysLineas_append,
      sin_stop_no_confirma v enVuelo hv]

/-! ### The order of the entries of a session -/

theorem bucleScript_protocolo (pasos : List PasoScript) :
    ∀ (g : Bool) (n : ℤ) (sal : Bool),
      sigueProtocolo g n (bucleScript ⟨g, n, sal⟩ pasos) := by
  induction pasos with
  | nil =>
    intro g n sal
    simp only [bucleScript]
    split <;> simp [sigueProtocolo]
  | cons p ps ih =>
    intro g n sal
    obtain ⟨tl, q, sp, ep, bot, arch, ahora⟩ := p
    cases sal <;> cases g <;> cases tl <;> cases q <;> cases sp <;> cases ep <;>
      cases arch <;> cases bot <;>
      simp [bucleScript, pasoScript, sigueProtocolo] <;> exact ih _ _ _

theorem stops_del_protocolo (lineas : List LineaHotkeys) :
    ∀ (g : Bool) (n : ℤ), sigueProtocolo g n lineas →
      (∀ l ∈ lineas.filter esStop, ∃ m, l = .stopRecording m ∧ n ≤ m) ∧
      (lineas.filter esStop).Nodup := by
  induction lineas with
  | nil => intro g n _; simp
  | cons l ls ih =>
    intro g n hp
    cases l with
    | stopRecording num =>
      obtain ⟨_, hnum, hresto⟩ := hp
      obtain ⟨h1, h2⟩ := ih false (n + 1) hresto
      subst hnum
      simp only [List.filter_cons, esStop, if_true]
      refine ⟨?_, ?_⟩
      · intro l hl
        rcases List.mem_cons.1 hl with hl | hl
        · exact ⟨num, hl, le_refl _⟩
        · obtain ⟨m, hm, hle⟩ := h1 l hl
          exact ⟨m, hm, by omega⟩
      · refine List.nodup_cons.2 ⟨?_, h2⟩
        intro hmem
        obtain ⟨m, hm, hle⟩ := h1 _ hmem
        injection hm with hm
        omega
    | startRecording num => exact ih true n hp.2.2
    | clickRecorded x y num ahora => exact ih g n hp.2.2
    | hotkeyCaptureStarted => exact ih g n hp
    | quitRequested => exact ih g n hp
    | hotkeyCaptureStopped => exact ih g n hp
    | otra => exact ih g n hp

/-- C7: the script prints `STOP_RECORDING` only while it is recording, and a stop ends
the recording.  So after a press of S, one or more clicks in the window and a press of
E for entry `n`, which print `START_RECORDING:n`, the click lines and
`STOP_RECORDING:n`, a further pass without S (a second press of E among them) prints
no start, click or stop line: the handler receives no second `STOP_RECORDING:n`, its
state (the recording flag, the list of recorded clicks) is the one the first stop
left, and exactly one more coordinate is confirmed than before the start.  In no run
of the script are two `STOP_RECORDING` lines printed with the same number. -/
theorem segundo_stop_es_nulo (v : Ventana) (n : ℤ) (clicks : List (ℤ × ℤ × ℤ))
    (hk : clicks ≠ []) (hd : ∀ c ∈ clicks, dentroDeVentana v c.1 c.2.1)
    (p : PasoScript) (hs : p.sPressed = false) (s : EstadoHotkeys) :
    bucleScript ⟨false, n, false⟩ (pasoInicio :: clicks.map pasoDeClick ++ [pasoFin]) =
      .startRecording n :: clicks.map (lineaDeClick n) ++ [.stopRecording n] ∧
    bucleScript ⟨false, n, false⟩ (pasoInicio :: clicks.map pasoDeClick ++ [pasoFin, p]) =
      (.startRecording n :: clicks.map (lineaDeClick n) ++ [.stopRecording n]) ++
        ((if p.teclasLeidas && p.qPressed then [.quitRequested] else []) ++
          (if (p.teclasLeidas && p.qPressed) || p.archivoDeParada then
            [.hotkeyCaptureStopped] else [])) ∧
    hotkeysLineas v s
        (bucleScript ⟨false, n, false⟩ (pasoInicio :: clicks.map pasoDeClick ++ [pasoFin, p])) =
      hotkeysLineas v s
        (bucleScript ⟨false, n, false⟩ (pasoInicio :: clicks.map pasoDeClick ++ [pasoFin])) ∧
    (coordenadasConfirmadas (hotkeysLineas v s
        (bucleScript ⟨false, n, false⟩
          (pasoInicio :: clicks.map pasoDeClick ++ [pasoFin, p])))).length =
      (coordenadasConfirmadas s).length + 1 ∧
    (∀ pasos, ((salidaScript pasos).filter esStop).Nodup) := by
  have h1 : bucleScript ⟨false, n, false⟩ (pasoInicio :: clicks.map pasoDeClick ++ [pasoFin]) =
      .startRecording n :: clicks.map (lineaDeClick n) ++ [.stopRecording n] := by
    rw [bucleScript_inicio_clicks_fin]
    simp [bucleScript]
  have h2 : bucleScript ⟨false, n, false⟩
      (pasoInicio :: clicks.map pasoDeClick ++ [pasoFin, p]) =
      (.startRecording n :: clicks.map (lineaDeClick n) ++ [.stopRecording n]) ++
        ((if p.teclasLeidas && p.qPressed then [.quitRequested] else []) ++
          (if (p.teclasLeidas && p.qPressed) || p.archivoDeParada then
            [.hotkeyCaptureStopped] else [])) := by
    rw [bucleScript_inicio_clicks_fin, bucleScript_sin_inicio (n + 1) p hs]
  have h3 : hotkeysLineas v s
        (bucleScript ⟨false, n, false⟩ (pasoInicio :: clicks.map pasoDeClick ++ [pasoFin, p])) =
      hotkeysLineas v s
        (bucleScript ⟨false, n, false⟩ (pasoInicio :: clicks.map pasoDeClick ++ [pasoFin])) := by
    rw [h2, h1, hotkeysLineas_append]
    apply hotkeysLineas_sin_efecto
    intro l hl
    rcases List.mem_append.1 hl with hl | hl
    · split at hl
      · rw [List.mem_singleton] at hl
        exact Or.inl hl
      · simp at hl
    · split at hl
      · rw [List.mem_singleton] at hl
        exact Or.inr hl
      · simp at hl
  refine ⟨h1, h2, h3, ?_, ?_⟩
  · rw [h3, h1]
    exact cuenta_inicio_clicks_fin v n clicks hk hd s
  · intro pasos
    have hp : sigueProtocolo false 1 (salidaScript pasos) := by
      simp only [salidaScript, sigueProtocolo, estadoInicialScript]
      exact bucleScript_protocolo pasos false 1 false
    exact (stops_del_protocolo (salidaScript pasos) false 1 hp).2

theorem segundo_stop_es_nulo_witness :
    hotkeysLineas ⟨0, 0, 100, 100⟩ estadoInicialHotkeys
        (bucleScript ⟨false, 1, false⟩
          (pasoInicio :: [(10, 10, 1000), (20, 20, 2000)].map pasoDeClick ++
            [pasoFin, pasoFin])) =
      hotkeysLineas ⟨0, 0, 100, 100⟩ estadoInicialHotkeys
        (bucleScript ⟨false, 1, false⟩
          (pasoInicio :: [(10, 10, 1000), (20, 20, 2000)].map pasoDeClick ++ [pasoFin])) :=
  (segundo_stop_es_nulo ⟨0, 0, 100, 100⟩ 1 [(10, 10, 1000), (20, 20, 2000)] (by simp)
    (by simp [dentroDeVentana]; norm_num) pasoFin rfl estadoInicialHotkeys).2.2.1

theorem numeros_confirmarEncontrada (n : ℤ) (cs : List CoordGrabada) :
    (confirmarEncontrada n cs).map (fun c => c.numero) = cs.map (fun c => c.numero) := by
  induction cs with
  | nil => rfl
  | cons d ds ih =>
    simp only [confirmarEncontrada]
    split
    · simp
    · simp [ih]

theorem confirmadas_confirmarEncontrada (n : ℤ) (cs : List CoordGrabada)
    (h : invarianteHotkeys n cs) :
    (confirmarEncontrada n cs).filter (fun c => c.confirmado) =
      cs.filter (fun c => c.confirmado) ++
        ((primeraPendiente n cs).map fun c => { c with confirmado := true }).toList := by
  induction cs with
  | nil => simp [confirmarEncontrada, primeraPendiente]
  | cons d ds ih =>
    obtain ⟨hord, hmax, hconf⟩ := h
    have hord' := List.pairwise_cons.1 hord
    have hds : invarianteHotkeys n ds :=
      ⟨hord'.2, fun c hc => hmax c (List.mem_cons_of_mem _ hc),
        fun c hc => hconf c (List.mem_cons_of_mem _ hc)⟩
    by_cases hc : (d.numero == n && !d.confirmado) = true
    · have hdn : d.numero = n := by
        simp only [Bool.and_eq_true, beq_iff_eq] at hc
        exact hc.1
      have hdc : d.confirmado = false := by
        simp only [Bool.and_eq_true, Bool.not_eq_true'] at hc
        exact hc.2
      have hresto : ds.filter (fun c => c.confirmado) = [] := by
        rw [List.filter_eq_nil_iff]
        intro x hx hxc
        have h1 := hord'.1 x hx
        have h2 := hmax x (List.mem_cons_of_mem _ hx)
        have h3 := hconf x (List.mem_cons_of_mem _ hx) hxc
        omega
      simp [confirmarEncontrada, primeraPendiente, List.find?_cons, hdn, hdc, hresto,
        List.filter_cons]
    · have hc' : (d.numero == n && !d.confirmado) = false := by
        simpa using hc
      have hih := ih hds
      simp only [primeraPendiente] at hih
      simp only [confirmarEncontrada, hc', primeraPendiente, List.find?_cons, List.filter_cons]
      by_cases hdc : d.confirmado = true
      · simp [hdc, hih]
      · simp [hdc, hih]

theorem invarianteHotkeys_linea (v : Ventana) (l : LineaHotkeys) (ls : List LineaHotkeys)
    (g : Bool) (n : ℤ) (s : EstadoHotkeys)
    (hp : sigueProtocolo g n (l :: ls)) (h : invarianteHotkeys n s.coordenadasGrabadas) :
    ∃ g' n', sigueProtocolo g' n' ls ∧
      invarianteHotkeys n' (hotkeysLinea v s l).coordenadasGrabadas := by
  cases l with
  | hotkeyCaptureStarted => exact ⟨g, n, hp, h⟩
  | quitRequested => exact ⟨g, n, hp, h⟩
  | hotkeyCaptureStopped => exact ⟨g, n, hp, h⟩
  | otra => exact ⟨g, n, hp, h⟩
  | startRecording num => exact ⟨true, n, hp.2.2, h⟩
  | clickRecorded x y num ahora =>
    obtain ⟨_, hnum, hresto⟩ := hp
    refine ⟨g, n, hresto, ?_⟩
    by_cases hd : dentroDeVentana v x y
    · rw [hotkeysLinea_dentro v x y num ahora s hd]
      obtain ⟨hord, hmax, hconf⟩ := h
      refine ⟨?_, ?_, ?_⟩
      · rw [List.pairwise_append]
        refine ⟨hord, List.pairwise_singleton _ _, ?_⟩
        intro a ha b hb
        rw [List.mem_singleton] at hb
        subst hb
        simpa [hnum] using hmax a ha
      · intro c hc
        rcases List.mem_append.1 hc with hc | hc
        · exact hmax c hc
        · rw [List.mem_singleton] at hc
          subst hc
          simp [hnum]
      · intro c hc hcc
        rcases List.mem_append.1 hc with hc | hc
        · exact hconf c hc hcc
        · rw [List.mem_singleton] at hc
          subst hc
          simp at hcc
    · rw [hotkeysLinea_fuera v x y num ahora s hd]
      exact h
  | stopRecording num =>
    obtain ⟨_, hnum, hresto⟩ := hp
    refine ⟨false, n + 1, hresto, ?_⟩
    obtain ⟨hord, hmax, hconf⟩ := h
    have hnums := numeros_confirmarEncontrada num s.coordenadasGrabadas
    have hmax' : ∀ c ∈ confirmarEncontrada num s.coordenadasGrabadas, c.numero ≤ n := by
      intro c hc
      rcases confirmarEncontrada_mem num _ c hc with ⟨d, hd, hcd | hcd⟩
      · subst hcd; exact hmax c hd
      · subst hcd; exact hmax d hd
    refine ⟨?_, ?_, ?_⟩
    · have h1 : (s.coordenadasGrabadas.map (fun c => c.numero)).Pairwise (· ≤ ·) :=
        List.pairwise_map.2 hord
      rw [← hnums] at h1
      exact List.pairwise_map.1 h1
    · intro c hc
      have := hmax' c hc
      omega
    · intro c hc _
      have := hmax' c hc
      omega

theorem confirmadas_en_orden (v : Ventana) (lineas : List LineaHotkeys) :
    ∀ (g : Bool) (n : ℤ) (s : EstadoHotkeys), sigueProtocolo g n lineas →
      invarianteHotkeys n s.coordenadasGrabadas →
      coordenadasConfirmadas (hotkeysLineas v s lineas) =
        coordenadasConfirmadas s ++ ordenDeConfirmacion v s lineas := by
  induction lineas with
  | nil => intro g n s _ _; simp [hotkeysLineas, ordenDeConfirmacion]
  | cons l ls ih =>
    intro g n s hp h
    obtain ⟨g', n', hp', h'⟩ := invarianteHotkeys_linea v l ls g n s hp h
    have hih := ih g' n' (hotkeysLinea v s l) hp' h'
    simp only [hotkeysLineas, List.foldl_cons] at hih ⊢
    rw [hih]
    cases l with
    | stopRecording num =>
      have hnum : num = n := hp.2.1
      subst hnum
      have hk := confirmadas_confirmarEncontrada num s.coordenadasGrabadas h
      simp only [coordenadasConfirmadas, hotkeysLinea] at hk ⊢
      rw [hk]
      cases hpp : primeraPendiente num s.coordenadasGrabadas with
      | none => simp [ordenDeConfirmacion, hpp, hotkeysLinea]
      | some c => simp [ordenDeConfirmacion, hpp, hotkeysLinea]
    | clickRecorded x y num ahora =>
      by_cases hd : dentroDeVentana v x y
      · rw [hotkeysLinea_dentro v x y num ahora s hd]
        simp [coordenadasConfirmadas, ordenDeConfirmacion, List.filter_append,
          hotkeysLinea_dentro v x y num ahora s hd]
      · rw [hotkeysLinea_fuera v x y num ahora s hd]
        simp [ordenDeConfirmacion, hotkeysLinea_fuera v x y num ahora s hd]
    | hotkeyCaptureStarted => simp [ordenDeConfirmacion, hotkeysLinea, coordenadasConfirmadas]
    | startRecording num => simp [ordenDeConfirmacion, hotkeysLinea, coordenadasConfirmadas]
    | quitRequested => simp [ordenDeConfirmacion, hotkeysLinea]
    | hotkeyCaptureStopped => simp [ordenDeConfirmacion, hotkeysLinea]
    | otra => simp [ordenDeConfirmacion, hotkeysLinea]

theorem manualLineas_absolutas (v : Ventana) (lineas : List LineaCaptura) :
    ∀ acc : List ClickCapturado,
      (lineas.foldl (manualLinea v) acc).map (fun c => (⟨c.x, c.y⟩ : Punto)) =
        acc.map (fun c => (⟨c.x, c.y⟩ : Punto)) ++ lineas.filterMap (clickAceptado v) := by
  induction lineas with
  | nil => intro acc; simp
  | cons l ls ih =>
    intro acc
    simp only [List.foldl_cons, ih]
    cases l with
    | firefoxClickCaptured x y ts p t =>
      by_cases hr : enRango (relativasDeClick v x y)
      · have hr' := hr
        unfold enRango relativasDeClick at hr'
        simp [manualLinea, clickAceptado, hr, hr', List.filterMap_cons]
      · have hr' := hr
        unfold enRango relativasDeClick at hr'
        simp [manualLinea, clickAceptado, hr, hr', List.filterMap_cons]
    | hookStartedSuccessfully => simp [manualLinea, clickAceptado, List.filterMap_cons]
    | errorHookFailed => simp [manualLinea, clickAceptado, List.filterMap_cons]
    | otra => simp [manualLinea, clickAceptado, List.filterMap_cons]

theorem manualEntradas_absolutas (dims : Dimensiones) (pagina : ℚ → ℚ → Option String)
    (clicks : List ClickCapturado) :
    ∀ i, (manualEntradas dims pagina i clicks).map (fun e => e.coordenadas.absolutas) =
      clicks.map (fun c => (⟨c.x, c.y⟩ : Punto)) := by
  induction clicks with
  | nil => intro i; rfl
  | cons c cs ih =>
    intro i
    simp [manualEntradas, manualEntrada, ih]

/-- C18: for every run of the script `captura_hotkeys.ps1`, whatever keys and clicks
its passes observe, the entries a hotkey session appends are the confirmed
coordinates in the order of the `STOP_RECORDING` lines that confirmed them; in direct
mode (`grabacionManual`) the entries appended are the accepted clicks in the order of
arrival of their lines. -/
theorem orden_de_las_entradas (v : Ventana) (dims : Dimensiones)
    (pagina : ℚ → ℚ → Option String) (pasos : List PasoScript)
    (lineasManual : List LineaCaptura) (nd : List Elemento) :
    grabacionConHotkeys true (some v) dims pagina (salidaScript pasos) nd =
      nd ++ (ordenDeConfirmacion v estadoInicialHotkeys (salidaScript pasos)).map
        (hotkeysEntrada dims pagina) ∧
    ∃ nuevas, grabacionManual true (some v) dims pagina lineasManual nd = nd ++ nuevas ∧
      nuevas.map (fun e => e.coordenadas.absolutas) =
        lineasManual.filterMap (clickAceptado v) := by
  constructor
  · have hp : sigueProtocolo false 1 (salidaScript pasos) := by
      simp only [salidaScript, sigueProtocolo, estadoInicialScript]
      exact bucleScript_protocolo pasos false 1 false
    have hinv : invarianteHotkeys 1 estadoInicialHotkeys.coordenadasGrabadas := by
      simp [invarianteHotkeys, estadoInicialHotkeys]
    have h := confirmadas_en_orden v (salidaScript pasos) false 1 estadoInicialHotkeys hp hinv
    simp only [grabacionConHotkeys, Bool.not_true, Bool.false_eq_true, if_false, h]
    simp [coordenadasConfirmadas, estadoInicialHotkeys]
  · refine ⟨manualEntradas dims pagina 0 (lineasManual.foldl (manualLinea v) []), by
      simp [grabacionManual], ?_⟩
    rw [manualEntradas_absolutas, manualLineas_absolutas]
    simp

theorem sesion_de_ejemplo :
    salidaScript pasosDeEjemplo =
      [.hotkeyCaptureStarted, .startRecording 1, .clickRecorded 10 10 1 1000,
        .stopRecording 1, .startRecording 2, .clickRecorded 20 20 2 2000,
        .stopRecording 2] ∧
    (ordenDeConfirmacion ⟨0, 0, 100, 100⟩ estadoInicialHotkeys
      (salidaScript pasosDeEjemplo)).map (fun c => (c.numero, c.x, c.y)) =
      [(1, 10, 10), (2, 20, 20)] := by
  have h1 : dentroDeVentana ⟨0, 0, 100, 100⟩ 10 10 := by
    unfold dentroDeVentana; norm_num
  have h2 : dentroDeVentana ⟨0, 0, 100, 100⟩ 20 20 := by
    unfold dentroDeVentana; norm_num
  have hs : salidaScript pasosDeEjemplo =
      [.hotkeyCaptureStarted, .startRecording 1, .clickRecorded 10 10 1 1000,
        .stopRecording 1, .startRecording 2, .clickRecorded 20 20 2 2000,
        .stopRecording 2] := by
    simp [salidaScript, bucleScript, pasoScript, pasosDeEjemplo, pasoVacio,
      estadoInicialScript]
  refine ⟨hs, ?_⟩
  rw [hs]
  simp only [ordenDeConfirmacion, hotkeysLinea_dentro _ _ _ _ _ _ h1,
    hotkeysLinea_dentro _ _ _ _ _ _ h2]
  simp [hotkeysLinea, estadoInicialHotkeys, confirmarEncontrada, primeraPendiente]

/-! ### Immutability of the entries -/

theorem metodo_deteccionAutomatica (dims : Dimensiones) (encontrados : List Encontrado) :
    ∀ e ∈ (numerosEncontrados encontrados).map (entradaDetectada dims),
      e.metodo = some "firefox_integrado" := by
  intro e he
  rcases List.mem_map.1 he with ⟨num, _, rfl⟩
  rfl

/-- C19, as stated, fails: with one hotkey entry recorded, `deteccionAutomatica` on a
page where no element is found replaces the list by the 44 entries of the fallback
grid; the hotkey entry is no longer in it. -/
theorem deteccion_reemplaza_las_entradas :
    entradaDeMetodo "hotkeys_controlado" 7 ∉
      deteccionAutomatica true dimensionesPorDefecto (some [])
        [entradaDeMetodo "hotkeys_controlado" 7] ∧
    (deteccionAutomatica true dimensionesPorDefecto (some [])
        [entradaDeMetodo "hotkeys_controlado" 7]).length = 44 := by
  constructor
  · intro h
    simp only [deteccionAutomatica, Bool.not_true, Bool.false_eq_true, if_false] at h
    have := metodo_deteccionAutomatica dimensionesPorDefecto [] _ h
    simp [entradaDeMetodo] at this
  · simp [deteccionAutomatica, numerosEncontrados, gridSimulado, gridPrincipal,
      apuestasExteriores, List.range, List.range.loop, celdaGrid]

/-- C19, amended: of the detector operations that write `numerosDetectados`, the
three recorders only append: the entries already in the list stay, unchanged and in
order, in front of the new ones.  `deteccionAutomatica`, when connected and the page
evaluation succeeds, replaces the whole list by the detected entries, whatever the
list held: the result is the map of what the page returned, at least ten entries, all
of them with the method `firefox_integrado`, so that no manual or hotkey entry is
left; when not connected or when the evaluation throws it leaves the list as it was.
`modoHibrido` runs it and then only appends. -/
theorem entradas_solo_se_agregan (dims : Dimensiones) (pagina : ℚ → ℚ → Option String)
    (nd : List Elemento) :
    (∀ con v lineas, ∃ nuevas, grabacionManual con v dims pagina lineas nd = nd ++ nuevas) ∧
    (∀ con v lineas, ∃ nuevas,
      grabacionConHotkeys con v dims pagina lineas nd = nd ++ nuevas) ∧
    (∀ con v lineas, ∃ nuevas,
      grabacionManualSistema con v dims pagina lineas nd = nd ++ nuevas) ∧
    (∀ encontrados,
      deteccionAutomatica true dims (some encontrados) nd =
        (numerosEncontrados encontrados).map (entradaDetectada dims) ∧
      10 ≤ (deteccionAutomatica true dims (some encontrados) nd).length ∧
      ∀ e ∈ deteccionAutomatica true dims (some encontrados) nd,
        e.metodo = some "firefox_integrado") ∧
    (∀ con dom, con = false ∨ dom = none → deteccionAutomatica con dims dom nd = nd) ∧
    (∀ con dom agregar v lineas, ∃ nuevas,
      modoHibrido con dims dom agregar v pagina lineas nd =
        deteccionAutomatica con dims dom nd ++ nuevas) := by
  have hsis : ∀ (con : Bool) (v : Option Ventana) (lineas : List LineaSistema)
      (l : List Elemento), ∃ nuevas,
      grabacionManualSistema con v dims pagina lineas l = l ++ nuevas := by
    intro con v lineas l
    cases con with
    | false => exact ⟨[], by simp [grabacionManualSistema]⟩
    | true =>
      cases v with
      | none => exact ⟨[], by simp [grabacionManualSistema]⟩
      | some v => exact ⟨_, rfl⟩
  refine ⟨?_, ?_, ?_, ?_, ?_, ?_⟩
  · intro con v lineas
    cases con with
    | false => exact ⟨[], by simp [grabacionManual]⟩
    | true =>
      cases v with
      | none => exact ⟨[], by simp [grabacionManual]⟩
      | some v => exact ⟨_, rfl⟩
  · intro con v lineas
    cases con with
    | false => exact ⟨[], by simp [grabacionConHotkeys]⟩
    | true =>
      cases v with
      | none => exact ⟨[], by simp [grabacionConHotkeys]⟩
      | some v => exact ⟨_, rfl⟩
  · intro con v lineas
    exact hsis con v lineas nd
  · intro encontrados
    have hdet : deteccionAutomatica true dims (some encontrados) nd =
        (numerosEncontrados encontrados).map (entradaDetectada dims) := by
      simp [deteccionAutomatica]
    refine ⟨hdet, ?_, ?_⟩
    · have hgrid : gridSimulado.length = 44 := by decide
      rw [hdet, List.length_map]
      unfold numerosEncontrados
      split
      · rw [List.length_append, hgrid]
        omega
      · omega
    · rw [hdet]
      exact metodo_deteccionAutomatica dims encontrados
  · intro con dom h
    rcases h with h | h
    · subst h
      simp [deteccionAutomatica]
    · subst h
      cases con <;> simp [deteccionAutomatica]
  · intro con dom agregar v lineas
    cases agregar with
    | false => exact ⟨[], by simp [modoHibrido]⟩
    | true =>
      obtain ⟨nuevas, h⟩ := hsis con v lineas (deteccionAutomatica con dims dom nd)
      exact ⟨nuevas, by simp [modoHibrido, h]⟩

/-! ### Window location of the detector -/

theorem scriptMejoradoProcesos_grande (procesos : List VentanaSistema) :
    ∀ v, scriptMejoradoProcesos procesos = some v → 100 < v.width ∧ 100 < v.height := by
  induction procesos with
  | nil => intro v h; simp [scriptMejoradoProcesos] at h
  | cons w ws ih =>
    intro v h
    simp only [scriptMejoradoProcesos] at h
    split at h
    · rename_i hc
      simp only [Bool.and_eq_true, decide_eq_true_eq] at hc
      simp only [Option.some.injEq] at h
      subst h
      obtain ⟨⟨_, hw⟩, hh⟩ := hc
      constructor
      · show (100 : ℚ) < (w.right : ℚ) - (w.left : ℚ)
        exact_mod_cast hw
      · show (100 : ℚ) < (w.bottom : ℚ) - (w.top : ℚ)
        exact_mod_cast hh
    · exact ih v h

/-- C20, the code at the failing input: the only Firefox window is minimised
(160 x 28).  The improved script rejects it and prints no geometry, the fallback to
`obtenerPosicionVentanaFirefox` runs the simple script, which has no size test, and
the method returns the geometry with height 28 instead of `null`. -/
theorem mejorada_devuelve_ventana_minimizada :
    scriptMejorado [ventanaMinimizada] [some ventanaMinimizada, none, none] = none ∧
    obtenerPosicionVentanaFirefoxMejorada
        (scriptMejorado [ventanaMinimizada] [some ventanaMinimizada, none, none])
        (scriptSimple (some ventanaMinimizada)) =
      some ⟨-32000, -32000, 160, 28⟩ := by
  have h1 : scriptMejorado [ventanaMinimizada] [some ventanaMinimizada, none, none]
      = none := by
    simp [scriptMejorado, scriptMejoradoProcesos, scriptMejoradoClases, ventanaMinimizada]
  refine ⟨h1, ?_⟩
  rw [h1]
  simp only [obtenerPosicionVentanaFirefoxMejorada, obtenerPosicionVentanaFirefox,
    scriptSimple, ventanaMinimizada]
  norm_num

/-! ### Export and load -/

/-- C21: for every non-empty `numerosDetectados` and every `dimensionesVentana`,
whatever else the working directory holds, loading with
`cargarCoordenadasExistentes` the file `exportarCoordenadasRelativas` wrote gives
`coordenadasRelativas` equal to the exported entries and a `ventanaJuego` at the
origin (0,0) with the exported width and height. -/
theorem exportar_y_cargar (modoIncognito : Bool) (dims : Dimensiones) (nd : List Elemento)
    (hnd : nd ≠ []) (fs : Archivos) (salida : Option VentanaJuego) (s : Clicker) :
    cargarCoordenadasExistentes
        (exportarCoordenadasRelativas modoIncognito dims nd false fs) salida s =
      ⟨some ⟨⟨0, 0, dims.width, dims.height⟩, some "firefox_integrado", some modoIncognito⟩,
        some nd⟩ := by
  have hlen : nd.length ≠ 0 := fun h => hnd (List.length_eq_zero.1 h)
  simp [cargarCoordenadasExistentes, cargarFirefoxIntegrado, exportarCoordenadasRelativas,
    escribirArchivo, datosExportados, hlen]

theorem exportar_y_cargar_witness :
    cargarCoordenadasExistentes
        (exportarCoordenadasRelativas true dimensionesPorDefecto
          [entradaEn (1 / 2) (1 / 2)] false archivosDeEjemplo) none clickerInicial =
      ⟨some ⟨⟨0, 0, 1280, 720⟩, some "firefox_integrado", some true⟩,
        some [entradaEn (1 / 2) (1 / 2)]⟩ :=
  exportar_y_cargar true dimensionesPorDefecto [entradaEn (1 / 2) (1 / 2)] (by simp)
    archivosDeEjemplo none clickerInicial

/-! ### The pause between clicks -/

theorem doble_500 : doble 500 = 500 := by
  rw [doble_eq 500 8 8796093022208000 (by norm_num)
    (by rw [abs_of_nonneg (by norm_num)]; norm_num)
    (by rw [abs_of_nonneg (by norm_num)]; norm_num) (by norm_num) (by norm_num)]
  norm_num

theorem doble_800 : doble 800 = 800 := by
  rw [doble_eq 800 9 7036874417766400 (by norm_num)
    (by rw [abs_of_nonneg (by norm_num)]; norm_num)
    (by rw [abs_of_nonneg (by norm_num)]; norm_num) (by norm_num) (by norm_num)]
  norm_num

theorem doble_1300 : doble 1300 = 1300 := by
  rw [doble_eq 1300 10 5717460464435200 (by norm_num)
    (by rw [abs_of_nonneg (by norm_num)]; norm_num)
    (by rw [abs_of_nonneg (by norm_num)]; norm_num) (by norm_num) (by norm_num)]
  norm_num

theorem doble_producto_mayor :
    doble ((1 - 1 / 2 ^ 52) * 800) = 800 - 1 / 2 ^ 42 := by
  rw [doble_eq _ 9 7036874417766398 (by norm_num)
    (by rw [abs_of_nonneg (by norm_num)]; norm_num)
    (by rw [abs_of_nonneg (by norm_num)]; norm_num) (by norm_num) (by norm_num)]
  norm_num

theorem doble_suma_mayor : doble (800 - 1 / 2 ^ 42 + 500) = 1300 - 1 / 2 ^ 42 := by
  rw [doble_eq _ 10 5717460464435199 (by norm_num)
    (by rw [abs_of_nonneg (by norm_num)]; norm_num)
    (by rw [abs_of_nonneg (by norm_num)]; norm_num) (by norm_num) (by norm_num)]
  norm_num

theorem doble_sorteo_extremo : doble (1 - 1 / 2 ^ 53) = 1 - 1 / 2 ^ 53 := by
  rw [doble_eq _ (-1) 9007199254740991 (by norm_num)
    (by rw [abs_of_nonneg (by norm_num)]; norm_num)
    (by rw [abs_of_nonneg (by norm_num)]; norm_num) (by norm_num) (by norm_num)]
  norm_num

theorem doble_producto_extremo : doble ((1 - 1 / 2 ^ 53) * 800) = 800 - 1 / 2 ^ 43 := by
  rw [doble_eq _ 9 7036874417766399 (by norm_num)
    (by rw [abs_of_nonneg (by norm_num)]; norm_num)
    (by rw [abs_of_nonneg (by norm_num)]; norm_num) (by norm_num) (by norm_num)]
  norm_num

theorem doble_suma_extrema : doble (800 - 1 / 2 ^ 43 + 500) = 1300 := by
  have hn : redondeoPar ((800 - 1 / 2 ^ 43 + 500) / 2 ^ ((10 : ℤ) - 52)) = 5717460464435200 := by
    have h : ((800 : ℚ) - 1 / 2 ^ 43 + 500) / 2 ^ ((10 : ℤ) - 52) =
        ((5717460464435199 : ℤ) : ℚ) + 1 / 2 := by norm_num
    rw [h, redondeoPar_empate]
    norm_num
  rw [doble_eq_of _ 10 5717460464435200 (by norm_num)
    (by rw [abs_of_nonneg (by norm_num)]; norm_num)
    (by rw [abs_of_nonneg (by norm_num)]; norm_num) hn]
  norm_num

/-- C24, as stated, fails: the draw `r = 1 - 2^-53`, the largest double below 1, lies
in `[0, 1)`; the product `r * 800` is rounded to the double `800 - 2^-43`, and its sum
with 500, half-way between two doubles, is rounded to exactly 1300. -/
theorem pausa_llega_a_1300 :
    (0 : ℚ) ≤ 1 - 1 / 2 ^ 53 ∧ (1 : ℚ) - 1 / 2 ^ 53 < 1 ∧
    doble (1 - 1 / 2 ^ 53) = 1 - 1 / 2 ^ 53 ∧
    pausaHumana (1 - 1 / 2 ^ 53) = 1300 := by
  refine ⟨by norm_num, by norm_num, doble_sorteo_extremo, ?_⟩
  unfold pausaHumana
  rw [doble_producto_extremo, doble_suma_extrema]

/-- C24, amended: for every draw `r` with `0 <= r < 1`, the pause the code computes in
double arithmetic lies between 500 and 1300, both included; it is below 1300 for
every draw up to `1 - 2^-52`. -/
theorem pausa_entre_500_y_1300 (r : ℚ) (h0 : 0 ≤ r) (h1 : r < 1) :
    500 ≤ pausaHumana r ∧ pausaHumana r ≤ 1300 ∧
    (r ≤ 1 - 1 / 2 ^ 52 → pausaHumana r < 1300) := by
  have hp0 : 0 ≤ doble (r * 800) := doble_nonneg _ (by linarith)
  have hp1 : doble (r * 800) ≤ 800 := by
    have := doble_mono (r * 800) 800 (by linarith) (by linarith)
    rwa [doble_800] at this
  unfold pausaHumana
  refine ⟨?_, ?_, ?_⟩
  · have := doble_mono 500 (doble (r * 800) + 500) (by norm_num) (by linarith)
    rwa [doble_500] at this
  · have := doble_mono (doble (r * 800) + 500) 1300 (by linarith) (by linarith)
    rwa [doble_1300] at this
  · intro h2
    have hp2 : doble (r * 800) ≤ 800 - 1 / 2 ^ 42 := by
      have := doble_mono (r * 800) ((1 - 1 / 2 ^ 52) * 800) (by linarith) (by linarith)
      rwa [doble_producto_mayor] at this
    have := doble_mono (doble (r * 800) + 500) (800 - 1 / 2 ^ 42 + 500) (by linarith)
      (by linarith)
    rw [doble_suma_mayor] at this
    have h3 : (1300 : ℚ) - 1 / 2 ^ 42 < 1300 := by norm_num
    linarith

theorem pausa_entre_500_y_1300_witness :
    500 ≤ pausaHumana (3 / 4) ∧ pausaHumana (3 / 4) ≤ 1300 ∧ pausaHumana (3 / 4) < 1300 :=
  ⟨(pausa_entre_500_y_1300 (3 / 4) (by norm_num) (by norm_num)).1,
    (pausa_entre_500_y_1300 (3 / 4) (by norm_num) (by norm_num)).2.1,
    (pausa_entre_500_y_1300 (3 / 4) (by norm_num) (by norm_num)).2.2 (by norm_num)⟩

/-! ### Conversion of the oldest format -/

/-- C22, the code at the failing input: `clicks_fisicos.json` holds the clicks of the
numbers 0 and 7 and a window is detected at (100, 200) with size 800 x 600.  Both
clicks give an entry with kind `numero` and the stated coordinates, in order, but the
entry of the number 0 has no `valor` (`undefined`), where the entry of 7 has 7. -/
theorem conversion_pierde_el_cero :
    (cargarCoordenadasExistentes archivosSoloClicks (some ventanaDeEjemplo)
        clickerInicial).coordenadasRelativas =
      some [⟨none, "numero", none, none, ⟨⟨1 / 2, 1 / 2⟩, ⟨500, 500⟩⟩,
              none, none, none, none⟩,
            ⟨some (.num 7), "numero", none, none, ⟨⟨1 / 4, 1 / 4⟩, ⟨300, 350⟩⟩,
              none, none, none, none⟩] := by
  simp only [cargarCoordenadasExistentes, cargarFirefoxIntegrado, cargarNavegadorIntegrado,
    cargarConVentana, cargarClicksFisicos, convertirCoordenadasAbsolutas,
    detectarVentanaActual, clickerInicial, archivosSoloClicks, convertirClick,
    relativasDeClick, ventanaDeEjemplo, oSi, oTexto, Valor.truthy]
  simp [convertirClick, relativasDeClick, oSi, oTexto, Valor.truthy]
  norm_num

/-! ### `esNumero` -/

/-- C23, the code at the failing input: `esNumero` is true for the labels `1st 12`,
`2nd 12` and `3rd 12` (as for `7abc`), because `parseInt` reads their leading digits;
so the three dozens of the fallback grid get the kind `numero`.  It is true for `7`
and `36` and false for `RED`, `BLACK`, `EVEN` and `ODD`. -/
theorem esNumero_acepta_docenas :
    esNumero (some (.str "1st 12")) = true ∧ esNumero (some (.str "2nd 12")) = true ∧
    esNumero (some (.str "3rd 12")) = true ∧ esNumero (some (.str "7abc")) = true ∧
    esNumero (some (.str "7")) = true ∧ esNumero (some (.str "36")) = true ∧
    esNumero (some (.str "RED")) = false ∧ esNumero (some (.str "BLACK")) = false ∧
    esNumero (some (.str "EVEN")) = false ∧ esNumero (some (.str "ODD")) = false ∧
    ((deteccionAutomatica true dimensionesPorDefecto (some []) []).drop 37).map
        (fun e => (e.valor, e.tipo)) =
      [(some (.str "RED"), "apuesta"), (some (.str "BLACK"), "apuesta"),
       (some (.str "EVEN"), "apuesta"), (some (.str "ODD"), "apuesta"),
       (some (.str "1st 12"), "numero"), (some (.str "2nd 12"), "numero"),
       (some (.str "3rd 12"), "numero")] := by
  refine ⟨by decide, by decide, by decide, by decide, by decide, by decide, by decide,
    by decide, by decide, by decide, ?_⟩
  decide

/-! ### The fallback grid -/

theorem valores_gridSimulado : gridSimulado.map (fun c => c.valor) = valoresSimulados := by
  decide

theorem posiciones_gridSimulado :
    gridSimulado.map (fun c => (c.x, c.y)) = posicionesSimuladas ++ posicionesExteriores := by
  simp [gridSimulado, gridPrincipal, celdaGrid, celdaCero, apuestasExteriores, List.range,
    List.range.loop, List.flatMap, startX, startY, cellWidth, cellHeight, posicionesSimuladas,
    posicionesExteriores]
  norm_num

theorem posiciones_gridPrincipal :
    gridPrincipal.map (fun c => (c.x, c.y)) = posicionesSimuladas := by
  simp [gridPrincipal, celdaGrid, List.range, List.range.loop, List.flatMap, startX, startY,
    cellWidth, cellHeight, posicionesSimuladas]
  norm_num

theorem deteccion_sin_elementos (dims : Dimensiones) (nd : List Elemento) :
    deteccionAutomatica true dims (some []) nd = gridSimulado.map (entradaDetectada dims) := by
  simp [deteccionAutomatica, numerosEncontrados]

/-- C27, the code at the failing input: the cells of column 0 of the fallback grid,
at (120, 180), (120, 218) and (120, 256), carry 3, 6 and 9, the first three numbers of
the row the comment calls the top one; the cell of column 0 and row 1 carries 6, not
3 * (0 + 1) - 1 = 2. -/
theorem grid_no_sigue_los_comentarios :
    (gridPrincipal.take 3).map (fun c => (c.valor, c.x, c.y)) =
      [(.num 3, 120, 180), (.num 6, 120, 218), (.num 9, 120, 256)] ∧
    (celdaGrid 0 1).map (fun c => (c.valor, c.x, c.y)) = some (.num 6, 120, 218) := by
  constructor
  · simp [gridPrincipal, celdaGrid, List.range, List.range.loop, List.flatMap, startX,
      startY, cellWidth, cellHeight, numerosRuleta]
    norm_num
  · simp [celdaGrid, startX, startY, cellWidth, cellHeight, numerosRuleta]
    norm_num

/-- C28: when no element is found on the page, the result of `deteccionAutomatica`
is the fallback grid alone: 44 entries, in which each roulette number 0..36 is the
value of exactly one entry and each of the outer bets RED, BLACK, EVEN, ODD, 1st 12,
2nd 12, 3rd 12 of exactly one; the first 36 are the grid cells, at pairwise distinct
positions, and the next one is the zero cell. -/
theorem grid_simulado_completo (dims : Dimensiones) (nd : List Elemento) :
    (deteccionAutomatica true dims (some []) nd).length = 44 ∧
    (∀ k : Fin 37, ((deteccionAutomatica true dims (some []) nd).map
      (fun e => e.valor)).count (some (.num ((k : ℕ) : ℤ))) = 1) ∧
    (∀ apuesta ∈ ["RED", "BLACK", "EVEN", "ODD", "1st 12", "2nd 12", "3rd 12"],
      ((deteccionAutomatica true dims (some []) nd).map
        (fun e => e.valor)).count (some (.str apuesta)) = 1) ∧
    ((deteccionAutomatica true dims (some []) nd).take 36).map
        (fun e => (e.coordenadas.absolutas.x, e.coordenadas.absolutas.y))
      = posicionesSimuladas ∧
    posicionesSimuladas.Nodup ∧ posicionesSimuladas.length = 36 ∧
    ((deteccionAutomatica true dims (some []) nd)[36]?).map
        (fun e => (e.valor, e.selector)) = some (some (.num 0), some "simulado_cero") := by
  have hval : (deteccionAutomatica true dims (some []) nd).map (fun e => e.valor) =
      valoresSimulados.map some := by
    rw [deteccion_sin_elementos, ← valores_gridSimulado]
    simp [entradaDetectada, Function.comp_def]
  have hpos : (deteccionAutomatica true dims (some []) nd).map
      (fun e => (e.coordenadas.absolutas.x, e.coordenadas.absolutas.y)) =
      posicionesSimuladas ++ posicionesExteriores := by
    rw [deteccion_sin_elementos, ← posiciones_gridSimulado]
    simp [entradaDetectada, Function.comp_def]
  refine ⟨?_, ?_, ?_, ?_, by decide, by decide, ?_⟩
  · rw [deteccion_sin_elementos, List.length_map]
    decide
  · rw [hval]
    decide
  · rw [hval]
    decide
  · rw [List.map_take, hpos]
    have hlen : posicionesSimuladas.length = 36 := by decide
    rw [List.take_append_of_le_length (by omega), List.take_of_length_le (by omega)]
  · rw [deteccion_sin_elementos]
    simp only [List.getElem?_map, Option.map_map]
    have h : (gridSimulado[36]?).map (fun c => (some c.valor, some c.selector)) =
        some (some (.num 0), some "simulado_cero") := by
      rw [← List.getElem?_map]
      decide
    simpa [entradaDetectada, Function.comp_def] using h

/-- C29: with the default viewport of 1280 x 720 every entry of the fallback grid
has its relative point within `[0,1]` on both axes. -/
theorem grid_simulado_en_rango (nd : List Elemento) :
    ∀ e ∈ deteccionAutomatica true dimensionesPorDefecto (some []) nd,
      enRango e.coordenadas.relativas := by
  intro e he
  rw [deteccion_sin_elementos] at he
  rcases List.mem_map.1 he with ⟨num, hnum, rfl⟩
  have hp : (num.x, num.y) ∈ posicionesSimuladas ++ posicionesExteriores := by
    rw [← posiciones_gridSimulado]
    exact List.mem_map_of_mem (fun c => (c.x, c.y)) hnum
  have hcota : ∀ p ∈ posicionesSimuladas ++ posicionesExteriores,
      0 ≤ p.1 ∧ p.1 ≤ 1280 ∧ 0 ≤ p.2 ∧ p.2 ≤ 720 := by decide
  obtain ⟨hx0, hx1, hy0, hy1⟩ := hcota _ hp
  have hx := fraccion_en_rango num.x 0 1280 (by norm_num)
  have hy := fraccion_en_rango num.y 0 720 (by norm_num)
  simp only [sub_zero, zero_add] at hx hy
  simp only [entradaDetectada, enRango, dimensionesPorDefecto]
  exact ⟨(hx.2 ⟨hx0, hx1⟩).1, (hx.2 ⟨hx0, hx1⟩).2, (hy.2 ⟨hy0, hy1⟩).1, (hy.2 ⟨hy0, hy1⟩).2⟩

theorem celdaCero_detectada :
    entradaDetectada dimensionesPorDefecto celdaCero ∈
      deteccionAutomatica true dimensionesPorDefecto (some []) [] := by
  rw [deteccion_sin_elementos]
  exact List.mem_map_of_mem _ (by simp [gridSimulado])

theorem grid_simulado_en_rango_witness :
    entradaDetectada dimensionesPorDefecto celdaCero ∈
      deteccionAutomatica true dimensionesPorDefecto (some []) [] ∧
    enRango (entradaDetectada dimensionesPorDefecto celdaCero).coordenadas.relativas :=
  ⟨celdaCero_detectada, grid_simulado_en_rango [] _ celdaCero_detectada⟩

/-! ### The two window filters -/

theorem manualLinea_dentro (v : Ventana) (x y ts : ℤ) (p t : Option String)
    (clicks : List ClickCapturado) (h : enRango (relativasDeClick v x y)) :
    manualLinea v clicks (.firefoxClickCaptured x y ts p t) =
      clicks ++ [{ x := x, y := y, relX := (relativasDeClick v x y).x,
                   relY := (relativasDeClick v x y).y, timestamp := ts,
                   processName := oTexto p "unknown", windowTitle := oTexto t "unknown" }] := by
  unfold enRango relativasDeClick at h
  simp only [manualLinea, relativasDeClick]
  rw [if_pos h]

theorem sistemaLinea_dentro (v : Ventana) (x y ahora : ℤ) (e : List ClickSistema × Bool)
    (h : dentroDeVentana v x y) :
    sistemaLinea v e (.click x y ahora) =
      (e.1 ++ [{ x := x, y := y, relX := (relativasDeClick v x y).x,
                 relY := (relativasDeClick v x y).y, timestamp := ahora }], e.2) := by
  unfold dentroDeVentana at h
  simp only [sistemaLinea, relativasDeClick]
  rw [if_pos h]

/-- C30: for a window of positive width and height and an integer click point, the
relative test of `grabacionManual` holds exactly when the bounding-box test of
`grabacionConHotkeys` and `grabacionManualSistema` holds; when it holds the three
handlers store the click with one and the same relative point, and when it fails all
three discard it. -/
theorem filtros_equivalentes (v : Ventana) (hw : 0 < v.width) (hh : 0 < v.height)
    (x y : ℤ) :
    (enRango (relativasDeClick v x y) ↔ dentroDeVentana v x y) ∧
    (dentroDeVentana v x y →
      (∀ clicks ts p t, manualLinea v clicks (.firefoxClickCaptured x y ts p t) =
        clicks ++ [{ x := x, y := y, relX := (relativasDeClick v x y).x,
                     relY := (relativasDeClick v x y).y, timestamp := ts,
                     processName := oTexto p "unknown",
                     windowTitle := oTexto t "unknown" }]) ∧
      (∀ s num ahora, hotkeysLinea v s (.clickRecorded x y num ahora) =
        { s with coordenadasGrabadas := s.coordenadasGrabadas ++
            [{ numero := num, x := x, y := y, relX := (relativasDeClick v x y).x,
               relY := (relativasDeClick v x y).y, timestamp := ahora,
               confirmado := false }] }) ∧
      (∀ e ahora, sistemaLinea v e (.click x y ahora) =
        (e.1 ++ [{ x := x, y := y, relX := (relativasDeClick v x y).x,
                   relY := (relativasDeClick v x y).y, timestamp := ahora }], e.2))) ∧
    (¬ dentroDeVentana v x y →
      (∀ clicks ts p t, manualLinea v clicks (.firefoxClickCaptured x y ts p t) = clicks) ∧
      (∀ s num ahora, hotkeysLinea v s (.clickRecorded x y num ahora) = s) ∧
      (∀ e ahora, sistemaLinea v e (.click x y ahora) = e)) := by
  have hiff := rango_iff_dentro v hw hh x y
  refine ⟨hiff, ?_, ?_⟩
  · intro hd
    exact ⟨fun clicks ts p t => manualLinea_dentro v x y ts p t clicks (hiff.2 hd),
      fun s num ahora => hotkeysLinea_dentro v x y num ahora s hd,
      fun e ahora => sistemaLinea_dentro v x y ahora e hd⟩
  · intro hd
    exact ⟨fun clicks ts p t => manualLinea_fuera v x y ts p t clicks
        (fun h => hd (hiff.1 h)),
      fun s num ahora => hotkeysLinea_fuera v x y num ahora s hd,
      fun e ahora => sistemaLinea_fuera v x y ahora e hd⟩

theorem filtros_equivalentes_witness :
    (manualLinea ⟨100, 200, 800, 600⟩ [] (.firefoxClickCaptured 500 500 0 none none)).map
        (fun c => (c.relX, c.relY)) =
      [((relativasDeClick ⟨100, 200, 800, 600⟩ (500 : ℤ) (500 : ℤ)).x,
        (relativasDeClick ⟨100, 200, 800, 600⟩ (500 : ℤ) (500 : ℤ)).y)] ∧
    (sistemaLinea ⟨100, 200, 800, 600⟩ ([], false) (.click 500 500 0)).1.map
        (fun c => (c.relX, c.relY)) =
      [((relativasDeClick ⟨100, 200, 800, 600⟩ (500 : ℤ) (500 : ℤ)).x,
        (relativasDeClick ⟨100, 200, 800, 600⟩ (500 : ℤ) (500 : ℤ)).y)] := by
  have h := (filtros_equivalentes ⟨100, 200, 800, 600⟩ (by norm_num) (by norm_num)
    500 500).2.1 (by unfold dentroDeVentana; norm_num)
  rw [h.1 [] 0 none none, h.2.2 ([], false) 0]
  simp

/-! ### Diagnostics -/

theorem coherente_exito (nombre mensaje : String) :
    solucionCoherente ⟨nombre, true, mensaje, none⟩ := by
  simp [solucionCoherente]

theorem coherente_fallo (nombre mensaje solucion : String) (h : solucion ≠ "") :
    solucionCoherente ⟨nombre, false, mensaje, some solucion⟩ := by
  simp [solucionCoherente, h]

theorem coherente_agregar (rs : List ResultadoDiagnostico) (x : ResultadoDiagnostico)
    (h : ∀ r ∈ rs, solucionCoherente r) (hx : solucionCoherente x) :
    ∀ r ∈ rs ++ [x], solucionCoherente r := by
  intro r hr
  rcases List.mem_append.1 hr with hr | hr
  · exact h r hr
  · rw [List.mem_singleton] at hr
    subst hr
    exact hx

theorem coherente_verificarPlaywright (e : Entorno) (rs : List ResultadoDiagnostico)
    (h : ∀ r ∈ rs, solucionCoherente r) :
    ∀ r ∈ verificarPlaywright e rs, solucionCoherente r := by
  unfold verificarPlaywright
  split
  · exact coherente_agregar rs _ h (coherente_fallo _ _ _ (by decide))
  · split
    · exact coherente_agregar rs _ h (coherente_exito _ _)
    · exact coherente_agregar rs _ h (coherente_fallo _ _ _ (by decide))

theorem coherente_verificarPowerShell (e : Entorno) (rs : List ResultadoDiagnostico)
    (h : ∀ r ∈ rs, solucionCoherente r) :
    ∀ r ∈ verificarPowerShell e rs, solucionCoherente r := by
  unfold verificarPowerShell
  split
  · split
    · exact coherente_agregar rs _ h (coherente_exito _ _)
    · exact coherente_agregar rs _ h (coherente_fallo _ _ _ (by decide))
  · exact coherente_agregar rs _ h (coherente_fallo _ _ _ (by decide))

theorem coherente_verificarPermisos (e : Entorno) (rs : List ResultadoDiagnostico)
    (h : ∀ r ∈ rs, solucionCoherente r) :
    ∀ r ∈ verificarPermisos e rs, solucionCoherente r := by
  unfold verificarPermisos
  split
  · dsimp only
    split
    · exact coherente_agregar rs _ h (coherente_exito _ _)
    · exact coherente_agregar rs _ h (coherente_fallo _ _ _ (by decide))
  · exact coherente_agregar rs _ h (coherente_fallo _ _ _ (by decide))

theorem coherente_verificarFirefoxProceso (e : Entorno) (rs : List ResultadoDiagnostico)
    (h : ∀ r ∈ rs, solucionCoherente r) :
    ∀ r ∈ verificarFirefoxProceso e rs, solucionCoherente r := by
  unfold verificarFirefoxProceso
  split
  · split
    · exact coherente_agregar rs _ h (coherente_exito _ _)
    · exact coherente_agregar rs _ h (coherente_fallo _ _ _ (by decide))
  · exact coherente_agregar rs _ h (coherente_fallo _ _ _ (by decide))

theorem coherente_verificarFirefoxPlaywright (e : Entorno) (rs : List ResultadoDiagnostico)
    (h : ∀ r ∈ rs, solucionCoherente r) :
    ∀ r ∈ verificarFirefoxPlaywright e rs, solucionCoherente r := by
  unfold verificarFirefoxPlaywright
  split
  · exact coherente_agregar rs _ h (coherente_fallo _ _ _ (by decide))
  · have h1 := coherente_agregar rs _ h
      (coherente_exito "Firefox Playwright" "Firefox de Playwright funciona correctamente")
    split
    · exact h1
    · exact coherente_agregar _ _ h1 (coherente_fallo _ _ _ (by decide))

theorem coherente_verificarSelectores (e : Entorno) (rs : List ResultadoDiagnostico)
    (h : ∀ r ∈ rs, solucionCoherente r) :
    ∀ r ∈ verificarSelectores e rs, solucionCoherente r := by
  unfold verificarSelectores
  split
  · exact coherente_agregar rs _ h (coherente_fallo _ _ _ (by decide))
  · split
    · exact coherente_agregar rs _ h (coherente_fallo _ _ _ (by decide))
    · dsimp only
      split
      · exact coherente_agregar rs _ h (coherente_exito _ _)
      · exact coherente_agregar rs _ h (coherente_fallo _ _ _ (by decide))

theorem coherente_verificarHooks (e : Entorno) (rs : List ResultadoDiagnostico)
    (h : ∀ r ∈ rs, solucionCoherente r) :
    ∀ r ∈ verificarHooks e rs, solucionCoherente r := by
  unfold verificarHooks
  split
  · exact coherente_agregar rs _ h (coherente_fallo _ _ _ (by decide))
  · split
    · exact coherente_agregar rs _ h (coherente_fallo _ _ _ (by decide))
    · rename_i resultado _
      dsimp only
      by_cases hinc : incluye resultado "HOOK_TEST_SUCCESS" = true
      · have h1 := coherente_agregar rs _ h
          (coherente_exito "Hooks de Mouse" "Hooks de sistema funcionan correctamente")
        simp only [hinc, if_true]
        split
        · exact h1
        · exact coherente_agregar _ _ h1 (coherente_fallo _ _ _ (by decide))
      · have h1 := coherente_agregar rs _ h
          (coherente_fallo "Hooks de Mouse" "Hooks de sistema no funcionan"
            "Ejecuta como administrador o verifica permisos de seguridad" (by decide))
        simp only [hinc]
        split
        · exact h1
        · exact coherente_agregar _ _ h1 (coherente_fallo _ _ _ (by decide))

/-- C26: whatever the probes meet, every result recorded by a diagnostic run has a
remediation text that is `null` exactly when the probe passed (`estado` true) and a
non-empty string exactly when it failed (`estado` false). -/
theorem solucion_segun_estado (e : Entorno) :
    ∀ r ∈ ejecutarDiagnostico e [],
      (r.estado = true ↔ r.solucion = none) ∧
      (r.estado = false ↔ ∃ texto, r.solucion = some texto ∧ texto ≠ "") := by
  intro r hr
  have h : ∀ r ∈ ejecutarDiagnostico e [], solucionCoherente r := by
    unfold ejecutarDiagnostico
    apply coherente_verificarHooks
    apply coherente_verificarSelectores
    apply coherente_verificarFirefoxPlaywright
    apply coherente_verificarFirefoxProceso
    apply coherente_verificarPermisos
    apply coherente_verificarPowerShell
    apply coherente_verificarPlaywright
    intro r hr
    simp at hr
  exact h r hr

theorem nombre_verificarPlaywright (e : Entorno) (rs : List ResultadoDiagnostico) :
    (verificarPlaywright e rs).map (fun r => r.nombre) =
      rs.map (fun r => r.nombre) ++ ["Playwright Instalado"] := by
  unfold verificarPlaywright
  split
  · simp
  · split <;> simp

theorem nombre_verificarPowerShell (e : Entorno) (rs : List ResultadoDiagnostico) :
    (verificarPowerShell e rs).map (fun r => r.nombre) =
      rs.map (fun r => r.nombre) ++ ["PowerShell Disponible"] := by
  unfold verificarPowerShell
  dsimp only
  split
  · split <;> simp
  · simp

theorem nombre_verificarPermisos (e : Entorno) (rs : List ResultadoDiagnostico) :
    (verificarPermisos e rs).map (fun r => r.nombre) =
      rs.map (fun r => r.nombre) ++ ["Permisos PowerShell"] := by
  unfold verificarPermisos
  split
  · dsimp only
    split <;> simp
  · simp

theorem nombre_verificarFirefoxProceso (e : Entorno) (rs : List ResultadoDiagnostico) :
    (verificarFirefoxProceso e rs).map (fun r => r.nombre) =
      rs.map (fun r => r.nombre) ++ ["Firefox Ejecutándose"] := by
  unfold verificarFirefoxProceso
  split
  · split <;> simp
  · simp

theorem nombre_verificarFirefoxPlaywright (e : Entorno) (rs : List ResultadoDiagnostico)
    (h : e.arranque = none → e.cierre = none) :
    (verificarFirefoxPlaywright e rs).map (fun r => r.nombre) =
      rs.map (fun r => r.nombre) ++ ["Firefox Playwright"] := by
  unfold verificarFirefoxPlaywright
  dsimp only
  split
  · simp
  · rename_i ha
    rw [h ha]
    simp

theorem nombre_verificarSelectores (e : Entorno) (rs : List ResultadoDiagnostico) :
    (verificarSelectores e rs).map (fun r => r.nombre) =
      rs.map (fun r => r.nombre) ++ ["Selectores CSS"] := by
  unfold verificarSelectores
  dsimp only
  split
  · simp
  · split
    · simp
    · split <;> simp

theorem nombre_verificarHooks (e : Entorno) (rs : List ResultadoDiagnostico)
    (h : e.escritura = true → ∀ salida, e.hooks = .resuelve salida → e.borrado = true) :
    (verificarHooks e rs).map (fun r => r.nombre) =
      rs.map (fun r => r.nombre) ++ ["Hooks de Mouse"] := by
  unfold verificarHooks
  dsimp only
  split
  · simp
  · rename_i he
    split
    · simp
    · rename_i resultado hh
      rw [h (by simpa using he) resultado hh]
      simp only [if_true]
      split <;> simp

/-- When no clean-up step throws after its probe has recorded a result (the test
browser of the fifth probe closes, `test_hooks.ps1` is deleted), the run records one
result per probe, in probe order, whatever the probes themselves meet. -/
theorem un_resultado_por_sonda (e : Entorno)
    (hcierre : e.arranque = none → e.cierre = none)
    (hborrado : e.escritura = true → ∀ salida, e.hooks = .resuelve salida → e.borrado = true) :
    (ejecutarDiagnostico e []).map (fun r => r.nombre) = nombresDeSondas := by
  unfold ejecutarDiagnostico
  rw [nombre_verificarHooks e _ hborrado, nombre_verificarSelectores,
    nombre_verificarFirefoxPlaywright e _ hcierre, nombre_verificarFirefoxProceso,
    nombre_verificarPermisos, nombre_verificarPowerShell, nombre_verificarPlaywright]
  rfl

theorem incluye_version : incluye "Version : 5.1.19041" "Version" = true := by decide

theorem incluye_firefox : incluye "firefox  Mozilla Firefox" "firefox" = true := by decide

theorem incluye_hook : incluye "HOOK_TEST_SUCCESS" "HOOK_TEST_SUCCESS" = true := by decide

theorem politica_sana : jsTrim "RemoteSigned " = "RemoteSigned" := by decide

theorem selectores_sanos : contarSelectores (fun _ => some 1) selectoresTest = 5 := by decide

theorem porcentaje_sano : Math.round ((5 : ℚ) / (selectoresTest.length : ℚ) * 100) = 100 := by
  have h : selectoresTest.length = 5 := rfl
  rw [h]
  unfold Math.round
  norm_num

/-- C25: a run records more than one result for a probe. On a machine where every
probe passes, a test browser that fails to close makes the fifth probe record
"Firefox Playwright" twice (passed, then failed), and a test script that cannot be
deleted makes the seventh probe record "Hooks de Mouse" twice: eight results for
seven probes, where the same machine without the clean-up failure records seven. -/
theorem limpieza_fallida_duplica_resultado :
    (ejecutarDiagnostico entornoSano []).map (fun r => (r.nombre, r.estado)) =
      [("Playwright Instalado", true), ("PowerShell Disponible", true),
       ("Permisos PowerShell", true), ("Firefox Ejecutándose", true),
       ("Firefox Playwright", true), ("Selectores CSS", true), ("Hooks de Mouse", true)] ∧
    (ejecutarDiagnostico entornoCierreFallido []).map (fun r => (r.nombre, r.estado)) =
      [("Playwright Instalado", true), ("PowerShell Disponible", true),
       ("Permisos PowerShell", true), ("Firefox Ejecutándose", true),
       ("Firefox Playwright", true), ("Firefox Playwright", false),
       ("Selectores CSS", true), ("Hooks de Mouse", true)] ∧
    (ejecutarDiagnostico entornoBorradoFallido []).map (fun r => (r.nombre, r.estado)) =
      [("Playwright Instalado", true), ("PowerShell Disponible", true),
       ("Permisos PowerShell", true), ("Firefox Ejecutándose", true),
       ("Firefox Playwright", true), ("Selectores CSS", true), ("Hooks de Mouse", true),
       ("Hooks de Mouse", false)] := by
  refine ⟨?_, ?_, ?_⟩ <;>
    simp [ejecutarDiagnostico, verificarPlaywright, verificarPowerShell, verificarPermisos,
      verificarFirefoxProceso, verificarFirefoxPlaywright, verificarSelectores,
      verificarHooks, entornoSano, entornoCierreFallido, entornoBorradoFallido, oTexto,
      incluye_version, incluye_firefox, incluye_hook, politica_sana, selectores_sanos,
      porcentaje_sano]

theorem cierre_fallido_registrado :
    resultadoCierreFallido ∈ ejecutarDiagnostico entornoCierreFallido [] := by
  simp [ejecutarDiagnostico, verificarPlaywright, verificarPowerShell, verificarPermisos,
    verificarFirefoxProceso, verificarFirefoxPlaywright, verificarSelectores,
    verificarHooks, entornoSano, entornoCierreFallido, resultadoCierreFallido, oTexto,
    incluye_version, incluye_firefox, incluye_hook, politica_sana, selectores_sanos,
    porcentaje_sano]

theorem solucion_segun_estado_witness :
    resultadoCierreFallido ∈ ejecutarDiagnostico entornoCierreFallido [] ∧
    (resultadoCierreFallido.estado = true ↔ resultadoCierreFallido.solucion = none) ∧
    (resultadoCierreFallido.estado = false ↔
      ∃ texto, resultadoCierreFallido.solucion = some texto ∧ texto ≠ "") :=
  ⟨cierre_fallido_registrado,
    solucion_segun_estado entornoCierreFallido resultadoCierreFallido
      cierre_fallido_registrado⟩

end Casino
